import Mathlib

/-!
Mi-Coach: continuous-recording orchestration and nudge throttle

A shallow embedding of `src/utils/continuousRecordingService.js` and
`src/utils/nudgeEngine.js`.

Conventions of the embedding

* JavaScript strings are Lean strings; `String.prototype.includes` is the
  substring test `includes`.
* `String.prototype.toLowerCase` is a primitive of the JavaScript runtime, not
  of this repository: every function that calls it takes the lower-casing
  function as its first argument `lc`.  `asciiLower` is the instance used on
  concrete ASCII inputs, where the two agree.
* JavaScript numbers that hold scores are IEEE-754 binary64 values.  All of
  them are non-negative and, when non-zero, at least `0.1`, so each one is an
  integer multiple of `2^-56`; `F64` stores that integer.  `f64Add` is the
  correctly rounded (nearest, ties to even) sum.
* Wall-clock readings (`Date.now()`, `new Date()`) are milliseconds since the
  epoch.  Time passes while an awaited call or a callback runs, by the delay
  the environment supplies, and never runs backwards.
* Methods run one after another: an `async` method is a function that runs to
  completion on the values its awaited calls resolve to.
-/

namespace MiCoach

/-! ## Strings -/

/-- Substring test on character lists: `needle` occurs in `hay` at some offset. -/
def includesChars : List Char → List Char → Bool
  | [], needle => needle.isEmpty
  | c :: hay, needle => needle.isPrefixOf (c :: hay) || includesChars hay needle

/-- The test `s.includes(k)` of JavaScript. -/
def includes (s k : String) : Bool := includesChars s.toList k.toList

/-- Lower-casing of the ASCII letters `A`..`Z`; other characters are kept. -/
def asciiLower (s : String) : String := String.mk (s.toList.map Char.toLower)

/-! ## IEEE-754 binary64 arithmetic on the score values -/

/-- A non-negative binary64 value `x`, stored as the integer `x * 2^56`. -/
abbrev F64 := Nat

/-- Division of `p` by `q` rounded to the nearest integer, ties to even. -/
def roundNearestEven (p q : Nat) : Nat :=
  let d := p / q
  let r := p % q
  if 2 * r > q ∨ (2 * r = q ∧ d % 2 = 1) then d + 1 else d

/-- The number of halvings that bring `n` below `2^53`, i.e. the number of
low-order bits a 53-bit significand cannot hold (`fuel` bounds the recursion;
`fuel = n` always suffices). -/
def excessBits : Nat → Nat → Nat
  | 0, _ => 0
  | fuel + 1, n => if n < 2 ^ 53 then 0 else excessBits fuel (n / 2) + 1

/-- The binary64 value nearest to `p / q` (in units of `2^-56`): the quotient
is rounded to 53 significant bits, ties to even. -/
def f64OfRat (p q : Nat) : F64 :=
  let sh := excessBits (p / q) (p / q)
  roundNearestEven p (q * 2 ^ sh) * 2 ^ sh

/-- The binary64 value of a decimal literal `t / 10`, e.g. `0.3` for `t = 3`. -/
def f64OfTenths (t : Nat) : F64 := f64OfRat (t * 2 ^ 56) 10

/-- Binary64 addition `a + b`: the exact sum, correctly rounded. -/
def f64Add (a b : F64) : F64 := f64OfRat (a + b) 1

/-- Expression `Math.min(a, b)` on non-negative binary64 values. -/
def f64Min (a b : F64) : F64 := if a ≤ b then a else b

/-- The accumulator pattern `list.forEach(x => { if (p(x)) acc += w })`. -/
def accumulate (w : F64) (p : String → Bool) (keys : List String) (acc : F64) : F64 :=
  keys.foldl (fun a k => if p k then f64Add a w else a) acc

/-! ## Data model -/

/-- The `moodAnalysis` object of an analysis result. -/
structure MoodAnalysis where
  sentiment : String
  description : String
  deriving DecidableEq, Repr

/-- The value of the `insights` field of an analysis result: a string, or a
value that is not a string (on which `.toLowerCase()` and `.split()` raise a
TypeError), told apart by its truthiness. -/
inductive Insights where
  | text (s : String)
  | falsyOther
  | truthyOther
  deriving DecidableEq, Repr

/-- The result of `generateCoachingInsights`. -/
structure Analysis where
  insights : Insights
  recommendations : List String
  actionItems : List String
  moodAnalysis : Option MoodAnalysis
  deriving DecidableEq, Repr

/-- An element of `transcriptBuffer`. -/
structure TranscriptEntry where
  timestamp : Nat
  text : String
  audioUri : String
  duration : Nat
  deriving DecidableEq, Repr

/-! ## ConcernDetector (`detectConcerningPatterns`) -/

/-- The list `concerningKeywords` of `detectConcerningPatterns`. -/
def concerningKeywords : List String :=
  ["stressed", "anxious", "overwhelmed", "depressed", "hopeless",
   "suicidal", "self-harm", "worthless", "failure", "hate myself",
   "can't take it", "want to give up", "no point", "tired of life",
   "struggling", "difficult", "hard time", "crying", "sad", "lonely"]

/-- The list `intensityKeywords` of `detectConcerningPatterns`. -/
def intensityKeywords : List String :=
  ["really", "very", "extremely", "so much", "incredibly",
   "absolutely", "completely", "totally", "deeply", "profoundly"]

/-- Expression `arr.slice(-3)`: the last three elements (all of them when fewer). -/
def lastThree {α : Type} (xs : List α) : List α := xs.drop (xs.length - 3)

/-- The `negativeCount` of `detectConcerningPatterns`: how many of the last
three buffer entries contain a concerning keyword. -/
def negativeCount (lc : String → String) (buffer : List TranscriptEntry) : Nat :=
  ((lastThree buffer).filter
    (fun t => concerningKeywords.any (fun keyword => includes (lc t.text) keyword))).length

/-- The value of `concernLevel` at the end of `detectConcerningPatterns`, for
string insights `insights`. -/
def concernLevel (lc : String → String) (insights : String)
    (mood : Option MoodAnalysis) (transcript : String)
    (buffer : List TranscriptEntry) : F64 :=
  let lowerTranscript := lc transcript
  let lowerInsights := lc insights
  let c0 : F64 := 0
  let c1 := accumulate (f64OfTenths 3)
    (fun keyword => includes lowerTranscript keyword || includes lowerInsights keyword)
    concerningKeywords c0
  let c2 := accumulate (f64OfTenths 1)
    (fun keyword => includes lowerTranscript keyword) intensityKeywords c1
  let c3 := match mood with
    | some m => if m.sentiment = "negative" then f64Add c2 (f64OfTenths 4) else c2
    | none => c2
  if buffer.length > 2 then
    if negativeCount lc buffer ≥ 2 then f64Add c3 (f64OfTenths 5) else c3
  else c3

/-- Method `detectConcerningPatterns(analysis, transcript)` with `this.transcriptBuffer
= buffer`.  `none` is the TypeError raised when `analysis.insights` is not a
string. -/
def detectConcerningPatterns (lc : String → String) (analysis : Analysis)
    (transcript : String) (buffer : List TranscriptEntry) : Option Bool :=
  match analysis.insights with
  | .text insights =>
    some (decide (concernLevel lc insights analysis.moodAnalysis transcript buffer
      ≥ f64OfTenths 5))
  | _ => none

/-! ## MomentDetector (`detectSignificantMoments`, `categorizeMoment`) -/

/-- A record of `momentBuffer`.  `id` is the clock reading that the code
renders with `Date.now().toString()`; `audioUri` is absent when the transcript
buffer is empty (`this.transcriptBuffer[length - 1]?.audioUri`). -/
structure Moment where
  id : Nat
  timestamp : Nat
  transcript : String
  significance : F64
  keywords : List String
  type : String
  audioUri : Option String
  deriving DecidableEq, Repr

/-- The list `significantKeywords` of `detectSignificantMoments`. -/
def significantKeywords : List String :=
  ["breakthrough", "realization", "insight", "clarity", "understanding",
   "struggle", "challenge", "overwhelmed", "anxious", "stressed",
   "proud", "accomplished", "grateful", "excited", "motivated",
   "tired", "exhausted", "frustrated", "confused", "lost"]

/-- The list `emotionalIndicators` of `detectSignificantMoments`. -/
def emotionalIndicators : List String :=
  ["really", "very", "extremely", "so much", "incredibly",
   "absolutely", "completely", "totally", "deeply", "profoundly"]

/-- The field `momentDetectionThreshold`, set to `0.7` by the constructor and
never assigned again. -/
def momentDetectionThreshold : F64 := f64OfTenths 7

/-- The test for a personal insight phrase in `detectSignificantMoments`. -/
def hasInsightPhrase (lowerTranscript : String) : Bool :=
  includes lowerTranscript "i realized" ||
  includes lowerTranscript "i understand" ||
  includes lowerTranscript "i learned"

/-- The value of the variable `significance` of `detectSignificantMoments`
when the threshold test is reached. -/
def significanceScore (lc : String → String) (transcript : String) : F64 :=
  let lowerTranscript := lc transcript
  let s0 : F64 := 0
  let s1 := accumulate (f64OfTenths 3) (fun keyword => includes lowerTranscript keyword)
    significantKeywords s0
  let s2 := accumulate (f64OfTenths 2) (fun indicator => includes lowerTranscript indicator)
    emotionalIndicators s1
  if hasInsightPhrase lowerTranscript then f64Add s2 (f64OfTenths 4) else s2

/-- The list `detectedKeywords` of `detectSignificantMoments`. -/
def detectedKeywords (lc : String → String) (transcript : String) : List String :=
  significantKeywords.filter (fun keyword => includes (lc transcript) keyword)

/-- Method `categorizeMoment(transcript, keywords)`. -/
def categorizeMoment (lc : String → String) (transcript : String)
    (keywords : List String) : String :=
  let _lowerTranscript := lc transcript
  if keywords.any (fun k => ["breakthrough", "realization", "insight", "clarity"].contains k) then
    "insight"
  else if keywords.any
      (fun k => ["struggle", "challenge", "overwhelmed", "anxious", "stressed"].contains k) then
    "challenge"
  else if keywords.any
      (fun k => ["proud", "accomplished", "grateful", "excited", "motivated"].contains k) then
    "achievement"
  else if keywords.any
      (fun k => ["tired", "exhausted", "frustrated", "confused", "lost"].contains k) then
    "struggle"
  else
    "reflection"

/-! ## NudgeThrottle (`getNudgeFrequency`, `shouldShowNudge` of nudgeEngine.js) -/

/-- The user profile object; an absent field is `none`. -/
structure UserProfile where
  name : Option String
  voiceTone : Option String
  goals : Option (List String)
  challenges : Option (List String)
  deriving DecidableEq, Repr

/-- A nudge or coaching tip object.  `timestamp` is the value of
`new Date(n.timestamp)` in milliseconds, `none` when the field is absent or
does not parse (an invalid date). -/
structure Nudge where
  message : String
  category : String
  priority : String
  trigger : Option String
  timestamp : Option Nat
  source : Option String
  deriving DecidableEq, Repr

/-- The result of reading a property of the frequency object. -/
inductive PropertyValue where
  | undefined
  | number (n : Nat)
  | inherited
  deriving DecidableEq, Repr

/-- The property names every object literal inherits from `Object.prototype`;
their values are functions or objects, hence truthy and not numbers. -/
def objectPrototypeKeys : List String :=
  ["constructor", "hasOwnProperty", "isPrototypeOf", "propertyIsEnumerable",
   "toLocaleString", "toString", "valueOf", "__proto__",
   "__defineGetter__", "__defineSetter__", "__lookupGetter__", "__lookupSetter__"]

/-- Expression `obj[key]` for an object literal with numeric own properties. -/
def getProperty (obj : List (String × Nat)) (key : String) : PropertyValue :=
  match obj.lookup key with
  | some n => .number n
  | none => if objectPrototypeKeys.contains key then .inherited else .undefined

/-- The object literal `baseFrequency` of `getNudgeFrequency`. -/
def baseFrequency : List (String × Nat) :=
  [("focus", 3), ("stress", 2), ("energy", 2), ("confidence", 1), ("relationships", 1),
   ("ai_generated", 2), ("time_based", 4), ("activity_based", 2), ("pattern_analysis", 1)]

/-- Expression `userProfile?.challenges?.includes(challenge)`, undefined counted as false. -/
def challengesInclude (userProfile : Option UserProfile) (challenge : String) : Bool :=
  match userProfile with
  | some profile =>
    match profile.challenges with
    | some challenges => challenges.contains challenge
    | none => false
  | none => false

/-- Expression `obj[key] += 1` on an own property. -/
def increment (key : String) (obj : List (String × Nat)) : List (String × Nat) :=
  obj.map (fun kv => if kv.1 = key then (kv.1, kv.2 + 1) else kv)

/-- Function `getNudgeFrequency(userProfile, recentNudges)`. -/
def getNudgeFrequency (userProfile : Option UserProfile) (recentNudges : List Nudge) :
    List (String × Nat) :=
  let f0 := baseFrequency
  let f1 := if challengesInclude userProfile "Distraction & Procrastination"
    then increment "focus" f0 else f0
  let f2 := if challengesInclude userProfile "Overthinking & Anxiety"
    then increment "stress" f1 else f1
  let recentCount := recentNudges.length
  if recentCount > 8 then f2.map (fun kv => (kv.1, max 1 (kv.2 - 1))) else f2

/-- Expression `new Date(timestamp) > new Date(now - 24 * 60 * 60 * 1000)`; an invalid
date compares false. -/
def inLast24Hours (now : Nat) (timestamp : Option Nat) : Bool :=
  match timestamp with
  | some t => decide ((t : Int) > (now : Int) - 24 * 60 * 60 * 1000)
  | none => false

/-- Function `shouldShowNudge(nudge, recentNudges, userProfile)` called when `Date.now()`
is `now`. -/
def shouldShowNudge (now : Nat) (nudge : Nudge) (recentNudges : List Nudge)
    (userProfile : Option UserProfile) : Bool :=
  let frequency := getNudgeFrequency userProfile recentNudges
  let category := nudge.category
  let recentCategoryNudges := recentNudges.filter
    (fun n => n.category = category && inLast24Hours now n.timestamp)
  match getProperty frequency category with
  | .undefined => true
  | .number cap => if cap = 0 then true else decide (recentCategoryNudges.length < cap)
  | .inherited => false

/-- The adjusted cap of a category as section 4.4 of the specification words
it for at most 8 recent nudges: the base table, plus 1 for `focus` with the
distraction challenge and plus 1 for `stress` with the anxiety challenge. -/
def specCap (distraction anxiety : Bool) (category : String) : Nat :=
  if category = "focus" then 3 + (if distraction then 1 else 0)
  else if category = "stress" then 2 + (if anxiety then 1 else 0)
  else if category = "energy" then 2
  else if category = "confidence" then 1
  else if category = "relationships" then 1
  else if category = "ai_generated" then 2
  else if category = "time_based" then 4
  else if category = "activity_based" then 2
  else if category = "pattern_analysis" then 1
  else 0

/-- The nine categories of the cap table. -/
def tableCategories : List String :=
  ["focus", "stress", "energy", "confidence", "relationships",
   "ai_generated", "time_based", "activity_based", "pattern_analysis"]

/-- The functions the service imports from nudgeEngine.js, as it calls them in
the segment pipeline.  The first argument of each is the ambient input the
function reads by itself: the wall clock (`new Date()`), resp. the index drawn
with `Math.random()`. -/
structure NudgeEngine where
  checkStaticNudges : Nat → String → Option UserProfile → List Nudge
  generateActivityBasedCoaching : Nat → List TranscriptEntry → Option UserProfile → Option Nudge

/-! ## KeywordRuleSet and coaching lookups (nudgeEngine.js) -/

/-- The table `STATIC_NUDGES`, in the order `Object.entries` lists it. -/
def STATIC_NUDGES : List (String × Nudge) :=
  [
   ("can't focus",
    ⟨"Take 5 minutes. Breathe deeply, then refocus on one task.",
     "focus", "high", none, none, none⟩),
   ("distracted",
    ⟨"Try the 5-4-3-2-1 technique: Name 5 things you see, 4 you can touch, 3 you hear, 2 you smell, 1 you taste.",
     "focus", "medium", none, none, none⟩),
   ("procrastinating",
    ⟨"Start with just 2 minutes. Often that's all it takes to get going.",
     "productivity", "high", none, none, none⟩),
   ("tired",
    ⟨"Try a quick stretch or walk around. Movement can boost your energy!",
     "energy", "medium", none, none, none⟩),
   ("exhausted",
    ⟨"Consider a 10-minute power nap or a short walk outside.",
     "energy", "high", none, none, none⟩),
   ("unmotivated",
    ⟨"Break your task into tiny steps. What's the smallest next action?",
     "motivation", "medium", none, none, none⟩),
   ("stressed",
    ⟨"Take 3 deep breaths. Inhale for 4, hold for 4, exhale for 6.",
     "stress", "high", none, none, none⟩),
   ("anxious",
    ⟨"Ground yourself: Name 5 things you can see, 4 you can touch, 3 you can hear.",
     "anxiety", "high", none, none, none⟩),
   ("overwhelmed",
    ⟨"Break this down into smaller steps. What's the next right thing?",
     "stress", "high", none, none, none⟩),
   ("late",
    ⟨"It's okay. Focus on what you can control right now.",
     "time", "medium", none, none, none⟩),
   ("behind",
    ⟨"Prioritize: What's most important right now?",
     "time", "medium", none, none, none⟩),
   ("deadline",
    ⟨"Focus on progress, not perfection. What can you complete now?",
     "time", "high", none, none, none⟩),
   ("doubt",
    ⟨"Remember your past successes. You've got this!",
     "confidence", "medium", none, none, none⟩),
   ("can't do this",
    ⟨"You don't have to do it perfectly. Just start.",
     "confidence", "high", none, none, none⟩),
   ("not good enough",
    ⟨"You are enough. Your effort matters.",
     "confidence", "high", none, none, none⟩),
   ("argument",
    ⟨"Take a moment to breathe. What's really important here?",
     "relationships", "high", none, none, none⟩),
   ("misunderstood",
    ⟨"Try expressing your feelings with 'I feel...' statements.",
     "communication", "medium", none, none, none⟩),
   ("conflict",
    ⟨"Pause and reflect: What's your goal in this situation?",
     "relationships", "high", none, none, none⟩)]

/-- The table `ACTIVITY_BASED_COACHING`, in the order `Object.entries` lists
it: activity, triggers, tips. -/
def ACTIVITY_BASED_COACHING : List (String × List String × List String) :=
  [
   ("work_focus",
    ["meeting", "deadline", "project", "work", "task", "email"],
    ["You're in work mode. Remember to take short breaks every 45 minutes.",
     "Focus on one task at a time. Multitasking can reduce your effectiveness.",
     "If you're feeling stuck, try stepping away for 2 minutes and returning with fresh eyes.",
     "Remember your goals. What's the most important thing to accomplish right now?"]),
   ("social_interaction",
    ["friend", "family", "colleague", "talk", "conversation", "meeting"],
    ["Social interactions can be energizing! How are you feeling about this connection?",
     "Remember to listen actively and be present in the conversation.",
     "If you're feeling anxious about social interaction, take a deep breath. You've got this!",
     "Authentic connections matter. Be yourself and trust the process."]),
   ("physical_activity",
    ["exercise", "workout", "run", "walk", "gym", "sport"],
    ["Great job moving your body! How does it feel?",
     "Remember to stay hydrated during your activity.",
     "Listen to your body. It's okay to adjust intensity as needed.",
     "Movement is medicine for both body and mind. You're doing something great for yourself!"]),
   ("learning",
    ["study", "learn", "read", "research", "course", "skill"],
    ["Learning something new! Take breaks to let information sink in.",
     "Curiosity is a superpower. What interests you most about this topic?",
     "Remember that learning is a process. Be patient with yourself.",
     "Try explaining what you're learning to someone else - it helps retention!"])]

/-- The alternatives of the regular expression of `personalizeNudge`, in order. -/
def leadingPhrases : List String :=
  ["Take", "Try", "Consider", "Remember", "Focus", "Pause", "Good morning", "Evening reflection", "Great job",
   "Learning something new", "You're in work mode", "Social interactions", "Movement is medicine", "Curiosity is a superpower",
   "Remember that learning", "Start your day", "Morning check-in", "Midday check-in",
   "Afternoon energy dip", "Evening check-in", "It's getting late", "Late night thoughts"]

/-- The expansion of a replacement template by `String.prototype.replace`
(GetSubstitution of ECMAScript) for a match at position 0 of a pattern with one
capture group that spans the whole match: `$$` is `$`, `$&`, `$1` and `$01`
are the matched text, the text before the match is empty, the quote form is
the text after the match, and any other `$` is literal. -/
def expandReplacement (matched after : List Char) : List Char → List Char
  | [] => []
  | c :: rest =>
    if c ≠ '$' then c :: expandReplacement matched after rest
    else
      match rest with
      | [] => ['$']
      | d :: rest2 =>
        if d = '$' then '$' :: expandReplacement matched after rest2
        else if d = '&' then matched ++ expandReplacement matched after rest2
        else if d = Char.ofNat 96 then expandReplacement matched after rest2
        else if d = Char.ofNat 39 then after ++ expandReplacement matched after rest2
        else if d.isDigit then
          match rest2 with
          | [] => if d = '1' then matched else ['$', d]
          | d2 :: rest3 =>
            if d2.isDigit ∧ d = '0' ∧ d2 = '1' then
              matched ++ expandReplacement matched after rest3
            else if d2.isDigit ∧ d = '0' ∧ d2 = '0' then
              '$' :: '0' :: '0' :: expandReplacement matched after rest3
            else if d = '1' then matched ++ expandReplacement matched after (d2 :: rest3)
            else '$' :: d :: expandReplacement matched after (d2 :: rest3)
        else '$' :: expandReplacement matched after (d :: rest2)

/-- Expression `message.replace(/^(Take|Try|...)/, template)`: the first alternative that
is a prefix of the message is replaced by the expanded template. -/
def replaceLeadingPhrase (template : String) (message : String) : String :=
  match leadingPhrases.find? (fun phrase => phrase.toList.isPrefixOf message.toList) with
  | none => message
  | some phrase =>
    let after := message.toList.drop phrase.length
    String.mk (expandReplacement phrase.toList after template.toList ++ after)

/-- Expression `message.replace(/c$/, replacement)` for a single literal character `c`
and a replacement without `$`: a final `c` is replaced. -/
def replaceTrailing (c : Char) (replacement : String) (message : String) : String :=
  match message.toList.getLast? with
  | none => message
  | some last =>
    if last = c then String.mk (message.toList.dropLast ++ replacement.toList) else message

/-- Function `personalizeNudge(nudge, userProfile)`. -/
def personalizeNudge (nudge : Nudge) (userProfile : Option UserProfile) : Nudge :=
  match userProfile with
  | none => nudge
  | some profile =>
    let m0 := nudge.message
    let m1 :=
      match profile.name with
      | none => m0
      | some name => if name ≠ "" then replaceLeadingPhrase (name ++ ", $1") m0 else m0
    let m2 :=
      if profile.voiceTone = some "cheerful" then replaceTrailing '.' " 😊" m1
      else if profile.voiceTone = some "calm" then replaceTrailing '!' "." m1
      else m1
    { nudge with message := m2 }

/-- Function `checkStaticNudges(text, userProfile)`, with `new Date()` reading `now`. -/
def checkStaticNudges (lc : String → String) (now : Nat) (text : String)
    (userProfile : Option UserProfile) : List Nudge :=
  let lowerText := lc text
  (STATIC_NUDGES.filter (fun entry => includes lowerText entry.1)).map
    (fun entry =>
      { personalizeNudge entry.2 userProfile with
        trigger := some entry.1, timestamp := some now })

/-- Expression `transcript.slice(-3).map(entry => entry.text).join(' ').toLowerCase()`. -/
def recentText (lc : String → String) (transcript : List TranscriptEntry) : String :=
  lc (" ".intercalate ((lastThree transcript).map (fun entry => entry.text)))

/-- Function `generateActivityBasedCoaching(transcript, userProfile)`.  `random` is the
draw; `random % tips.length` ranges over exactly the indices
`Math.floor(Math.random() * tips.length)` can take. -/
def generateActivityBasedCoaching (lc : String → String) (random : Nat)
    (transcript : List TranscriptEntry) (userProfile : Option UserProfile) : Option Nudge :=
  let text := recentText lc transcript
  match ACTIVITY_BASED_COACHING.find?
      (fun entry => entry.2.1.any (fun trigger => includes text trigger)) with
  | none => none
  | some entry =>
    let tips := entry.2.2
    let randomTip := tips.getD (random % tips.length) ""
    some (personalizeNudge
      { message := randomTip, category := "activity_based", priority := "medium",
        trigger := none, timestamp := none, source := none } userProfile)

/-! ## Time-based coaching (`generateTimeBasedCoaching` of nudgeEngine.js) -/

/-- The configuration of one day segment of `TIME_BASED_COACHING`: the hours
`start` and `end` (here `endHour`) and the tip list. -/
structure TimeSlotConfig where
  start : Nat
  endHour : Nat
  tips : List String
  deriving DecidableEq, Repr

/-- The table `TIME_BASED_COACHING`, in the order `Object.entries` lists it. -/
def TIME_BASED_COACHING : List (String × TimeSlotConfig) :=
  [
   ("morning",
    { start := 6, endHour := 10,
      tips :=
        ["Good morning! Start your day with 3 deep breaths to set a positive intention.",
         "Morning check-in: How are you feeling today? Take a moment to acknowledge your emotions.",
         "Consider setting one small, achievable goal for today. What would make today feel successful?",
         "Remember to hydrate! Your brain works better when you're well-hydrated."] }),
   ("midday",
    { start := 10, endHour := 15,
      tips :=
        ["Midday check-in: How's your energy? Consider a quick stretch or walk to refresh.",
         "Take a moment to check in with your body. Are you holding tension anywhere?",
         "If you're feeling overwhelmed, try the 5-4-3-2-1 grounding technique.",
         "Remember to take breaks! Your brain needs rest to maintain focus."] }),
   ("afternoon",
    { start := 15, endHour := 18,
      tips :=
        ["Afternoon energy dip? Try a 5-minute walk or some gentle stretching.",
         "How are you feeling about your progress today? Celebrate small wins!",
         "Consider what you've accomplished so far. You're doing great!",
         "Take a moment to plan your evening. What would help you wind down?"] }),
   ("evening",
    { start := 18, endHour := 22,
      tips :=
        ["Evening reflection: What went well today? What are you grateful for?",
         "Start winding down. Consider what would help you relax and prepare for rest.",
         "Take a moment to acknowledge your efforts today. You showed up!",
         "Evening check-in: How are you feeling? What do you need right now?"] }),
   ("late_night",
    { start := 22, endHour := 6,
      tips :=
        ["It's getting late. Consider what would help you prepare for restful sleep.",
         "Late night thoughts? Try writing them down to clear your mind.",
         "Remember that rest is productive too. Your brain needs sleep to process and grow.",
         "Take a few deep breaths and let go of today's worries. Tomorrow is a new day."] })]

/-- The test the loop of `generateTimeBasedCoaching` applies to one entry:
`late_night` wraps across midnight, the other slots are half-open intervals. -/
def slotMatches (currentHour : Nat) (entry : String × TimeSlotConfig) : Bool :=
  if entry.1 = "late_night" then
    decide (currentHour ≥ entry.2.start) || decide (currentHour < entry.2.endHour)
  else
    decide (currentHour ≥ entry.2.start) && decide (currentHour < entry.2.endHour)

/-- The value of the variable `timeSlot` of `generateTimeBasedCoaching` after
the loop: the first entry that matches, `midday` when none does. -/
def timeSlot (currentHour : Nat) : String :=
  match TIME_BASED_COACHING.find? (slotMatches currentHour) with
  | some entry => entry.1
  | none => "midday"

/-- Expression `TIME_BASED_COACHING[timeSlot].tips`. -/
def slotTips (slot : String) : List String :=
  match TIME_BASED_COACHING.lookup slot with
  | some config => config.tips
  | none => []

/-- Function `generateTimeBasedCoaching(userProfile)`, with `new Date().getHours()`
reading `currentHour` and `random` the draw (see `generateActivityBasedCoaching`). -/
def generateTimeBasedCoaching (currentHour random : Nat) (userProfile : Option UserProfile) :
    Nudge :=
  let tips := slotTips (timeSlot currentHour)
  let randomTip := tips.getD (random % tips.length) ""
  personalizeNudge
    { message := randomTip, category := "time_based", priority := "medium",
      trigger := none, timestamp := none, source := none } userProfile

/-- The two functions of nudgeEngine.js that the segment pipeline calls. -/
def nudgeEngine (lc : String → String) : NudgeEngine :=
  { checkStaticNudges := checkStaticNudges lc
    generateActivityBasedCoaching := generateActivityBasedCoaching lc }

/-! ## BackgroundCoachingScheduler (`generateBackgroundCoaching` of nudgeEngine.js) -/

/-- What one run of `generateBackgroundCoaching` meets.  `currentHour` is
`new Date().getHours()`, `timeRandom` and `activityRandom` are the draws of the
time-based and of the activity-based tip, `contextualResponse` is the trimmed
text the generative model answers inside `generateContextualNudge` (`none`
without an API key or when the call fails), `patternEncouragement` is the field
`encouragement` of the object `analyzeTranscriptPatterns` resolves to (`none`
when it resolves to null); the `Delay` fields are the milliseconds the two
awaited calls take. -/
structure CoachingEnv where
  currentHour : Nat
  timeRandom : Nat
  activityRandom : Nat
  contextualResponse : Option String
  contextualDelay : Nat
  patternEncouragement : Option String
  patternDelay : Nat
  deriving DecidableEq, Repr

/-- Function `generateContextualNudge(transcript, userProfile)`, resolving at clock
reading `now` with the model's trimmed answer `response`. -/
def generateContextualNudge (now : Nat) (response : Option String) : Option Nudge :=
  match response with
  | none => none
  | some text =>
    some { message := text, category := "ai_generated", priority := "medium",
           trigger := none, timestamp := some now, source := none }

/-- The test `hoursSinceLastAnalysis >= 4` of `generateBackgroundCoaching`, where
`lastPatternAnalysis = recentNudges.find(n => n.source === 'pattern_analysis')`:
24 hours are assumed when no tip is found; a timestamp that does not parse
gives NaN, which compares false. -/
def patternAnalysisDue (now : Nat) (recentNudges : List Nudge) : Bool :=
  match recentNudges.find? (fun n => n.source = some "pattern_analysis") with
  | some lastPatternAnalysis =>
    match lastPatternAnalysis.timestamp with
    | some t => decide ((now : Int) - (t : Int) ≥ 4 * (1000 * 60 * 60))
    | none => false
  | none => true

/-- Function `generateBackgroundCoaching(transcript, userProfile, recentNudges)` started at
clock reading `now`.  The field `insights` of the pattern tip is not kept. -/
def generateBackgroundCoaching (lc : String → String) (env : CoachingEnv) (now : Nat)
    (transcript : List TranscriptEntry) (userProfile : Option UserProfile)
    (recentNudges : List Nudge) : List Nudge :=
  let timeBasedTip := generateTimeBasedCoaching env.currentHour env.timeRandom userProfile
  let tips1 : List Nudge :=
    if shouldShowNudge now timeBasedTip recentNudges userProfile then
      [{ timeBasedTip with timestamp := some now, source := some "time_based" }]
    else []
  let tips2 :=
    match generateActivityBasedCoaching lc env.activityRandom transcript userProfile with
    | some activityBasedTip =>
      if shouldShowNudge now activityBasedTip recentNudges userProfile then
        tips1 ++ [{ activityBasedTip with timestamp := some now, source := some "activity_based" }]
      else tips1
    | none => tips1
  let now1 := if transcript.length > 0 then now + env.contextualDelay else now
  let tips3 :=
    if transcript.length > 0 then
      match generateContextualNudge now1 env.contextualResponse with
      | some contextualTip =>
        if shouldShowNudge now1 contextualTip recentNudges userProfile then
          tips2 ++ [{ contextualTip with source := some "ai_contextual" }]
        else tips2
      | none => tips2
    else tips2
  if patternAnalysisDue now1 recentNudges && decide (transcript.length ≥ 5) then
    match env.patternEncouragement with
    | some encouragement =>
      tips3 ++ [{ message := encouragement, category := "pattern_analysis", priority := "low",
                  trigger := none, timestamp := some (now1 + env.patternDelay),
                  source := some "pattern_analysis" }]
    | none => tips3
  else tips3

/-! ## RecordingOrchestrator (class `ContinuousRecordingService`)

The service is a record of the fields the constructor sets.  Two ghost fields
are added: `now`, the wall clock, and `trace`, the sequence of observable
events (callback invocations, and entries into `startRecordingSegment`).
Every `async` method is embedded as a function that runs to completion; the
values its awaited calls resolve to, and the time they take, are arguments
(`PipelineEnv`, `StartEnv`). -/

/-- A callback slot of the service: not registered, registered with a function
that returns, or registered with a function that raises. -/
inductive Callback where
  | absent
  | returns
  | throws
  deriving DecidableEq, Repr

/-- The object passed to `onVoiceFeedback`. -/
structure VoiceFeedbackEvent where
  text : String
  audioUri : String
  timestamp : Nat
  type : String
  deriving DecidableEq, Repr

/-- An observable event: the invocation of a callback with its argument, or
(ghost) the entry into `startRecordingSegment` with the value `isPaused` has
at that moment. -/
inductive Event where
  | transcriptUpdate (entries : List TranscriptEntry)
  | momentDetected (moment : Moment)
  | nudgeTriggered (nudge : Nudge)
  | coachingGenerated (tip : Nudge)
  | voiceFeedback (event : VoiceFeedbackEvent)
  | segmentStart (isPaused : Bool)
  deriving DecidableEq, Repr

/-- The state of the singleton `ContinuousRecordingService`.  `currentRecording`
holds the URI of the open recording; timer handles are opaque (and truthy). -/
structure Service where
  isRecording : Bool
  currentRecording : Option String
  recordingInterval : Option Nat
  transcriptBuffer : List TranscriptEntry
  momentBuffer : List Moment
  coachingHistory : List Nudge
  onTranscriptUpdate : Callback
  onMomentDetected : Callback
  onNudgeTriggered : Callback
  onCoachingGenerated : Callback
  onVoiceFeedback : Callback
  userProfile : Option UserProfile
  lastBackgroundCoaching : Option Nat
  backgroundCoachingInterval : Option Nat
  lastVoiceFeedback : Option Nat
  isPaused : Bool
  now : Nat
  trace : List Event
  deriving DecidableEq, Repr

/-- The field `recordingDuration` (milliseconds), constant after construction. -/
def recordingDuration : Nat := 10000

/-- The field `voiceFeedbackCooldown` (milliseconds), constant after construction. -/
def voiceFeedbackCooldown : Nat := 30000

/-- The state built by `constructor()`, at wall-clock time `now`. -/
def Service.init (now : Nat) : Service :=
  { isRecording := false
    currentRecording := none
    recordingInterval := none
    transcriptBuffer := []
    momentBuffer := []
    coachingHistory := []
    onTranscriptUpdate := .absent
    onMomentDetected := .absent
    onNudgeTriggered := .absent
    onCoachingGenerated := .absent
    onVoiceFeedback := .absent
    userProfile := none
    lastBackgroundCoaching := none
    backgroundCoachingInterval := none
    lastVoiceFeedback := none
    isPaused := false
    now := now
    trace := [] }

/-- What the awaited calls of one segment pipeline resolve to.
`transcript` is the result of `generateRealTranscriptFromAudio` (`none` for
null), `analysis` that of `generateCoachingInsights`, `speech` that of
`textToSpeech` (`none` for null); the `Delay` fields are the milliseconds the
calls take, `callbackDelay` the time spent inside `onVoiceFeedback`, and
`random` the index drawn by the activity-based coaching. -/
structure PipelineEnv where
  transcript : Option String
  transcribeDelay : Nat
  analysis : Analysis
  analysisDelay : Nat
  speech : Option String
  speechDelay : Nat
  callbackDelay : Nat
  random : Nat
  deriving DecidableEq, Repr

/-- Method `pauseRecording()`. -/
def pauseRecording (s : Service) : Service := { s with isPaused := true }

/-- Method `resumeRecording()`. -/
def resumeRecording (s : Service) : Service := { s with isPaused := false }

/-- Method `shouldProvideVoiceFeedback()`: `lastVoiceFeedback` is falsy when it is
null or the number 0. -/
def shouldProvideVoiceFeedback (s : Service) : Bool :=
  match s.lastVoiceFeedback with
  | some last =>
    if last ≠ 0 ∧ (s.now : Int) - (last : Int) < (voiceFeedbackCooldown : Int) then false else true
  | none => true

/-- The `mainIssue` chosen by `createGeminiBasedResponse`. -/
def mainIssue (lowerTranscript : String) : String :=
  if includes lowerTranscript "stressed" || includes lowerTranscript "overwhelmed" then
    "stress and feeling overwhelmed"
  else if includes lowerTranscript "anxious" || includes lowerTranscript "worried" then
    "anxiety and worry"
  else if includes lowerTranscript "sad" || includes lowerTranscript "lonely" then
    "feeling sad and lonely"
  else if includes lowerTranscript "tired" || includes lowerTranscript "exhausted" then
    "feeling tired and exhausted"
  else if includes lowerTranscript "failing" || includes lowerTranscript "not good enough" then
    "feeling like you're not good enough"
  else
    "what you're going through"

/-- Expression `s.split('.')[0]`: the text before the first full stop. -/
def firstSentence (s : String) : String := String.mk (s.toList.takeWhile (fun c => c ≠ '.'))

/-- Method `createGeminiBasedResponse(analysis, transcript)`; `none` is the TypeError
raised by `.split` on truthy insights that are not a string. -/
def createGeminiBasedResponse (lc : String → String) (analysis : Analysis)
    (transcript : String) : Option String :=
  let response := "I hear you're dealing with " ++ mainIssue (lc transcript) ++ ". "
  let withInsight : Option String :=
    match analysis.insights with
    | .text insights =>
      if insights ≠ "" then some (response ++ firstSentence insights ++ ". ") else some response
    | .falsyOther => some response
    | .truthyOther => none
  match withInsight with
  | none => none
  | some r2 =>
    let r3 :=
      match analysis.recommendations with
      | recommendation :: _ => r2 ++ recommendation ++ " "
      | [] =>
        match analysis.actionItems with
        | item :: _ => r2 ++ item ++ " "
        | [] => r2
    let r4 :=
      match analysis.moodAnalysis with
      | some mood =>
        if mood.sentiment = "negative" then
          r3 ++ "Remember, it's okay to not be okay sometimes. "
        else r3
      | none => r3
    some (r4 ++ "You're doing better than you think.")

/-- Method `provideVoiceFeedback(analysis, transcript)`. -/
def provideVoiceFeedback (lc : String → String) (env : PipelineEnv) (analysis : Analysis)
    (transcript : String) (s : Service) : Service :=
  if !shouldProvideVoiceFeedback s then s
  else
    let s1 := pauseRecording s
    match createGeminiBasedResponse lc analysis transcript with
    | none => resumeRecording s1
    | some feedbackText =>
      let s2 := { s1 with now := s1.now + env.speechDelay }
      match env.speech with
      | none => s2
      | some audioUri =>
        let event : VoiceFeedbackEvent :=
          { text := feedbackText, audioUri := audioUri, timestamp := s2.now,
            type := "real_time_feedback" }
        let s3 := { s2 with trace := s2.trace ++ [Event.voiceFeedback event],
                            now := s2.now + env.callbackDelay }
        match s.onVoiceFeedback with
        | .absent => s2
        | .returns => { s3 with lastVoiceFeedback := some s3.now }
        | .throws => resumeRecording s3

/-- Method `analyzeTranscriptForIssues(transcript)`. -/
def analyzeTranscriptForIssues (lc : String → String) (env : PipelineEnv)
    (transcript : String) (s : Service) : Service :=
  let s1 := { s with now := s.now + env.analysisDelay }
  match detectConcerningPatterns lc env.analysis transcript s1.transcriptBuffer with
  | none => s1
  | some hasIssues =>
    if hasIssues && shouldProvideVoiceFeedback s1 then
      provideVoiceFeedback lc env env.analysis transcript s1
    else s1

/-- Method `detectSignificantMoments(transcript)`.  An exception raised by
`onMomentDetected` is caught inside the method. -/
def detectSignificantMoments (lc : String → String) (transcript : String)
    (s : Service) : Service :=
  let significance := significanceScore lc transcript
  let detected := detectedKeywords lc transcript
  if significance ≥ momentDetectionThreshold then
    let moment : Moment :=
      { id := s.now
        timestamp := s.now
        transcript := transcript
        significance := f64Min significance (f64OfTenths 10)
        keywords := detected
        type := categorizeMoment lc transcript detected
        audioUri := s.transcriptBuffer.getLast?.map (fun entry => entry.audioUri) }
    let s1 := { s with momentBuffer := s.momentBuffer ++ [moment] }
    match s1.onMomentDetected with
    | .absent => s1
    | _ => { s1 with trace := s1.trace ++ [Event.momentDetected moment] }
  else s

/-- The characters `String.prototype.trim` strips: WhiteSpace and
LineTerminator of ECMAScript. -/
def isJsWhiteSpace (c : Char) : Bool :=
  [0x0009, 0x000A, 0x000B, 0x000C, 0x000D, 0x0020, 0x00A0, 0x1680,
   0x2000, 0x2001, 0x2002, 0x2003, 0x2004, 0x2005, 0x2006, 0x2007, 0x2008, 0x2009, 0x200A,
   0x2028, 0x2029, 0x202F, 0x205F, 0x3000, 0xFEFF].contains c.toNat

/-- Expression `!transcript || transcript.trim() === ''`: null, empty or white space only. -/
def noSpeech (transcript : Option String) : Bool :=
  match transcript with
  | none => true
  | some text => text.toList.all isJsWhiteSpace

/-- The static-nudge step of `processRecording`; `Except.error` carries the
state in which `onNudgeTriggered` raised. -/
def staticNudgeStep (eng : NudgeEngine) (transcript : String) (s : Service) :
    Except Service Service :=
  let nudges := eng.checkStaticNudges s.now transcript s.userProfile
  match nudges with
  | [] => .ok s
  | first :: _ =>
    match s.onNudgeTriggered with
    | .absent => .ok s
    | .returns => .ok { s with trace := s.trace ++ [Event.nudgeTriggered first] }
    | .throws => .error { s with trace := s.trace ++ [Event.nudgeTriggered first] }

/-- The activity-based coaching step of `processRecording`; `Except.error`
carries the state in which `onCoachingGenerated` raised. -/
def activityCoachingStep (eng : NudgeEngine) (env : PipelineEnv) (s : Service) :
    Except Service Service :=
  match eng.generateActivityBasedCoaching env.random s.transcriptBuffer s.userProfile with
  | none => .ok s
  | some activityCoaching =>
    match s.onCoachingGenerated with
    | .absent => .ok s
    | cb =>
      let s1 := { s with
        coachingHistory := s.coachingHistory ++
          [{ activityCoaching with timestamp := some s.now, source := some "activity_based" }],
        trace := s.trace ++ [Event.coachingGenerated activityCoaching] }
      if cb = .throws then .error s1 else .ok s1

/-- The last step of `processRecording`: `onTranscriptUpdate([...buffer])`. -/
def transcriptUpdateStep (s : Service) : Service :=
  match s.onTranscriptUpdate with
  | .absent => s
  | _ => { s with trace := s.trace ++ [Event.transcriptUpdate s.transcriptBuffer] }

/-- Method `processRecording(audioUri)`.  Every exception is caught by the method's
single `try`/`catch`, which ends the pipeline for the segment. -/
def processRecording (lc : String → String) (eng : NudgeEngine) (env : PipelineEnv)
    (audioUri : String) (s : Service) : Service :=
  let s0 := { s with now := s.now + env.transcribeDelay }
  match env.transcript with
  | none => s0
  | some transcript =>
    if noSpeech (some transcript) then s0
    else
      let s1 := { s0 with transcriptBuffer := s0.transcriptBuffer ++
        [{ timestamp := s0.now, text := transcript, audioUri := audioUri,
           duration := recordingDuration / 1000 }] }
      let s2 := analyzeTranscriptForIssues lc env transcript s1
      match staticNudgeStep eng transcript s2 with
      | .error s3 => s3
      | .ok s3 =>
        match activityCoachingStep eng env s3 with
        | .error s4 => s4
        | .ok s4 =>
          let s5 := detectSignificantMoments lc transcript s4
          transcriptUpdateStep s5

/-- What one call of `startRecordingSegment` meets: `newRecording` is the
recording `Audio.Recording.createAsync` resolves to (`none` when configuring
the audio mode or creating the recording raises). -/
structure SegmentEnv where
  newRecording : Option String
  deriving DecidableEq, Repr

/-- Method `startRecordingSegment()`. -/
def startRecordingSegment (seg : SegmentEnv) (s : Service) : Service :=
  let s0 := { s with trace := s.trace ++ [Event.segmentStart s.isPaused] }
  match seg.newRecording with
  | some recording => { s0 with currentRecording := some recording }
  | none => s0

/-- What `stopCurrentRecording` meets: whether `stopAndUnloadAsync` succeeds,
and the pipeline of the closed segment. -/
structure StopEnv where
  stopOk : Bool
  pipeline : PipelineEnv
  deriving DecidableEq, Repr

/-- Method `stopCurrentRecording()`. -/
def stopCurrentRecording (lc : String → String) (eng : NudgeEngine) (env : StopEnv)
    (s : Service) : Service :=
  match s.currentRecording with
  | none => s
  | some uri =>
    if env.stopOk then
      processRecording lc eng env.pipeline uri { s with currentRecording := none }
    else { s with currentRecording := none }

/-- Method `rotateRecording()`.  Neither callee raises, so the `catch` branch is not
reached. -/
def rotateRecording (lc : String → String) (eng : NudgeEngine) (env : StopEnv)
    (seg : SegmentEnv) (s : Service) : Service :=
  let s1 :=
    match s.currentRecording with
    | some _ =>
      let s' := stopCurrentRecording lc eng env s
      { s' with now := s'.now + 100 }
    | none => s
  startRecordingSegment seg s1

/-- The callback of the segment timer set by `startRecording`. -/
def recordingTick (lc : String → String) (eng : NudgeEngine) (env : StopEnv)
    (seg : SegmentEnv) (s : Service) : Service :=
  if s.isRecording && !s.isPaused then rotateRecording lc eng env seg s else s

/-- Method `generateBackgroundCoachingTips()`, given the list `coachingTips` that the
awaited `generateBackgroundCoaching(...)` resolves to (`none` when it rejects).
An exception raised by `onCoachingGenerated` is caught inside the method. -/
def generateBackgroundCoachingTips (coachingTips : Option (List Nudge)) (s : Service) :
    Service :=
  match coachingTips with
  | none => s
  | some [] => s
  | some tips =>
    let s1 := { s with coachingHistory := s.coachingHistory ++ tips }
    match s1.onCoachingGenerated with
    | .absent => s1
    | .returns => { s1 with trace := s1.trace ++ tips.map Event.coachingGenerated }
    | .throws => { s1 with trace := s1.trace ++ (tips.take 1).map Event.coachingGenerated }

/-- The callback of the background-coaching timer set by
`startBackgroundCoaching`. -/
def backgroundCoachingTick (coachingTips : Option (List Nudge)) (s : Service) : Service :=
  if s.isRecording then generateBackgroundCoachingTips coachingTips s else s

/-- What `startRecording` meets: the first segment, and the handles returned
by the two `setInterval` calls. -/
structure StartEnv where
  segment : SegmentEnv
  recordingTimer : Nat
  coachingTimer : Nat
  deriving DecidableEq, Repr

/-- Method `startRecording()`.  The un-awaited `generateBackgroundCoachingTips()` that
`startBackgroundCoaching` launches completes after `startRecording` has
returned; it is the separate step `generateBackgroundCoachingTips`. -/
def startRecording (env : StartEnv) (s : Service) : Service :=
  if s.isRecording then s
  else
    let s1 := { s with isRecording := true, isPaused := false }
    let s2 := startRecordingSegment env.segment s1
    let s3 := { s2 with recordingInterval := some env.recordingTimer }
    { s3 with backgroundCoachingInterval := some env.coachingTimer }

/-- Method `stopRecording()`. -/
def stopRecording (lc : String → String) (eng : NudgeEngine) (env : StopEnv)
    (s : Service) : Service :=
  if !s.isRecording then s
  else
    let s1 := { s with isRecording := false, isPaused := false }
    let s2 := match s1.recordingInterval with
      | some _ => { s1 with recordingInterval := none }
      | none => s1
    let s3 := match s2.backgroundCoachingInterval with
      | some _ => { s2 with backgroundCoachingInterval := none }
      | none => s2
    match s3.currentRecording with
    | some _ => stopCurrentRecording lc eng env s3
    | none => s3

/-- Method `getTranscript()`. -/
def getTranscript (s : Service) : List TranscriptEntry := s.transcriptBuffer

/-- Method `getMoments()`. -/
def getMoments (s : Service) : List Moment := s.momentBuffer

/-- Method `clearData()`. -/
def clearData (s : Service) : Service := { s with transcriptBuffer := [], momentBuffer := [] }

/-- The object returned by `getRecordingStatus()`. -/
structure RecordingStatus where
  isRecording : Bool
  transcriptCount : Nat
  momentCount : Nat
  currentSegment : String
  deriving DecidableEq, Repr

/-- Method `getRecordingStatus()`. -/
def getRecordingStatus (s : Service) : RecordingStatus :=
  { isRecording := s.isRecording
    transcriptCount := s.transcriptBuffer.length
    momentCount := s.momentBuffer.length
    currentSegment := if s.currentRecording.isSome then "active" else "none" }

/-- The `callbacks` argument of `initializeService`. -/
structure Callbacks where
  onTranscriptUpdate : Callback
  onMomentDetected : Callback
  onNudgeTriggered : Callback
  onCoachingGenerated : Callback
  onVoiceFeedback : Callback
  deriving DecidableEq, Repr

/-- The method that sets up the service from `(userProfile, callbacks)` before
any recording; `Except.error` is the error raised, after the assignments, when
the microphone permission is not granted. -/
def initializeService (userProfile : Option UserProfile) (callbacks : Callbacks) (granted : Bool)
    (s : Service) : Except Service Service :=
  let s1 := { s with
    userProfile := userProfile
    onTranscriptUpdate := callbacks.onTranscriptUpdate
    onMomentDetected := callbacks.onMomentDetected
    onNudgeTriggered := callbacks.onNudgeTriggered
    onCoachingGenerated := callbacks.onCoachingGenerated
    onVoiceFeedback := callbacks.onVoiceFeedback }
  if granted then .ok s1 else .error s1

/-- Method `updateUserProfile(userProfile)`. -/
def updateUserProfile (userProfile : Option UserProfile) (s : Service) : Service :=
  { s with userProfile := userProfile }

/-- The operations that drive an initialized service: the public methods the
presentation layer calls, the two timer callbacks, the completion of a
background-coaching run, and the passage of time. -/
inductive Op where
  | startRecording (env : StartEnv)
  | stopRecording (env : StopEnv)
  | pauseRecording
  | resumeRecording
  | clearData
  | updateUserProfile (userProfile : Option UserProfile)
  | recordingTick (env : StopEnv) (seg : SegmentEnv)
  | backgroundCoachingTick (coachingTips : Option (List Nudge))
  | generateBackgroundCoachingTips (coachingTips : Option (List Nudge))
  | elapse (ms : Nat)
  deriving DecidableEq, Repr

/-- The effect of one operation. -/
def Op.apply (lc : String → String) (eng : NudgeEngine) (op : Op) (s : Service) : Service :=
  match op with
  | .startRecording env => MiCoach.startRecording env s
  | .stopRecording env => MiCoach.stopRecording lc eng env s
  | .pauseRecording => MiCoach.pauseRecording s
  | .resumeRecording => MiCoach.resumeRecording s
  | .clearData => MiCoach.clearData s
  | .updateUserProfile userProfile => MiCoach.updateUserProfile userProfile s
  | .recordingTick env seg => MiCoach.recordingTick lc eng env seg s
  | .backgroundCoachingTick tips => MiCoach.backgroundCoachingTick tips s
  | .generateBackgroundCoachingTips tips => MiCoach.generateBackgroundCoachingTips tips s
  | .elapse ms => { s with now := s.now + ms }

/-- The state after a sequence of operations, run one after another. -/
def run (lc : String → String) (eng : NudgeEngine) (ops : List Op) (s : Service) : Service :=
  ops.foldl (fun st op => op.apply lc eng st) s

/-- One cycle of the background-coaching timer on the service: the tips of
`generateBackgroundCoaching` on the buffer, profile and coaching history, handed
to `generateBackgroundCoachingTips`. -/
def backgroundCoachingCycle (lc : String → String) (env : CoachingEnv) (s : Service) :
    Service :=
  generateBackgroundCoachingTips
    (some (generateBackgroundCoaching lc env s.now s.transcriptBuffer s.userProfile
      s.coachingHistory)) s

/-! ## The insight service in demo mode (`generateCoachingInsights` of geminiPrompt.js) -/

/-- An element of the `themes` array of a coaching response. -/
structure Theme where
  name : String
  description : String
  deriving DecidableEq, Repr

/-- The object `generateCoachingInsights` returns. -/
structure CoachingResponse where
  insights : String
  themes : List Theme
  recommendations : List String
  moodAnalysis : MoodAnalysis
  actionItems : List String
  deriving DecidableEq, Repr

/-- The object literal `DEMO_RESPONSES.coaching` as the module defines it. -/
def demoCoaching : CoachingResponse :=
  { insights := "You're showing great self-awareness in recognizing your feelings."
    themes :=
      [{ name := "Self-awareness",
         description := "You're developing deeper understanding of yourself" }]
    recommendations := ["Take a few deep breaths to help you feel more centered"]
    moodAnalysis :=
      { sentiment := "reflective"
        description := "You're showing mindfulness in your reflections" }
    actionItems := ["Try taking a short break to refresh your mind"] }

/-- The test `!process.env.EXPO_PUBLIC_GEMINI_API_KEY || process.env.EXPO_PUBLIC_GEMINI_API_KEY
=== 'demo-key'`. -/
def demoMode (apiKey : Option String) : Bool :=
  match apiKey with
  | none => true
  | some key => decide (key = "") || decide (key = "demo-key")

/-- The demo branch of `generateCoachingInsights`.  `shared` is the present content
of the module-level object `DEMO_RESPONSES.coaching`.  The response is the shallow
copy `{ ...DEMO_RESPONSES.coaching }`: its arrays and its `moodAnalysis` are the
objects of the shared payload, so every `push` and assignment below also changes
the shared payload.  The result is the returned response and the content of the
shared payload after the call. -/
def demoCoachingInsights (lc : String → String) (transcript : String)
    (shared : CoachingResponse) : CoachingResponse × CoachingResponse :=
  let lowerTranscript := lc transcript
  let r0 := shared
  let r1 :=
    if includes lowerTranscript "work" || includes lowerTranscript "project" then
      { r0 with
        themes := r0.themes ++
          [{ name := "Professional growth",
             description := "You're balancing work and personal development" }]
        recommendations := r0.recommendations ++
          ["Set clear boundaries between work and personal time"] }
    else r0
  let r2 :=
    if includes lowerTranscript "tired" || includes lowerTranscript "exhausted" then
      { r1 with
        moodAnalysis :=
          { sentiment := "tired"
            description := "You're recognizing your energy levels and taking care of yourself" }
        actionItems := r1.actionItems ++ ["Prioritize rest and self-care today"] }
    else r1
  let r3 :=
    if includes lowerTranscript "stressed" || includes lowerTranscript "anxious" then
      { r2 with
        moodAnalysis :=
          { sentiment := "stressed"
            description := "You're aware of your stress and seeking balance" }
        recommendations := r2.recommendations ++
          ["Practice deep breathing when you feel overwhelmed"] }
    else r2
  (r3, r3)

/-- Function `generateCoachingInsights(transcript)`.  `remote` is what the loop over the
Gemini models returns (`none` when every model fails, in which case the function
returns `DEMO_RESPONSES.coaching` itself). -/
def generateCoachingInsights (lc : String → String) (apiKey : Option String)
    (remote : Option CoachingResponse) (transcript : String) (shared : CoachingResponse) :
    CoachingResponse × CoachingResponse :=
  if demoMode apiKey then demoCoachingInsights lc transcript shared
  else
    match remote with
    | some response => (response, shared)
    | none => (shared, shared)

/-- The responses of a sequence of calls of `generateCoachingInsights` without an API
key, starting from the payload `shared`. -/
def demoResponses (lc : String → String) :
    List String → CoachingResponse → List CoachingResponse
  | [], _ => []
  | transcript :: rest, shared =>
    let result := generateCoachingInsights lc none none transcript shared
    result.1 :: demoResponses lc rest result.2

/-! ## Timer ticks that interleave with a pending rotation

`rotateRecording` awaits the pipeline of the segment it has closed.  While it is
suspended there, the event loop runs other callbacks, among them the next tick
of the segment timer.  The definitions below split a rotation at that await. -/

/-- The service with two ghost components: `openSegments`, the recordings that
`Audio.Recording.createAsync` has created and `stopAndUnloadAsync` has not yet
closed, and `pendingRotations`, the closed segments whose rotation is suspended
at `await this.processRecording(uri)`. -/
structure Session where
  service : Service
  openSegments : List String
  pendingRotations : List String
  deriving DecidableEq, Repr

/-- Method `startRecordingSegment()` on a session. -/
def Session.startSegment (seg : SegmentEnv) (x : Session) : Session :=
  { x with
    service := startRecordingSegment seg x.service
    openSegments := x.openSegments ++ seg.newRecording.toList }

/-- Method `startRecording()` on a session. -/
def Session.start (env : StartEnv) (x : Session) : Session :=
  { x with
    service := startRecording env x.service
    openSegments :=
      if x.service.isRecording then x.openSegments
      else x.openSegments ++ env.segment.newRecording.toList }

/-- The callback of the segment timer up to its first suspension on a segment
pipeline, when `stopAndUnloadAsync` succeeds.  With a current recording,
`rotateRecording` enters `stopCurrentRecording`, which closes the recording, clears
the field and suspends at `await this.processRecording(uri)`.  Without one,
`rotateRecording` goes straight to `startRecordingSegment` and completes. -/
def Session.tickBegin (seg : SegmentEnv) (x : Session) : Session :=
  if x.service.isRecording && !x.service.isPaused then
    match x.service.currentRecording with
    | some uri =>
      { service := { x.service with currentRecording := none }
        openSegments := x.openSegments.erase uri
        pendingRotations := x.pendingRotations ++ [uri] }
    | none => x.startSegment seg
  else x

/-- The rest of a suspended rotation: the pipeline of the closed segment `uri`
resolves, `rotateRecording` waits 100 ms and calls `startRecordingSegment`. -/
def Session.rotationResume (lc : String → String) (eng : NudgeEngine) (env : PipelineEnv)
    (seg : SegmentEnv) (uri : String) (x : Session) : Session :=
  if uri ∈ x.pendingRotations then
    let s1 := processRecording lc eng env uri x.service
    Session.startSegment seg
      { x with
        service := { s1 with now := s1.now + 100 }
        pendingRotations := x.pendingRotations.erase uri }
  else x

/-- Time passes on a session. -/
def Session.elapse (ms : Nat) (x : Session) : Session :=
  { x with service := { x.service with now := x.service.now + ms } }

/-! ## Predicates used to state the properties -/

/-- The score after `k` additions of `w` to `acc`. -/
def addTimes (w : F64) (k : Nat) (acc : F64) : F64 := (fun a => f64Add a w)^[k] acc

/-- The timestamps of the voice-feedback events of a trace, in order. -/
def voiceTimes (trace : List Event) : List Nat :=
  trace.filterMap (fun e =>
    match e with
    | .voiceFeedback event => some event.timestamp
    | _ => none)

/-- The part of the state that governs pausing, stopping and the timing of
voice feedback. -/
structure Control where
  isRecording : Bool
  isPaused : Bool
  currentRecording : Option String
  recordingInterval : Option Nat
  backgroundCoachingInterval : Option Nat
  lastVoiceFeedback : Option Nat
  onVoiceFeedback : Callback
  now : Nat
  voiceTimes : List Nat
  segmentStarts : List Bool
  deriving DecidableEq, Repr

/-- The values of `isPaused` recorded at the entries into
`startRecordingSegment`, in order. -/
def segmentStarts (trace : List Event) : List Bool :=
  trace.filterMap (fun e =>
    match e with
    | .segmentStart isPaused => some isPaused
    | _ => none)

/-- The control part of a service state. -/
def Service.control (s : Service) : Control :=
  { isRecording := s.isRecording
    isPaused := s.isPaused
    currentRecording := s.currentRecording
    recordingInterval := s.recordingInterval
    backgroundCoachingInterval := s.backgroundCoachingInterval
    lastVoiceFeedback := s.lastVoiceFeedback
    onVoiceFeedback := s.onVoiceFeedback
    now := s.now
    voiceTimes := voiceTimes s.trace
    segmentStarts := segmentStarts s.trace }

/-- Whether the pipeline of a closed segment reaches `provideVoiceFeedback`
with the cooldown elapsed: the segment has speech, `detectConcerningPatterns`
returns true on the buffer extended by the segment, and
`shouldProvideVoiceFeedback` holds when the analysis has resolved. -/
def feedbackDue (lc : String → String) (env : PipelineEnv) (audioUri : String)
    (s : Service) : Bool :=
  match env.transcript with
  | none => false
  | some transcript =>
    let s1 := { s with
      now := s.now + env.transcribeDelay + env.analysisDelay
      transcriptBuffer := s.transcriptBuffer ++
        [{ timestamp := s.now + env.transcribeDelay, text := transcript, audioUri := audioUri,
           duration := recordingDuration / 1000 }] }
    !noSpeech (some transcript) &&
      (detectConcerningPatterns lc env.analysis transcript s1.transcriptBuffer == some true) &&
      shouldProvideVoiceFeedback s1

/-- The operations of a run in which nothing pauses an idle service:
`pauseRecording` is called only while recording, and the segment flushed by
`stopRecording` does not reach voice feedback. -/
def Op.pausesOnlyWhileRecording (lc : String → String) (op : Op) (s : Service) : Bool :=
  match op with
  | .pauseRecording => s.isRecording
  | .stopRecording env =>
    match s.currentRecording with
    | some uri => !(s.isRecording && env.stopOk && feedbackDue lc env.pipeline uri s)
    | none => true
  | _ => true

/-- Every operation of the run satisfies `Op.pausesOnlyWhileRecording` in the state
it is applied to. -/
def runPausesOnlyWhileRecording (lc : String → String) (eng : NudgeEngine) :
    List Op → Service → Bool
  | [], _ => true
  | op :: ops, s =>
    op.pausesOnlyWhileRecording lc s &&
      runPausesOnlyWhileRecording lc eng ops (op.apply lc eng s)

/-- The cooldown invariant on the clock `now`, the voice-feedback callback, the
recorded emission time `last` and the timestamps `times` of the events
delivered so far: the clock is after the epoch, the callback does not raise, a
recorded time is positive, every delivered event is positive and not later than
the recorded time, and consecutive events are a cooldown apart. -/
def CooldownInv (now : Nat) (cb : Callback) (last : Option Nat) (times : List Nat) : Prop :=
  0 < now ∧ cb ≠ .throws ∧
  (∀ l, last = some l → 0 < l) ∧
  (∀ t ∈ times, 0 < t ∧ ∃ l, last = some l ∧ t ≤ l) ∧
  times.Pairwise (fun a b => a + voiceFeedbackCooldown ≤ b)

/-- The cooldown invariant of a service state. -/
def Service.cooldownInv (s : Service) : Prop :=
  CooldownInv s.now s.onVoiceFeedback s.lastVoiceFeedback (voiceTimes s.trace)

/-- The nudges passed to `onNudgeTriggered` in a trace, in order. -/
def nudgeEvents (trace : List Event) : List Nudge :=
  trace.filterMap (fun e =>
    match e with
    | .nudgeTriggered nudge => some nudge
    | _ => none)

/-- The concern score reached by `K` concerning keywords, `I` intensity
keywords and the sentiment bonus, before the repeated-negative bonus. -/
def concernScore (K I : Nat) (negative : Bool) : F64 :=
  let c2 := addTimes (f64OfTenths 1) I (addTimes (f64OfTenths 3) K 0)
  if negative then f64Add c2 (f64OfTenths 4) else c2

/-- Whether a buffer entry contains at least one concerning keyword. -/
def hasConcerningKeyword (lc : String → String) (entry : TranscriptEntry) : Bool :=
  decide (∃ keyword ∈ concerningKeywords, includes (lc entry.text) keyword = true)

/-- Whether the mood analysis reports the sentiment `negative`. -/
def isNegative (mood : Option MoodAnalysis) : Bool :=
  decide (mood.map (fun m => m.sentiment) = some "negative")

/-- The activity selected by the loop of `generateActivityBasedCoaching` when it
runs over `table`: the first entry with a trigger that occurs in the text. -/
def matchedActivity (table : List (String × List String × List String)) (text : String) :
    Option (String × List String × List String) :=
  table.find? (fun entry => entry.2.1.any (fun trigger => includes text trigger))

/-- The table `ACTIVITY_BASED_COACHING` without the trigger `meeting` of
`social_interaction` and without the trigger `workout` of `physical_activity`. -/
def withoutShadowedTriggers : List (String × List String × List String) :=
  ACTIVITY_BASED_COACHING.map (fun entry =>
    if entry.1 = "social_interaction" then (entry.1, entry.2.1.erase "meeting", entry.2.2)
    else if entry.1 = "physical_activity" then (entry.1, entry.2.1.erase "workout", entry.2.2)
    else entry)

/-- The tip list of `work_focus` in `ACTIVITY_BASED_COACHING`. -/
def workFocusTips : List String :=
  match ACTIVITY_BASED_COACHING.lookup "work_focus" with
  | some config => config.2
  | none => []

/-- The issue rules of the voice-feedback text as the specification lists them,
in order: the two keywords of a rule and the issue it names. -/
def issueRules : List (String × String × String) :=
  [("stressed", "overwhelmed", "stress and feeling overwhelmed"),
   ("anxious", "worried", "anxiety and worry"),
   ("sad", "lonely", "feeling sad and lonely"),
   ("tired", "exhausted", "feeling tired and exhausted"),
   ("failing", "not good enough", "feeling like you're not good enough")]

/-- The issue named by the first rule of `issueRules` with a keyword in the
lower-cased transcript, else the fallback. -/
def specIssue (lowerTranscript : String) : String :=
  match issueRules.find?
      (fun rule => includes lowerTranscript rule.1 || includes lowerTranscript rule.2.1) with
  | some rule => rule.2.2
  | none => "what you're going through"

/-- The voice-feedback text as the specification composes it from its five
parts, for insight text `insights` (empty when there is none). -/
def specResponse (lc : String → String) (insights : String) (analysis : Analysis)
    (transcript : String) : String :=
  let opening := "I hear you're dealing with " ++ specIssue (lc transcript) ++ ". "
  let insight := if insights = "" then "" else firstSentence insights ++ ". "
  let tip :=
    match analysis.recommendations.head?, analysis.actionItems.head? with
    | some recommendation, _ => recommendation ++ " "
    | none, some item => item ++ " "
    | none, none => ""
  let empathy :=
    if isNegative analysis.moodAnalysis then "Remember, it's okay to not be okay sometimes. "
    else ""
  opening ++ insight ++ tip ++ empathy ++ "You're doing better than you think."

/-- The message the specification describes for a profile with name `name`
(empty when the profile has none) and voice tone `voiceTone`: the name prefix
when the message begins with a leading phrase, then the tone adjustment. -/
def specPersonalizedMessage (name : String) (voiceTone : Option String) (message : String) :
    String :=
  let prefixed :=
    if name ≠ "" ∧ ∃ phrase ∈ leadingPhrases, phrase.toList <+: message.toList then
      name ++ ", " ++ message
    else message
  if voiceTone = some "cheerful" then replaceTrailing '.' " 😊" prefixed
  else if voiceTone = some "calm" then replaceTrailing '!' "." prefixed
  else prefixed

/-- Whether `generateBackgroundCoaching` calls `analyzeTranscriptPatterns` in a run
started at `now`. -/
def patternAnalysisRequested (env : CoachingEnv) (now : Nat)
    (transcript : List TranscriptEntry) (recentNudges : List Nudge) : Bool :=
  let now1 := if transcript.length > 0 then now + env.contextualDelay else now
  patternAnalysisDue now1 recentNudges && decide (transcript.length ≥ 5)

/-- The most recent tip of source `pattern_analysis` in a history
(the history is in the order the tips were appended). -/
def lastPatternTip (recentNudges : List Nudge) : Option Nudge :=
  (recentNudges.filter (fun n => n.source = some "pattern_analysis")).getLast?

/-! ## Concrete inputs used in witnesses and failing inputs -/

/-- The payload `DEMO_RESPONSES.coaching` of geminiPrompt.js, as an analysis
result. -/
def demoAnalysis : Analysis :=
  { insights := .text "You're showing great self-awareness in recognizing your feelings."
    recommendations := ["Take a few deep breaths to help you feel more centered"]
    actionItems := ["Try taking a short break to refresh your mind"]
    moodAnalysis := some
      { sentiment := "reflective"
        description := "You're showing mindfulness in your reflections" } }

/-- A segment whose transcript names two concerning keywords; transcription
takes 1.5 s, analysis 1 s, speech synthesis 2 s and succeeds. -/
def stressedSegment : PipelineEnv :=
  { transcript := some "I'm so stressed and overwhelmed, I feel like giving up"
    transcribeDelay := 1500
    analysis := demoAnalysis
    analysisDelay := 1000
    speech := some "data:audio/mpeg;base64,AAAA"
    speechDelay := 2000
    callbackDelay := 1
    random := 0 }

/-- A segment whose transcript has no keyword of any table. -/
def calmSegment : PipelineEnv :=
  { stressedSegment with transcript := some "Hello there, nice to see you" }

/-- The start of a session: the first segment opens, the timers get handles 1
and 2. -/
def sampleStart : StartEnv :=
  { segment := { newRecording := some "file://segment-1.m4a" }
    recordingTimer := 1
    coachingTimer := 2 }

/-- The callbacks HomeScreen.js registers: transcript, nudge and voice-feedback
handlers that return. -/
def homeScreenCallbacks : Callbacks :=
  { onTranscriptUpdate := .returns
    onMomentDetected := .absent
    onNudgeTriggered := .returns
    onCoachingGenerated := .absent
    onVoiceFeedback := .returns }

/-- The service after construction at time 1000 and `initializeService` with
the HomeScreen callbacks and no profile. -/
def readyService : Service :=
  match initializeService none homeScreenCallbacks true (Service.init 1000) with
  | .ok s => s
  | .error s => s

/-- A buffer of two earlier entries, the second of which names a concerning
keyword. -/
def calmThenSad : List TranscriptEntry :=
  [{ timestamp := 100, text := "nice weather today", audioUri := "file://a.m4a", duration := 10 },
   { timestamp := 200, text := "i am sad", audioUri := "file://b.m4a", duration := 10 }]

/-- A buffer of three earlier entries, the first two of which name a concerning
keyword. -/
def twoSadThenCalm : List TranscriptEntry :=
  [{ timestamp := 100, text := "i am sad", audioUri := "file://a.m4a", duration := 10 },
   { timestamp := 200, text := "so lonely", audioUri := "file://b.m4a", duration := 10 },
   { timestamp := 300, text := "nice weather today", audioUri := "file://c.m4a", duration := 10 }]

/-- A segment whose transcript has a static-nudge trigger (`stressed`), an
activity trigger (`work`) and a significance of 1.0 (`breakthrough`, `stressed`,
"i realized"), but a concern score below the threshold. -/
def insightSegment : PipelineEnv :=
  { calmSegment with
    transcript := some "I realized a breakthrough, but I am stressed about work" }

/-- The ready service with all five callbacks registered and returning. -/
def allCallbacksService : Service :=
  { readyService with onMomentDetected := .returns, onCoachingGenerated := .returns }

/-- A nudge of the given category shown at time 1000 ms. -/
def oldNudge (category : String) : Nudge :=
  { message := "m", category := category, priority := "medium", trigger := none,
    timestamp := some 1000, source := none }

/-- A history of nine nudges shown at time 1000 ms and one `stress` nudge shown
at time 999999000 ms. -/
def longHistory : List Nudge :=
  [oldNudge "time_based", oldNudge "time_based", oldNudge "time_based",
   oldNudge "focus", oldNudge "focus", oldNudge "energy", oldNudge "energy",
   oldNudge "activity_based", oldNudge "activity_based",
   { message := "m", category := "stress", priority := "high", trigger := none,
     timestamp := some 999999000, source := none }]


/-- A buffer whose last entry mentions a workout. -/
def workoutBuffer : List TranscriptEntry :=
  [{ timestamp := 100, text := "Just finished my workout", audioUri := "file://a.m4a",
     duration := 10 }]

/-- A profile whose name holds the two characters `$$`. -/
def dollarProfile : UserProfile :=
  { name := some "A$$AP", voiceTone := some "calm", goals := none, challenges := none }

/-- A profile with a plain name and the cheerful tone. -/
def samProfile : UserProfile :=
  { name := some "Sam", voiceTone := some "cheerful", goals := none, challenges := none }

/-- The static nudge of the trigger `can't focus`. -/
def focusNudge : Nudge :=
  { message := "Take 5 minutes. Breathe deeply, then refocus on one task.",
    category := "focus", priority := "high", trigger := none, timestamp := none,
    source := none }

/-- A run at 9 o'clock in which both calls of the generative model answer. -/
def answeringEnv : CoachingEnv :=
  { currentHour := 9
    timeRandom := 0
    activityRandom := 0
    contextualResponse := some "Take a short walk before your next call."
    contextualDelay := 800
    patternEncouragement := some "You keep showing up for yourself."
    patternDelay := 1200 }

/-- A buffer of five calm entries. -/
def fiveEntries : List TranscriptEntry :=
  [{ timestamp := 100, text := "good morning", audioUri := "file://1.m4a", duration := 10 },
   { timestamp := 200, text := "nice weather today", audioUri := "file://2.m4a", duration := 10 },
   { timestamp := 300, text := "coffee first", audioUri := "file://3.m4a", duration := 10 },
   { timestamp := 400, text := "the garden looks fine", audioUri := "file://4.m4a", duration := 10 },
   { timestamp := 500, text := "time for lunch", audioUri := "file://5.m4a", duration := 10 }]

/-- A pattern-analysis tip shown at time `t`. -/
def patternTip (t : Nat) : Nudge :=
  { message := "You keep showing up for yourself.", category := "pattern_analysis",
    priority := "low", trigger := none, timestamp := some t,
    source := some "pattern_analysis" }

/-- A recording service that has run for a while: five buffered entries, one
pattern-analysis tip delivered at 1 000 000 ms, the clock four hours later. -/
def seasonedService : Service :=
  { allCallbacksService with
    isRecording := true
    transcriptBuffer := fiveEntries
    coachingHistory := [patternTip 1000000]
    now := 15400000 }

/-- The stressed segment when speech synthesis fails: `textToSpeech` resolves to
null (no API key, or the request fails). -/
def silentSpeechSegment : PipelineEnv :=
  { stressedSegment with speech := none }

/-- The segment that follows, cut by the next timer tick. -/
def nextSegment : SegmentEnv := { newRecording := some "file://segment-2.m4a" }

/-- The session after `startRecording` on the ready service: the first segment is
open, no rotation is pending. -/
def startedSession : Session :=
  Session.start sampleStart
    { service := readyService, openSegments := [], pendingRotations := [] }

/-- A calm segment whose transcription resolves two seconds after the tick that
follows its closing, twelve seconds after it was closed. -/
def slowSegment : PipelineEnv := { calmSegment with transcribeDelay := 2000 }

/-- The segment a rotation opens after its pipeline. -/
def thirdSegment : SegmentEnv := { newRecording := some "file://segment-3.m4a" }

/-- The first tick closes segment 1 and suspends on its pipeline; ten seconds
later the pipeline is still pending and the second tick fires. -/
def overlappedSession : Session :=
  Session.tickBegin nextSegment (Session.elapse 10000 (Session.tickBegin nextSegment
    (Session.elapse 10000 startedSession)))

end MiCoach


namespace MiCoach

theorem accumulate_eq_addTimes (w : F64) (p : String → Bool) (keys : List String) (acc : F64) :
    accumulate w p keys acc = addTimes w (keys.filter p).length acc := by
  induction keys generalizing acc with
  | nil => rfl
  | cons k ks ih =>
    unfold accumulate at ih ⊢
    by_cases h : p k
    · simp [List.foldl_cons, h, ih, addTimes, List.filter_cons]
    · simp [List.foldl_cons, h, ih, addTimes, List.filter_cons]

set_option maxRecDepth 100000 in
theorem concern_table :
    ∀ K, K ≤ 20 → ∀ I, I ≤ 10 → ∀ N : Bool,
      (f64OfTenths 5 ≤ (if N then f64Add (addTimes (f64OfTenths 1) I (addTimes (f64OfTenths 3) K 0)) (f64OfTenths 4)
          else addTimes (f64OfTenths 1) I (addTimes (f64OfTenths 3) K 0))) ↔
        5 ≤ 3 * K + I + 4 * (if N then 1 else 0) := by
  decide


set_option maxRecDepth 100000 in
theorem moment_table :
    ∀ K, K ≤ 20 → ∀ I, I ≤ 10 → ∀ P : Bool,
      ((f64OfTenths 7 ≤ (if P then f64Add (addTimes (f64OfTenths 2) I (addTimes (f64OfTenths 3) K 0)) (f64OfTenths 4)
          else addTimes (f64OfTenths 2) I (addTimes (f64OfTenths 3) K 0))) ↔
        7 ≤ 3 * K + 2 * I + 4 * (if P then 1 else 0)) ∧
      10 * f64Min (if P then f64Add (addTimes (f64OfTenths 2) I (addTimes (f64OfTenths 3) K 0)) (f64OfTenths 4)
          else addTimes (f64OfTenths 2) I (addTimes (f64OfTenths 3) K 0)) (f64OfTenths 10)
        ≤ min (3 * K + 2 * I + 4 * (if P then 1 else 0)) 10 * 2 ^ 56 + 640 ∧
      min (3 * K + 2 * I + 4 * (if P then 1 else 0)) 10 * 2 ^ 56 ≤
        10 * f64Min (if P then f64Add (addTimes (f64OfTenths 2) I (addTimes (f64OfTenths 3) K 0)) (f64OfTenths 4)
          else addTimes (f64OfTenths 2) I (addTimes (f64OfTenths 3) K 0)) (f64OfTenths 10) + 640 := by
  decide

theorem significanceScore_eq (lc : String → String) (transcript : String) :
    significanceScore lc transcript =
      (if hasInsightPhrase (lc transcript) then
        f64Add (addTimes (f64OfTenths 2)
            (intensityKeywords.countP (fun k => includes (lc transcript) k))
          (addTimes (f64OfTenths 3)
            (significantKeywords.countP (fun k => includes (lc transcript) k)) 0))
          (f64OfTenths 4)
      else addTimes (f64OfTenths 2)
            (intensityKeywords.countP (fun k => includes (lc transcript) k))
          (addTimes (f64OfTenths 3)
            (significantKeywords.countP (fun k => includes (lc transcript) k)) 0)) := by
  simp only [significanceScore, accumulate_eq_addTimes, ← List.countP_eq_length_filter]
  rfl

theorem tenths_close (m T : ℕ) (h1 : 10 * m ≤ min T 10 * 2 ^ 56 + 640)
    (h2 : min T 10 * 2 ^ 56 ≤ 10 * m + 640) :
    |(m : ℚ) / 2 ^ 56 - min ((T : ℚ) / 10) 1| ≤ 1 / 2 ^ 50 := by
  have hmin : min ((T : ℚ) / 10) 1 = ((min T 10 : ℕ) : ℚ) / 10 := by
    rcases le_total T 10 with h | h
    · have hq : (T : ℚ) / 10 ≤ 1 := by
        have : (T : ℚ) ≤ 10 := by exact_mod_cast h
        linarith
      rw [min_eq_left hq, min_eq_left h]
    · have hq : (1 : ℚ) ≤ (T : ℚ) / 10 := by
        have : (10 : ℚ) ≤ T := by exact_mod_cast h
        linarith
      rw [min_eq_right hq, min_eq_right h]
      norm_num
  rw [hmin]
  generalize min T 10 = e at h1 h2
  have q1 : (10 : ℚ) * m ≤ e * 2 ^ 56 + 640 := by exact_mod_cast h1
  have q2 : (e : ℚ) * 2 ^ 56 ≤ 10 * m + 640 := by exact_mod_cast h2
  have hx : (m : ℚ) = ((m : ℚ) / 2 ^ 56) * 2 ^ 56 := by field_simp
  generalize (m : ℚ) / 2 ^ 56 = x at hx ⊢
  rw [hx] at q1 q2
  norm_num at q1 q2 ⊢
  rw [abs_le]
  constructor <;> linarith

/-- C1. With fewer than three buffered entries and string insights,
`detectConcerningPatterns` returns (does not raise) and recommends feedback
exactly when `0.3*K + 0.1*I + 0.4*N >= 0.5` in exact arithmetic, where `K` counts
the concerning keywords found in the lower-cased transcript or insight text, `I`
the intensity keywords found in the lower-cased transcript and `N` is 1 for a
negative sentiment: the binary64 accumulation of the code decides the same as
the exact sum, the boundary 0.5 included. -/
theorem detectConcerningPatterns_threshold (lc : String → String) (analysis : Analysis)
    (insights transcript : String) (buffer : List TranscriptEntry)
    (hins : analysis.insights = .text insights) (hbuf : buffer.length < 3) :
    detectConcerningPatterns lc analysis transcript buffer =
      some (decide
        ((0.3 : ℚ) * (concerningKeywords.countP
              (fun k => includes (lc transcript) k || includes (lc insights) k) : ℕ)
          + 0.1 * (intensityKeywords.countP (fun k => includes (lc transcript) k) : ℕ)
          + 0.4 * (if (analysis.moodAnalysis.map (fun m => m.sentiment)) = some "negative"
              then 1 else 0)
          ≥ 0.5)) := by
  have hK : concerningKeywords.countP
      (fun k => includes (lc transcript) k || includes (lc insights) k) ≤ 20 :=
    List.countP_le_length _
  have hI : intensityKeywords.countP (fun k => includes (lc transcript) k) ≤ 10 :=
    List.countP_le_length _
  have hlen : ¬ buffer.length > 2 := by omega
  unfold detectConcerningPatterns
  rw [hins]
  simp only [concernLevel, hlen, if_false, accumulate_eq_addTimes,
    ← List.countP_eq_length_filter]
  generalize concerningKeywords.countP
    (fun k => includes (lc transcript) k || includes (lc insights) k) = K at hK ⊢
  generalize intensityKeywords.countP (fun k => includes (lc transcript) k) = I at hI ⊢
  congr 1
  rw [decide_eq_decide]
  have key := concern_table K hK I hI
  cases hm : analysis.moodAnalysis with
  | none =>
    have := key false
    simp only [Bool.false_eq_true, if_false] at this
    simp only [Option.map_none', ge_iff_le, this]
    simp
    constructor
    · intro h
      have h2 : ((5 : ℕ) : ℚ) ≤ ((3 * K + I : ℕ) : ℚ) := by exact_mod_cast h
      push_cast at h2
      linarith
    · intro h
      have h2 : ((5 : ℕ) : ℚ) ≤ ((3 * K + I : ℕ) : ℚ) := by push_cast; linarith
      exact_mod_cast h2
  | some m =>
    by_cases hs : m.sentiment = "negative"
    · have := key true
      simp only [if_true] at this
      simp only [Option.map_some', hs, if_true, ge_iff_le, this]
      constructor
      · intro h
        have h2 : ((5 : ℕ) : ℚ) ≤ ((3 * K + I + 4 * 1 : ℕ) : ℚ) := by exact_mod_cast h
        push_cast at h2
        linarith
      · intro h
        have h2 : ((5 : ℕ) : ℚ) ≤ ((3 * K + I + 4 * 1 : ℕ) : ℚ) := by push_cast; linarith
        exact_mod_cast h2
    · have := key false
      simp only [Bool.false_eq_true, if_false] at this
      have hne : ¬ (some m.sentiment = some "negative") := by simpa using hs
      simp only [Option.map_some', hs, hne, if_false, ge_iff_le, this]
      simp
      constructor
      · intro h
        have h2 : ((5 : ℕ) : ℚ) ≤ ((3 * K + I : ℕ) : ℚ) := by exact_mod_cast h
        push_cast at h2
        linarith
      · intro h
        have h2 : ((5 : ℕ) : ℚ) ≤ ((3 * K + I : ℕ) : ℚ) := by push_cast; linarith
        exact_mod_cast h2

/-- C2. With `score = 0.3*K + 0.2*I + 0.4*P` in exact arithmetic (`K`, `I` the
numbers of significant and of intensity keywords found in the lower-cased
transcript, `P` = 1 for an insight phrase): if `score >= 0.7` then
`detectSignificantMoments` appends exactly one Moment, whose significance is
`Math.min` of the accumulated binary64 score and `1.0`, lies between `0.7` and
`1.0`, and equals `min(score, 1)` up to binary64 rounding (within `2^-50`); if
`score < 0.7` the whole service state, the moment buffer and the trace of
callback invocations included, is unchanged. -/
theorem detectSignificantMoments_threshold (lc : String → String) (transcript : String)
    (s : Service) (score : ℚ)
    (hscore : score =
      0.3 * (significantKeywords.countP (fun k => includes (lc transcript) k) : ℕ)
      + 0.2 * (intensityKeywords.countP (fun k => includes (lc transcript) k) : ℕ)
      + 0.4 * (if includes (lc transcript) "i realized" ∨ includes (lc transcript) "i understand"
            ∨ includes (lc transcript) "i learned" then 1 else 0)) :
    (score ≥ 0.7 →
      ∃ m : Moment,
        (detectSignificantMoments lc transcript s).momentBuffer = s.momentBuffer ++ [m] ∧
        m.significance = f64Min (significanceScore lc transcript) (f64OfTenths 10) ∧
        f64OfTenths 7 ≤ m.significance ∧ m.significance ≤ f64OfTenths 10 ∧
        |(m.significance : ℚ) / 2 ^ 56 - min score 1| ≤ 1 / 2 ^ 50) ∧
    (score < 0.7 → detectSignificantMoments lc transcript s = s) := by
  have hK : significantKeywords.countP (fun k => includes (lc transcript) k) ≤ 20 :=
    List.countP_le_length _
  have hI : intensityKeywords.countP (fun k => includes (lc transcript) k) ≤ 10 :=
    List.countP_le_length _
  have hsig := significanceScore_eq lc transcript
  have hP : (includes (lc transcript) "i realized" ∨ includes (lc transcript) "i understand"
      ∨ includes (lc transcript) "i learned") ↔ hasInsightPhrase (lc transcript) = true := by
    simp [hasInsightPhrase, or_assoc]
  generalize significantKeywords.countP (fun k => includes (lc transcript) k) = K
    at hK hsig hscore
  generalize intensityKeywords.countP (fun k => includes (lc transcript) k) = I
    at hI hsig hscore
  have key := moment_table K hK I hI (hasInsightPhrase (lc transcript))
  rw [← hsig] at key
  obtain ⟨kthr, k1, k2⟩ := key
  have hT : score = ((3 * K + 2 * I + 4 * (if hasInsightPhrase (lc transcript) = true
      then 1 else 0) : ℕ) : ℚ) / 10 := by
    rw [hscore]
    by_cases hp : hasInsightPhrase (lc transcript) = true
    · simp only [hP.mpr hp, hp, if_true]; push_cast; ring
    · have : ¬ (includes (lc transcript) "i realized" ∨ includes (lc transcript) "i understand"
          ∨ includes (lc transcript) "i learned") := fun h => hp (hP.mp h)
      simp only [this, hp, if_false]; push_cast; ring
  generalize 3 * K + 2 * I + 4 * (if hasInsightPhrase (lc transcript) = true then 1 else 0) = T
    at kthr k1 k2 hT
  have hge : score ≥ 0.7 ↔ 7 ≤ T := by
    rw [hT]
    constructor
    · intro h
      have : (7 : ℚ) ≤ T := by norm_num at h; linarith
      exact_mod_cast this
    · intro h
      have : (7 : ℚ) ≤ T := by exact_mod_cast h
      norm_num; linarith
  constructor
  · intro h
    have hthr : significanceScore lc transcript ≥ momentDetectionThreshold :=
      kthr.mpr (hge.mp h)
    have hmin7 : f64OfTenths 7 ≤ f64Min (significanceScore lc transcript) (f64OfTenths 10) := by
      unfold f64Min
      split
      · exact hthr
      · decide
    have hmin10 : f64Min (significanceScore lc transcript) (f64OfTenths 10) ≤ f64OfTenths 10 := by
      unfold f64Min
      split
      · assumption
      · exact le_refl _
    refine ⟨{ id := s.now, timestamp := s.now, transcript := transcript,
              significance := f64Min (significanceScore lc transcript) (f64OfTenths 10),
              keywords := detectedKeywords lc transcript,
              type := categorizeMoment lc transcript (detectedKeywords lc transcript),
              audioUri := s.transcriptBuffer.getLast?.map (fun entry => entry.audioUri) },
      ?_, rfl, hmin7, hmin10, ?_⟩
    · unfold detectSignificantMoments
      simp only [hthr, if_true]
      cases s.onMomentDetected <;> rfl
    · rw [hT]
      exact tenths_close _ T k1 k2
  · intro h
    have hthr : ¬ significanceScore lc transcript ≥ momentDetectionThreshold := by
      intro hc
      have := hge.mpr (kthr.mp hc)
      exact absurd h (not_lt.mpr this)
    unfold detectSignificantMoments
    simp only [hthr, if_false]

/-- Witness of C1 on the boundary: one concerning keyword and two intensity
keywords (score 0.5) are recommended, one of each (score 0.4) is not. -/
theorem detectConcerningPatterns_threshold_witness :
    (detectConcerningPatterns asciiLower ⟨.text "", [], [], none⟩ "I am really very SAD" [] =
      some (decide
        ((0.3 : ℚ) * (concerningKeywords.countP
              (fun k => includes (asciiLower "I am really very SAD") k
                || includes (asciiLower "") k) : ℕ)
          + 0.1 * (intensityKeywords.countP
              (fun k => includes (asciiLower "I am really very SAD") k) : ℕ)
          + 0.4 * (if ((none : Option MoodAnalysis).map (fun m => m.sentiment)) = some "negative"
              then 1 else 0)
          ≥ 0.5))) ∧
    detectConcerningPatterns asciiLower ⟨.text "", [], [], none⟩ "I am really very SAD" [] =
      some true ∧
    detectConcerningPatterns asciiLower ⟨.text "", [], [], none⟩ "I am really sad" [] =
      some false :=
  ⟨detectConcerningPatterns_threshold asciiLower ⟨.text "", [], [], none⟩ ""
      "I am really very SAD" [] rfl (by decide),
    by decide, by decide⟩

/-- Witness of C2: "I realized a breakthrough" scores 0.3 + 0.4 and yields one
Moment of significance 0.7; "a breakthrough" scores 0.3 and yields none. -/
theorem detectSignificantMoments_threshold_witness :
    (∃ m : Moment,
        (detectSignificantMoments asciiLower "I realized a breakthrough"
          (Service.init 1000)).momentBuffer = (Service.init 1000).momentBuffer ++ [m] ∧
        m.significance =
          f64Min (significanceScore asciiLower "I realized a breakthrough") (f64OfTenths 10) ∧
        f64OfTenths 7 ≤ m.significance ∧ m.significance ≤ f64OfTenths 10 ∧
        |(m.significance : ℚ) / 2 ^ 56 - min (7 / 10 : ℚ) 1| ≤ 1 / 2 ^ 50) ∧
    (detectSignificantMoments asciiLower "I realized a breakthrough"
        (Service.init 1000)).momentBuffer.map (fun m => (m.significance, m.type)) =
      [(f64OfTenths 7, "insight")] ∧
    detectSignificantMoments asciiLower "a breakthrough" (Service.init 1000) =
      Service.init 1000 :=
  ⟨(detectSignificantMoments_threshold asciiLower "I realized a breakthrough"
      (Service.init 1000) (7 / 10) (by
        have h1 : significantKeywords.countP
            (fun k => includes (asciiLower "I realized a breakthrough") k) = 1 := by decide
        have h2 : intensityKeywords.countP
            (fun k => includes (asciiLower "I realized a breakthrough") k) = 0 := by decide
        have h3 : (includes (asciiLower "I realized a breakthrough") "i realized" = true
            ∨ includes (asciiLower "I realized a breakthrough") "i understand" = true
            ∨ includes (asciiLower "I realized a breakthrough") "i learned" = true) :=
          Or.inl (by decide)
        rw [h1, h2, if_pos h3]
        norm_num)).1 (by norm_num),
    by decide, by decide⟩

theorem inLast24Hours_eq_any (now : Nat) (timestamp : Option Nat) :
    inLast24Hours now timestamp =
      timestamp.any (fun t => decide (now < t + 24 * 60 * 60 * 1000)) := by
  cases timestamp with
  | none => rfl
  | some t =>
    simp only [inLast24Hours, Option.any_some, decide_eq_decide]
    omega

theorem challengesInclude_iff (userProfile : Option UserProfile) (challenge : String) :
    challengesInclude userProfile challenge = true ↔
      ∃ p cs, userProfile = some p ∧ p.challenges = some cs ∧ challenge ∈ cs := by
  unfold challengesInclude
  cases userProfile with
  | none => simp
  | some p =>
    cases hc : p.challenges with
    | none => simp [hc]
    | some cs => simp [hc]

/-- C3. For a candidate whose category is one of the nine table categories and a
history of at most 8 nudges, `shouldShowNudge` returns true exactly when the
number of history nudges of the same category whose timestamp is later than
24 hours before now is strictly below the category's cap: the base table, plus 1
for `focus` when the profile's challenges include "Distraction &
Procrastination" and plus 1 for `stress` when they include "Overthinking &
Anxiety". -/
theorem shouldShowNudge_iff_below_cap (now : Nat) (nudge : Nudge) (recentNudges : List Nudge)
    (userProfile : Option UserProfile) (distraction anxiety : Bool)
    (hcat : nudge.category ∈ tableCategories) (hlen : recentNudges.length ≤ 8)
    (hd : distraction = true ↔ ∃ p cs, userProfile = some p ∧ p.challenges = some cs ∧
      "Distraction & Procrastination" ∈ cs)
    (ha : anxiety = true ↔ ∃ p cs, userProfile = some p ∧ p.challenges = some cs ∧
      "Overthinking & Anxiety" ∈ cs) :
    shouldShowNudge now nudge recentNudges userProfile = true ↔
      recentNudges.countP (fun n => decide (n.category = nudge.category) &&
          n.timestamp.any (fun t => decide (now < t + 24 * 60 * 60 * 1000)))
        < specCap distraction anxiety nudge.category := by
  have hd' : challengesInclude userProfile "Distraction & Procrastination" = distraction := by
    rw [Bool.eq_iff_iff, hd]; exact challengesInclude_iff _ _
  have ha' : challengesInclude userProfile "Overthinking & Anxiety" = anxiety := by
    rw [Bool.eq_iff_iff, ha]; exact challengesInclude_iff _ _
  have hlen' : ¬ recentNudges.length > 8 := by omega
  unfold shouldShowNudge getNudgeFrequency
  simp only [hd', ha', hlen', if_false, inLast24Hours_eq_any,
    ← List.countP_eq_length_filter]
  generalize recentNudges.countP (fun n => decide (n.category = nudge.category) &&
    n.timestamp.any (fun t => decide (now < t + 24 * 60 * 60 * 1000))) = c
  simp only [tableCategories, List.mem_cons, List.mem_singleton, List.not_mem_nil,
    or_false] at hcat
  rcases hcat with h | h | h | h | h | h | h | h | h <;> rw [h] <;>
    cases distraction <;> cases anxiety <;>
    simp [getProperty, baseFrequency, increment, specCap, List.lookup]


/-- Witness of C3: with one `confidence` nudge shown a second ago, a further
`confidence` nudge (cap 1) is refused; with an empty history it is shown. -/
theorem shouldShowNudge_iff_below_cap_witness :
    (shouldShowNudge 100000000 ⟨"m", "confidence", "high", none, none, none⟩
        [⟨"m", "confidence", "high", none, some 99999000, none⟩] none = true ↔
      [(⟨"m", "confidence", "high", none, some 99999000, none⟩ : Nudge)].countP
          (fun n => decide (n.category = "confidence") &&
            n.timestamp.any (fun t => decide (100000000 < t + 24 * 60 * 60 * 1000)))
        < specCap false false "confidence") ∧
    shouldShowNudge 100000000 ⟨"m", "confidence", "high", none, none, none⟩
        [⟨"m", "confidence", "high", none, some 99999000, none⟩] none = false ∧
    shouldShowNudge 100000000 ⟨"m", "confidence", "high", none, none, none⟩ [] none = true :=
  ⟨shouldShowNudge_iff_below_cap 100000000 ⟨"m", "confidence", "high", none, none, none⟩
      [⟨"m", "confidence", "high", none, some 99999000, none⟩] none false false
      (by decide) (by decide) (by simp) (by simp),
    by decide, by decide⟩

/-- C4. `categorizeMoment` is a fixed priority order over the detected keywords:
insight, then challenge, then achievement, then struggle, else reflection.  The
result does not depend on the transcript; `["struggle"]` gives challenge,
a list with `"proud"` and no insight or challenge keyword gives achievement, and
the empty list gives reflection. -/
theorem categorizeMoment_priority (lc : String → String) (transcript : String)
    (keywords : List String) :
    categorizeMoment lc transcript keywords =
      (if ∃ k ∈ keywords, k ∈ ["breakthrough", "realization", "insight", "clarity"] then
        "insight"
      else if ∃ k ∈ keywords,
          k ∈ ["struggle", "challenge", "overwhelmed", "anxious", "stressed"] then
        "challenge"
      else if ∃ k ∈ keywords,
          k ∈ ["proud", "accomplished", "grateful", "excited", "motivated"] then
        "achievement"
      else if ∃ k ∈ keywords,
          k ∈ ["tired", "exhausted", "frustrated", "confused", "lost"] then
        "struggle"
      else "reflection") ∧
    (∀ transcript2 : String,
      categorizeMoment lc transcript2 keywords = categorizeMoment lc transcript keywords) ∧
    categorizeMoment lc transcript ["struggle"] = "challenge" ∧
    categorizeMoment lc transcript [] = "reflection" ∧
    ("proud" ∈ keywords →
      (¬ ∃ k ∈ keywords, k ∈ ["breakthrough", "realization", "insight", "clarity"]) →
      (¬ ∃ k ∈ keywords,
          k ∈ ["struggle", "challenge", "overwhelmed", "anxious", "stressed"]) →
      categorizeMoment lc transcript keywords = "achievement") := by
  have main : ∀ t : String, categorizeMoment lc t keywords =
      (if ∃ k ∈ keywords, k ∈ ["breakthrough", "realization", "insight", "clarity"] then
        "insight"
      else if ∃ k ∈ keywords,
          k ∈ ["struggle", "challenge", "overwhelmed", "anxious", "stressed"] then
        "challenge"
      else if ∃ k ∈ keywords,
          k ∈ ["proud", "accomplished", "grateful", "excited", "motivated"] then
        "achievement"
      else if ∃ k ∈ keywords,
          k ∈ ["tired", "exhausted", "frustrated", "confused", "lost"] then
        "struggle"
      else "reflection") := by
    intro t
    unfold categorizeMoment
    simp only [List.any_eq_true, List.contains_iff_exists_mem_beq, beq_iff_eq, exists_eq_right']
  refine ⟨main transcript, fun t2 => by rw [main t2, main transcript], ?_, ?_, ?_⟩
  · unfold categorizeMoment; decide
  · unfold categorizeMoment; decide
  intro hp h1 h2
  rw [main transcript, if_neg h1, if_neg h2, if_pos ⟨"proud", hp, by decide⟩]

/-! ## Frame lemmas: which steps touch the control part of the state -/

theorem staticNudgeStep_control (eng : NudgeEngine) (transcript : String) (s s' : Service)
    (h : staticNudgeStep eng transcript s = .ok s' ∨ staticNudgeStep eng transcript s = .error s') :
    s'.control = s.control := by
  unfold staticNudgeStep at h
  cases hn : eng.checkStaticNudges s.now transcript s.userProfile with
  | nil =>
    simp only [hn] at h
    rcases h with h | h <;> cases h
    rfl
  | cons first rest =>
    simp only [hn] at h
    cases hcb : s.onNudgeTriggered <;> simp only [hcb] at h <;> rcases h with h | h <;>
      cases h <;>
      simp [Service.control, voiceTimes, segmentStarts, List.filterMap_append]

theorem activityCoachingStep_control (eng : NudgeEngine) (env : PipelineEnv) (s s' : Service)
    (h : activityCoachingStep eng env s = .ok s' ∨ activityCoachingStep eng env s = .error s') :
    s'.control = s.control := by
  unfold activityCoachingStep at h
  cases hn : eng.generateActivityBasedCoaching env.random s.transcriptBuffer s.userProfile with
  | none =>
    simp only [hn] at h
    rcases h with h | h <;> cases h
    rfl
  | some tip =>
    simp only [hn] at h
    cases hcb : s.onCoachingGenerated <;> simp only [hcb] at h <;> rcases h with h | h <;>
      simp at h <;> subst h <;>
      simp [Service.control, voiceTimes, segmentStarts, List.filterMap_append]

theorem detectSignificantMoments_control (lc : String → String) (transcript : String)
    (s : Service) : (detectSignificantMoments lc transcript s).control = s.control := by
  unfold detectSignificantMoments
  simp only
  split
  · cases hcb : s.onMomentDetected <;>
      simp [hcb, Service.control, voiceTimes, segmentStarts, List.filterMap_append]
  · rfl

theorem transcriptUpdateStep_control (s : Service) :
    (transcriptUpdateStep s).control = s.control := by
  unfold transcriptUpdateStep
  cases hcb : s.onTranscriptUpdate <;>
    simp [hcb, Service.control, voiceTimes, segmentStarts, List.filterMap_append]

theorem provideVoiceFeedback_frame (lc : String → String) (env : PipelineEnv)
    (analysis : Analysis) (transcript : String) (s : Service) :
    (provideVoiceFeedback lc env analysis transcript s).isRecording = s.isRecording ∧
    (provideVoiceFeedback lc env analysis transcript s).currentRecording = s.currentRecording ∧
    (provideVoiceFeedback lc env analysis transcript s).recordingInterval = s.recordingInterval ∧
    (provideVoiceFeedback lc env analysis transcript s).backgroundCoachingInterval =
      s.backgroundCoachingInterval ∧
    (provideVoiceFeedback lc env analysis transcript s).onVoiceFeedback = s.onVoiceFeedback ∧
    segmentStarts (provideVoiceFeedback lc env analysis transcript s).trace =
      segmentStarts s.trace ∧
    s.now ≤ (provideVoiceFeedback lc env analysis transcript s).now := by
  unfold provideVoiceFeedback pauseRecording resumeRecording
  simp only
  repeat' split
  all_goals simp [segmentStarts, List.filterMap_append]
  all_goals omega

theorem analyzeTranscriptForIssues_frame (lc : String → String) (env : PipelineEnv)
    (transcript : String) (s : Service) :
    (analyzeTranscriptForIssues lc env transcript s).isRecording = s.isRecording ∧
    (analyzeTranscriptForIssues lc env transcript s).currentRecording = s.currentRecording ∧
    (analyzeTranscriptForIssues lc env transcript s).recordingInterval = s.recordingInterval ∧
    (analyzeTranscriptForIssues lc env transcript s).backgroundCoachingInterval =
      s.backgroundCoachingInterval ∧
    (analyzeTranscriptForIssues lc env transcript s).onVoiceFeedback = s.onVoiceFeedback ∧
    segmentStarts (analyzeTranscriptForIssues lc env transcript s).trace =
      segmentStarts s.trace ∧
    s.now ≤ (analyzeTranscriptForIssues lc env transcript s).now := by
  unfold analyzeTranscriptForIssues
  simp only
  split
  · simp
  · split
    · have h := provideVoiceFeedback_frame lc env env.analysis transcript
        { s with now := s.now + env.analysisDelay }
      obtain ⟨h1, h2, h3, h4, h5, h6, h7⟩ := h
      refine ⟨h1, h2, h3, h4, h5, h6, ?_⟩
      simp only at h7
      omega
    · simp

theorem processRecording_control (lc : String → String) (eng : NudgeEngine)
    (env : PipelineEnv) (audioUri : String) (s : Service) :
    (processRecording lc eng env audioUri s).control =
      match env.transcript with
      | none => ({ s with now := s.now + env.transcribeDelay } : Service).control
      | some transcript =>
        if noSpeech (some transcript) then
          ({ s with now := s.now + env.transcribeDelay } : Service).control
        else
          (analyzeTranscriptForIssues lc env transcript
            { s with
              now := s.now + env.transcribeDelay
              transcriptBuffer := s.transcriptBuffer ++
                [{ timestamp := s.now + env.transcribeDelay, text := transcript,
                   audioUri := audioUri, duration := recordingDuration / 1000 }] }).control := by
  unfold processRecording
  cases ht : env.transcript with
  | none => rfl
  | some transcript =>
    simp only
    by_cases hn : noSpeech (some transcript) = true
    · simp only [hn, if_true]
    · simp only [hn]
      cases h3 : staticNudgeStep eng transcript (analyzeTranscriptForIssues lc env transcript
            { s with
              now := s.now + env.transcribeDelay
              transcriptBuffer := s.transcriptBuffer ++
                [{ timestamp := s.now + env.transcribeDelay, text := transcript,
                   audioUri := audioUri, duration := recordingDuration / 1000 }] }) with
      | error s3 =>
        simp only [if_false, Bool.false_eq_true]
        exact staticNudgeStep_control eng transcript _ s3 (Or.inr h3)
      | ok s3 =>
        have c3 := staticNudgeStep_control eng transcript _ s3 (Or.inl h3)
        simp only [if_false, Bool.false_eq_true]
        cases h4 : activityCoachingStep eng env s3 with
        | error s4 =>
          simp only
          rw [activityCoachingStep_control eng env s3 s4 (Or.inr h4), c3]
        | ok s4 =>
          simp only
          rw [transcriptUpdateStep_control, detectSignificantMoments_control,
            activityCoachingStep_control eng env s3 s4 (Or.inl h4), c3]

theorem processRecording_frame (lc : String → String) (eng : NudgeEngine)
    (env : PipelineEnv) (audioUri : String) (s : Service) :
    (processRecording lc eng env audioUri s).isRecording = s.isRecording ∧
    (processRecording lc eng env audioUri s).currentRecording = s.currentRecording ∧
    (processRecording lc eng env audioUri s).recordingInterval = s.recordingInterval ∧
    (processRecording lc eng env audioUri s).backgroundCoachingInterval =
      s.backgroundCoachingInterval ∧
    (processRecording lc eng env audioUri s).onVoiceFeedback = s.onVoiceFeedback ∧
    segmentStarts (processRecording lc eng env audioUri s).trace = segmentStarts s.trace ∧
    s.now ≤ (processRecording lc eng env audioUri s).now := by
  have h := processRecording_control lc eng env audioUri s
  have e1 := congrArg Control.isRecording h
  have e2 := congrArg Control.currentRecording h
  have e3 := congrArg Control.recordingInterval h
  have e4 := congrArg Control.backgroundCoachingInterval h
  have e5 := congrArg Control.onVoiceFeedback h
  have e6 := congrArg Control.segmentStarts h
  have e7 := congrArg Control.now h
  simp only [Service.control] at e1 e2 e3 e4 e5 e6 e7
  rw [e1, e2, e3, e4, e5, e6, e7]
  cases ht : env.transcript with
  | none => simp
  | some transcript =>
    simp only
    by_cases hn : noSpeech (some transcript) = true
    · simp [hn]
    · simp only [hn, if_false, Bool.false_eq_true]
      obtain ⟨h1, h2, h3, h4, h5, h6, h7⟩ := analyzeTranscriptForIssues_frame lc env transcript
        { s with
          now := s.now + env.transcribeDelay
          transcriptBuffer := s.transcriptBuffer ++
            [{ timestamp := s.now + env.transcribeDelay, text := transcript,
               audioUri := audioUri, duration := recordingDuration / 1000 }] }
      refine ⟨h1, h2, h3, h4, h5, h6, ?_⟩
      simp only at h7
      omega

theorem processRecording_isPaused (lc : String → String) (eng : NudgeEngine)
    (env : PipelineEnv) (audioUri : String) (s : Service)
    (hdue : feedbackDue lc env audioUri s = false) :
    (processRecording lc eng env audioUri s).isPaused = s.isPaused := by
  have h := congrArg Control.isPaused (processRecording_control lc eng env audioUri s)
  simp only [Service.control] at h
  rw [h]
  unfold feedbackDue at hdue
  cases ht : env.transcript with
  | none => rfl
  | some transcript =>
    simp only [ht] at hdue
    simp only
    by_cases hn : noSpeech (some transcript) = true
    · simp [hn]
    · simp only [hn, if_false, Bool.false_eq_true]
      simp only [hn, Bool.not_false, Bool.true_and, Bool.and_eq_false_iff,
        beq_eq_false_iff_ne, ne_eq] at hdue
      unfold analyzeTranscriptForIssues
      simp only [Nat.add_assoc]
      cases hd : detectConcerningPatterns lc env.analysis transcript
          (s.transcriptBuffer ++
            [{ timestamp := s.now + env.transcribeDelay, text := transcript,
               audioUri := audioUri, duration := recordingDuration / 1000 }]) with
      | none => rfl
      | some b =>
        simp only
        rcases hdue with hdue | hdue
        · have hb : b = false := by
            cases b
            · rfl
            · exact absurd hd hdue
          simp [hb]
        · simp only [Nat.add_assoc] at hdue
          simp [hdue]

theorem stopCurrentRecording_frame (lc : String → String) (eng : NudgeEngine)
    (env : StopEnv) (s : Service) :
    (stopCurrentRecording lc eng env s).isRecording = s.isRecording ∧
    (stopCurrentRecording lc eng env s).currentRecording = none ∧
    (stopCurrentRecording lc eng env s).recordingInterval = s.recordingInterval ∧
    (stopCurrentRecording lc eng env s).backgroundCoachingInterval =
      s.backgroundCoachingInterval := by
  unfold stopCurrentRecording
  cases hc : s.currentRecording with
  | none => simp [hc]
  | some uri =>
    simp only
    split
    · obtain ⟨h1, h2, h3, h4, -⟩ := processRecording_frame lc eng env.pipeline uri
        { s with currentRecording := none }
      exact ⟨h1, h2, h3, h4⟩
    · simp

theorem rotateRecording_isRecording (lc : String → String) (eng : NudgeEngine)
    (env : StopEnv) (seg : SegmentEnv) (s : Service) :
    (rotateRecording lc eng env seg s).isRecording = s.isRecording := by
  unfold rotateRecording startRecordingSegment
  have h := (stopCurrentRecording_frame lc eng env s).1
  cases hc : s.currentRecording <;> cases hs : seg.newRecording <;> simp [h]

theorem pausedOnlyWhileRecording_step (lc : String → String) (eng : NudgeEngine) (op : Op)
    (s : Service) (hop : op.pausesOnlyWhileRecording lc s = true)
    (hinv : s.isPaused = true → s.isRecording = true) :
    (op.apply lc eng s).isPaused = true → (op.apply lc eng s).isRecording = true := by
  cases op with
  | startRecording env =>
    simp only [Op.apply, startRecording, startRecordingSegment]
    by_cases hr : s.isRecording = true
    · simp [hr]
    · cases hs : env.segment.newRecording <;> simp [hr]
  | stopRecording env =>
    simp only [Op.apply, stopRecording]
    by_cases hr : s.isRecording = true
    · simp only [hr, Bool.not_true, Bool.false_eq_true, if_false]
      intro hp
      exfalso
      revert hp
      cases hc : s.currentRecording with
      | none =>
        cases h1 : s.recordingInterval <;> cases h2 : s.backgroundCoachingInterval <;>
          simp [hc]
      | some uri =>
        simp only [Op.pausesOnlyWhileRecording, hc, hr, Bool.true_and, Bool.not_eq_true',
          Bool.and_eq_false_iff] at hop
        have key : ∀ s3 : Service, s3.currentRecording = some uri → s3.isPaused = false →
            s3.now = s.now → s3.transcriptBuffer = s.transcriptBuffer →
            s3.lastVoiceFeedback = s.lastVoiceFeedback →
            ¬ (stopCurrentRecording lc eng env s3).isPaused = true := by
          intro s3 h3 hp3 hn3 hb3 hl3
          unfold stopCurrentRecording
          simp only [h3]
          rcases hop with hop | hop
          · simp [hop, hp3]
          · by_cases hok : env.stopOk = true
            · simp only [hok, if_true]
              rw [processRecording_isPaused]
              · simp [hp3]
              · rw [← hop]
                simp only [feedbackDue, shouldProvideVoiceFeedback, hn3, hb3, hl3]
            · simp [hok, hp3]
        cases h1 : s.recordingInterval <;> cases h2 : s.backgroundCoachingInterval <;>
          simp only [hc] <;> apply key <;> simp [hc]
    · simpa [hr] using hinv
  | pauseRecording =>
    simp only [Op.pausesOnlyWhileRecording] at hop
    simp [Op.apply, pauseRecording, hop]
  | resumeRecording => simp [Op.apply, resumeRecording]
  | clearData => simpa [Op.apply, clearData] using hinv
  | updateUserProfile p => simpa [Op.apply, updateUserProfile] using hinv
  | recordingTick env seg =>
    simp only [Op.apply, recordingTick]
    by_cases hr : s.isRecording = true
    · by_cases hp : s.isPaused = true
      · simp [hr, hp]
      · intro _
        simp only [hr, hp, Bool.not_false, Bool.and_self, if_true]
        rw [rotateRecording_isRecording]; exact hr
    · simpa [hr] using hinv
  | backgroundCoachingTick tips =>
    simp only [Op.apply, backgroundCoachingTick, generateBackgroundCoachingTips]
    repeat' split
    all_goals simpa using hinv
  | generateBackgroundCoachingTips tips =>
    simp only [Op.apply, generateBackgroundCoachingTips]
    repeat' split
    all_goals simpa using hinv
  | elapse ms => simpa [Op.apply] using hinv

/-- C5 as stated fails: `pauseRecording` has no guard, so calling it on the
freshly constructed, idle service yields `isPaused = true` with `isRecording =
false`. -/
theorem pauseRecording_while_idle_counterexample :
    (run asciiLower (nudgeEngine asciiLower) [Op.pauseRecording] (Service.init 1000)).isPaused
      = true ∧
    (run asciiLower (nudgeEngine asciiLower) [Op.pauseRecording] (Service.init 1000)).isRecording
      = false := by
  decide

/-- C5, amended.  From any state in which `isPaused` implies `isRecording` (the
constructed state is one), every run of operations in which `pauseRecording` is
called only while recording, and in which no segment flushed by `stopRecording`
reaches voice feedback, ends in a state where `isPaused` is not true while
`isRecording` is false. -/
theorem isPaused_only_while_recording (lc : String → String) (eng : NudgeEngine)
    (ops : List Op) (s : Service)
    (hinit : s.isPaused = true → s.isRecording = true)
    (hops : runPausesOnlyWhileRecording lc eng ops s = true) :
    (run lc eng ops s).isPaused = true → (run lc eng ops s).isRecording = true := by
  induction ops generalizing s with
  | nil => exact hinit
  | cons op ops ih =>
    simp only [runPausesOnlyWhileRecording, Bool.and_eq_true] at hops
    have hstep := pausedOnlyWhileRecording_step lc eng op s hops.1 hinit
    exact ih (op.apply lc eng s) hstep hops.2

/-- Witness of the amended C5: a session that starts, pauses for voice
feedback during a rotation, is resumed, stops with a calm last segment, starts
again and is paused by the player satisfies the hypotheses and ends paused
while recording. -/
theorem isPaused_only_while_recording_witness :
    ((readyService.isPaused = true → readyService.isRecording = true) ∧
      runPausesOnlyWhileRecording asciiLower (nudgeEngine asciiLower)
        [Op.startRecording sampleStart,
         Op.recordingTick ⟨true, stressedSegment⟩ ⟨some "file://segment-2.m4a"⟩,
         Op.resumeRecording,
         Op.stopRecording ⟨true, calmSegment⟩,
         Op.startRecording sampleStart,
         Op.pauseRecording] readyService = true) ∧
    ((run asciiLower (nudgeEngine asciiLower)
        [Op.startRecording sampleStart,
         Op.recordingTick ⟨true, stressedSegment⟩ ⟨some "file://segment-2.m4a"⟩,
         Op.resumeRecording,
         Op.stopRecording ⟨true, calmSegment⟩,
         Op.startRecording sampleStart,
         Op.pauseRecording] readyService).isPaused = true →
      (run asciiLower (nudgeEngine asciiLower)
        [Op.startRecording sampleStart,
         Op.recordingTick ⟨true, stressedSegment⟩ ⟨some "file://segment-2.m4a"⟩,
         Op.resumeRecording,
         Op.stopRecording ⟨true, calmSegment⟩,
         Op.startRecording sampleStart,
         Op.pauseRecording] readyService).isRecording = true) :=
  ⟨⟨by decide, by decide⟩,
    isPaused_only_while_recording asciiLower (nudgeEngine asciiLower) _ readyService
      (by decide) (by decide)⟩

/-- C6 at its failing input: after `startRecording`, one timer tick whose closed
segment qualifies for voice feedback pauses recording inside the rotation, and
the same rotation then enters `startRecordingSegment` with `isPaused = true`
and opens the next segment. -/
theorem rotateRecording_opens_segment_while_paused :
    segmentStarts (run asciiLower (nudgeEngine asciiLower)
        [Op.startRecording sampleStart,
         Op.recordingTick ⟨true, stressedSegment⟩ ⟨some "file://segment-2.m4a"⟩]
        readyService).trace = [false, true] ∧
    (run asciiLower (nudgeEngine asciiLower)
        [Op.startRecording sampleStart,
         Op.recordingTick ⟨true, stressedSegment⟩ ⟨some "file://segment-2.m4a"⟩]
        readyService).currentRecording = some "file://segment-2.m4a" ∧
    (run asciiLower (nudgeEngine asciiLower)
        [Op.startRecording sampleStart,
         Op.recordingTick ⟨true, stressedSegment⟩ ⟨some "file://segment-2.m4a"⟩]
        readyService).isPaused = true := by
  decide

/-- C8 at its failing input: `stopRecording` on a recording session whose last
segment qualifies for voice feedback completes with the timers cleared, no
segment open and `isRecording = false`, but with `isPaused = true`: the flush
pauses after `stopRecording` has reset the flag. -/
theorem stopRecording_flush_leaves_paused :
    (run asciiLower (nudgeEngine asciiLower) [Op.startRecording sampleStart]
        readyService).isRecording = true ∧
    (run asciiLower (nudgeEngine asciiLower)
        [Op.startRecording sampleStart, Op.stopRecording ⟨true, stressedSegment⟩]
        readyService).control =
      { isRecording := false
        isPaused := true
        currentRecording := none
        recordingInterval := none
        backgroundCoachingInterval := none
        lastVoiceFeedback := some 5501
        onVoiceFeedback := .returns
        now := 5501
        voiceTimes := [5500]
        segmentStarts := [false] } := by
  decide

/-- C9. `startRecording` while `isRecording` is true, and `stopRecording` while
`isRecording` is false, return the service state unchanged. -/
theorem state_errors_are_noops (lc : String → String) (eng : NudgeEngine) (s : Service) :
    (s.isRecording = true → ∀ env : StartEnv, startRecording env s = s) ∧
    (s.isRecording = false → ∀ env : StopEnv, stopRecording lc eng env s = s) := by
  constructor
  · intro h env
    simp [startRecording, h]
  · intro h env
    simp [stopRecording, h]

/-- Witness of C9: a second `startRecording` on the started session and a
`stopRecording` on the idle service change nothing. -/
theorem state_errors_are_noops_witness :
    (startRecording sampleStart readyService).isRecording = true ∧
    startRecording ⟨⟨some "file://other.m4a"⟩, 7, 8⟩ (startRecording sampleStart readyService) =
      startRecording sampleStart readyService ∧
    readyService.isRecording = false ∧
    stopRecording asciiLower (nudgeEngine asciiLower) ⟨true, stressedSegment⟩ readyService =
      readyService :=
  ⟨by decide,
    (state_errors_are_noops asciiLower (nudgeEngine asciiLower)
      (startRecording sampleStart readyService)).1 (by decide) _,
    by decide,
    (state_errors_are_noops asciiLower (nudgeEngine asciiLower) readyService).2 (by decide) _⟩

/-- C10. After `clearData()` both buffers are empty: `getTranscript()` and
`getMoments()` return the empty sequence and `getRecordingStatus()` reports
both counts as 0; the coaching history and the recording state are untouched. -/
theorem clearData_empties_buffers (s : Service) :
    (clearData s).transcriptBuffer = [] ∧ (clearData s).momentBuffer = [] ∧
    getTranscript (clearData s) = [] ∧ getMoments (clearData s) = [] ∧
    (getRecordingStatus (clearData s)).transcriptCount = 0 ∧
    (getRecordingStatus (clearData s)).momentCount = 0 ∧
    (clearData s).coachingHistory = s.coachingHistory ∧
    (clearData s).control = s.control := by
  refine ⟨rfl, rfl, rfl, rfl, rfl, rfl, rfl, rfl⟩

/-! ## Voice-feedback cooldown -/

theorem voiceTimes_append (a b : List Event) :
    voiceTimes (a ++ b) = voiceTimes a ++ voiceTimes b := by
  simp [voiceTimes, List.filterMap_append]

theorem voiceTimes_map_coachingGenerated (l : List Nudge) :
    voiceTimes (l.map Event.coachingGenerated) = [] := by
  induction l with
  | nil => rfl
  | cons a l ih =>
    simp only [voiceTimes, List.map_cons, List.filterMap_cons] at ih ⊢
    exact ih

theorem CooldownInv.advance {now : Nat} {cb : Callback} {last : Option Nat} {times : List Nat}
    (h : CooldownInv now cb last times) (d : Nat) : CooldownInv (now + d) cb last times := by
  obtain ⟨h1, h2, h3, h4, h5⟩ := h
  exact ⟨by omega, h2, h3, h4, h5⟩

theorem shouldProvideVoiceFeedback_true_le (s : Service) (l : Nat)
    (hl : s.lastVoiceFeedback = some l) (hpos : 0 < l)
    (h : shouldProvideVoiceFeedback s = true) : l + voiceFeedbackCooldown ≤ s.now := by
  unfold shouldProvideVoiceFeedback at h
  simp only [hl] at h
  by_cases hc : l ≠ 0 ∧ (s.now : Int) - (l : Int) < (voiceFeedbackCooldown : Int)
  · simp [hc] at h
  · have : ¬ ((s.now : Int) - (l : Int) < (voiceFeedbackCooldown : Int)) := by
      intro h'
      exact hc ⟨by omega, h'⟩
    omega

theorem provideVoiceFeedback_cooldownInv (lc : String → String) (env : PipelineEnv)
    (analysis : Analysis) (transcript : String) (s : Service) (h : s.cooldownInv) :
    (provideVoiceFeedback lc env analysis transcript s).cooldownInv := by
  unfold provideVoiceFeedback
  by_cases hs : shouldProvideVoiceFeedback s = true
  · simp only [hs, Bool.not_true, Bool.false_eq_true, if_false]
    cases hr : createGeminiBasedResponse lc analysis transcript with
    | none => exact h
    | some feedbackText =>
      simp only
      cases hsp : env.speech with
      | none => exact CooldownInv.advance h env.speechDelay
      | some audioUri =>
        simp only
        obtain ⟨h1, h2, h3, h4, h5⟩ := h
        cases hcb : s.onVoiceFeedback with
        | absent => exact CooldownInv.advance ⟨h1, h2, h3, h4, h5⟩ env.speechDelay
        | throws => exact absurd hcb h2
        | returns =>
          simp only [Service.cooldownInv, CooldownInv, pauseRecording, voiceTimes,
            List.filterMap_append, List.filterMap_cons, List.filterMap_nil]
          have hold : ∀ t ∈ voiceTimes s.trace, t + voiceFeedbackCooldown ≤ s.now := by
            intro t ht
            obtain ⟨_, l, hl, htl⟩ := h4 t ht
            have := shouldProvideVoiceFeedback_true_le s l hl (h3 l hl) hs
            omega
          refine ⟨by omega, by simp [hcb], ?_, ?_, ?_⟩
          · intro l hl
            simp only [Option.some.injEq] at hl
            omega
          · intro t ht
            simp only [List.mem_append, List.mem_singleton] at ht
            rcases ht with ht | ht
            · have := hold t ht
              have := (h4 t ht).1
              exact ⟨this, _, rfl, by unfold voiceFeedbackCooldown at *; omega⟩
            · exact ⟨by omega, _, rfl, by omega⟩
          · rw [List.pairwise_append]
            refine ⟨h5, List.pairwise_singleton _ _, ?_⟩
            intro a ha b hb
            simp only [List.mem_singleton] at hb
            have := hold a ha
            omega
  · simp only [hs, Bool.not_false, if_true]
    exact h

theorem analyzeTranscriptForIssues_cooldownInv (lc : String → String) (env : PipelineEnv)
    (transcript : String) (s : Service) (h : s.cooldownInv) :
    (analyzeTranscriptForIssues lc env transcript s).cooldownInv := by
  unfold analyzeTranscriptForIssues
  have h1 : ({ s with now := s.now + env.analysisDelay } : Service).cooldownInv :=
    CooldownInv.advance h env.analysisDelay
  simp only
  split
  · exact h1
  · split
    · exact provideVoiceFeedback_cooldownInv lc env env.analysis transcript _ h1
    · exact h1

theorem cooldownInv_of_control (s s' : Service) (hc : s'.control = s.control)
    (h : s.cooldownInv) : s'.cooldownInv := by
  have e1 := congrArg Control.now hc
  have e2 := congrArg Control.onVoiceFeedback hc
  have e3 := congrArg Control.lastVoiceFeedback hc
  have e4 := congrArg Control.voiceTimes hc
  simp only [Service.control] at e1 e2 e3 e4
  unfold Service.cooldownInv at h ⊢
  rw [e1, e2, e3, e4]
  exact h

theorem processRecording_cooldownInv (lc : String → String) (eng : NudgeEngine)
    (env : PipelineEnv) (audioUri : String) (s : Service) (h : s.cooldownInv) :
    (processRecording lc eng env audioUri s).cooldownInv := by
  have hc := processRecording_control lc eng env audioUri s
  have h0 : ({ s with now := s.now + env.transcribeDelay } : Service).cooldownInv :=
    CooldownInv.advance h env.transcribeDelay
  cases ht : env.transcript with
  | none =>
    rw [ht] at hc
    exact cooldownInv_of_control _ _ hc h0
  | some transcript =>
    rw [ht] at hc
    simp only at hc
    by_cases hn : noSpeech (some transcript) = true
    · simp only [hn, if_true] at hc
      exact cooldownInv_of_control _ _ hc h0
    · simp only [hn, if_false, Bool.false_eq_true] at hc
      refine cooldownInv_of_control _ _ hc ?_
      apply analyzeTranscriptForIssues_cooldownInv
      exact CooldownInv.advance h env.transcribeDelay

theorem stopCurrentRecording_cooldownInv (lc : String → String) (eng : NudgeEngine)
    (env : StopEnv) (s : Service) (h : s.cooldownInv) :
    (stopCurrentRecording lc eng env s).cooldownInv := by
  unfold stopCurrentRecording
  split
  · exact h
  · split
    · exact processRecording_cooldownInv lc eng env.pipeline _ _ h
    · exact h

theorem startRecordingSegment_cooldownInv (seg : SegmentEnv) (s : Service)
    (h : s.cooldownInv) : (startRecordingSegment seg s).cooldownInv := by
  unfold startRecordingSegment
  have h' : ({ s with trace := s.trace ++ [Event.segmentStart s.isPaused] } :
      Service).cooldownInv := by
    simp only [Service.cooldownInv, voiceTimes_append]
    simpa [voiceTimes] using h
  split
  · exact h'
  · exact h'

theorem generateBackgroundCoachingTips_cooldownInv (tips : Option (List Nudge)) (s : Service)
    (h : s.cooldownInv) : (generateBackgroundCoachingTips tips s).cooldownInv := by
  unfold generateBackgroundCoachingTips
  split
  · exact h
  · exact h
  · simp only
    split
    · exact h
    · simp only [Service.cooldownInv, voiceTimes_append, voiceTimes_map_coachingGenerated,
        List.append_nil]
      exact h
    · simp only [Service.cooldownInv, voiceTimes_append, voiceTimes_map_coachingGenerated,
        List.append_nil]
      exact h

theorem cooldownInv_step (lc : String → String) (eng : NudgeEngine) (op : Op) (s : Service)
    (h : s.cooldownInv) : (op.apply lc eng s).cooldownInv := by
  cases op with
  | startRecording env =>
    simp only [Op.apply, startRecording]
    split
    · exact h
    · exact startRecordingSegment_cooldownInv env.segment
        { s with isRecording := true, isPaused := false } h
  | stopRecording env =>
    simp only [Op.apply, stopRecording]
    split
    · exact h
    · cases h1 : s.recordingInterval <;> cases h2 : s.backgroundCoachingInterval <;>
        cases h3 : s.currentRecording <;> simp only [h3] <;>
        first
        | exact h
        | exact stopCurrentRecording_cooldownInv lc eng env _ h
  | pauseRecording => exact h
  | resumeRecording => exact h
  | clearData => exact h
  | updateUserProfile p => exact h
  | recordingTick env seg =>
    simp only [Op.apply, recordingTick, rotateRecording]
    split
    · apply startRecordingSegment_cooldownInv
      split
      · exact CooldownInv.advance (stopCurrentRecording_cooldownInv lc eng env s h) 100
      · exact h
    · exact h
  | backgroundCoachingTick tips =>
    simp only [Op.apply, backgroundCoachingTick]
    split
    · exact generateBackgroundCoachingTips_cooldownInv tips s h
    · exact h
  | generateBackgroundCoachingTips tips =>
    exact generateBackgroundCoachingTips_cooldownInv tips s h
  | elapse ms => exact CooldownInv.advance h ms

theorem cooldownInv_run (lc : String → String) (eng : NudgeEngine) (ops : List Op)
    (s : Service) (h : s.cooldownInv) : (run lc eng ops s).cooldownInv := by
  induction ops generalizing s with
  | nil => exact h
  | cons op ops ih => exact ih _ (cooldownInv_step lc eng op s h)

/-- C7. Start from a service that has delivered no voice feedback yet, whose
clock is after the epoch and whose `onVoiceFeedback` callback (if registered)
returns.  After every sequence of operations run one after another (segment
pipelines run inside timer ticks and `stopRecording`), on a wall clock that
does not run backwards: any two voice-feedback events delivered are at least
`voiceFeedbackCooldown` = 30000 ms apart; `shouldProvideVoiceFeedback` returns
false exactly when an emission time is recorded and now minus that time is
below 30000 ms; and every delivered event has its emission time recorded (the
recorded time is not earlier than the event). -/
theorem voiceFeedback_cooldown (lc : String → String) (eng : NudgeEngine) (ops : List Op)
    (s : Service) (hclock : 0 < s.now) (hcb : s.onVoiceFeedback ≠ .throws)
    (hlast : s.lastVoiceFeedback = none) (hfresh : voiceTimes s.trace = []) :
    (voiceTimes (run lc eng ops s).trace).Pairwise (fun a b => a + 30000 ≤ b) ∧
    (shouldProvideVoiceFeedback (run lc eng ops s) = false ↔
      ∃ l, (run lc eng ops s).lastVoiceFeedback = some l ∧
        ((run lc eng ops s).now : Int) - (l : Int) < 30000) ∧
    (∀ t ∈ voiceTimes (run lc eng ops s).trace,
      ∃ l, (run lc eng ops s).lastVoiceFeedback = some l ∧ t ≤ l) := by
  have h0 : s.cooldownInv := by
    unfold Service.cooldownInv CooldownInv
    rw [hlast, hfresh]
    exact ⟨hclock, hcb, by simp, by simp, List.Pairwise.nil⟩
  obtain ⟨-, -, h3, h4, h5⟩ := cooldownInv_run lc eng ops s h0
  refine ⟨h5, ?_, fun t ht => (h4 t ht).2⟩
  unfold shouldProvideVoiceFeedback
  cases hl : (run lc eng ops s).lastVoiceFeedback with
  | none => simp
  | some l =>
    have hpos := h3 l hl
    have hne : l ≠ 0 := by omega
    simp [hne, voiceFeedbackCooldown]

/-- Witness of C7: three concern-qualifying segments, the second closed 5 s
after the first feedback and the third 45 s after it, deliver two events, at
5500 ms and 57701 ms. -/
theorem voiceFeedback_cooldown_witness :
    (0 < readyService.now ∧ readyService.onVoiceFeedback ≠ .throws ∧
      readyService.lastVoiceFeedback = none ∧ voiceTimes readyService.trace = []) ∧
    ((voiceTimes (run asciiLower (nudgeEngine asciiLower)
        [Op.startRecording sampleStart,
         Op.recordingTick ⟨true, stressedSegment⟩ ⟨some "file://segment-2.m4a"⟩,
         Op.resumeRecording,
         Op.elapse 5000,
         Op.recordingTick ⟨true, stressedSegment⟩ ⟨some "file://segment-3.m4a"⟩,
         Op.elapse 40000,
         Op.recordingTick ⟨true, stressedSegment⟩ ⟨some "file://segment-4.m4a"⟩]
        readyService).trace).Pairwise (fun a b => a + 30000 ≤ b)) ∧
    voiceTimes (run asciiLower (nudgeEngine asciiLower)
        [Op.startRecording sampleStart,
         Op.recordingTick ⟨true, stressedSegment⟩ ⟨some "file://segment-2.m4a"⟩,
         Op.resumeRecording,
         Op.elapse 5000,
         Op.recordingTick ⟨true, stressedSegment⟩ ⟨some "file://segment-3.m4a"⟩,
         Op.elapse 40000,
         Op.recordingTick ⟨true, stressedSegment⟩ ⟨some "file://segment-4.m4a"⟩]
        readyService).trace = [5500, 57701] :=
  ⟨⟨by decide, by decide, by decide, by decide⟩,
    (voiceFeedback_cooldown asciiLower (nudgeEngine asciiLower) _ readyService
      (by decide) (by decide) (by decide) (by decide)).1,
    by decide⟩

/-! ## No-speech segments -/

/-- C11. When the transcription result is null, the empty string or white space
only, `processRecording` leaves the transcript buffer, the moment buffer, the
coaching history and the voice-feedback time unchanged and invokes no callback
(the trace is unchanged): only the clock has advanced by the transcription
time. -/
theorem processRecording_no_speech (lc : String → String) (eng : NudgeEngine)
    (env : PipelineEnv) (audioUri : String) (s : Service)
    (h : env.transcript = none ∨ env.transcript = some "" ∨
      ∃ text, env.transcript = some text ∧ ∀ c ∈ text.toList, isJsWhiteSpace c = true) :
    (processRecording lc eng env audioUri s).transcriptBuffer = s.transcriptBuffer ∧
    (processRecording lc eng env audioUri s).momentBuffer = s.momentBuffer ∧
    (processRecording lc eng env audioUri s).coachingHistory = s.coachingHistory ∧
    (processRecording lc eng env audioUri s).lastVoiceFeedback = s.lastVoiceFeedback ∧
    (processRecording lc eng env audioUri s).trace = s.trace ∧
    processRecording lc eng env audioUri s = { s with now := s.now + env.transcribeDelay } := by
  have key : processRecording lc eng env audioUri s =
      { s with now := s.now + env.transcribeDelay } := by
    unfold processRecording
    rcases h with h | h | ⟨text, h, hall⟩
    · simp [h]
    · simp [h, noSpeech]
    · have hn : noSpeech (some text) = true := by
        simp only [noSpeech, List.all_eq_true]
        exact hall
      simp [h, hn]
  rw [key]
  exact ⟨rfl, rfl, rfl, rfl, rfl, rfl⟩

/-- Witness of C11: a segment transcribed as blanks and a line break changes
nothing but the clock. -/
theorem processRecording_no_speech_witness :
    ({ stressedSegment with transcript := some "  \n" } : PipelineEnv).transcript = some "  \n" ∧
    (∀ c ∈ "  \n".toList, isJsWhiteSpace c = true) ∧
    (processRecording asciiLower (nudgeEngine asciiLower)
        { stressedSegment with transcript := some "  \n" } "file://segment-1.m4a"
        readyService).transcriptBuffer = readyService.transcriptBuffer ∧
    (processRecording asciiLower (nudgeEngine asciiLower)
        { stressedSegment with transcript := some "  \n" } "file://segment-1.m4a"
        readyService).trace = readyService.trace ∧
    (processRecording asciiLower (nudgeEngine asciiLower)
        { stressedSegment with transcript := some "  \n" } "file://segment-1.m4a"
        readyService).lastVoiceFeedback = readyService.lastVoiceFeedback :=
  have h := processRecording_no_speech asciiLower (nudgeEngine asciiLower)
    { stressedSegment with transcript := some "  \n" } "file://segment-1.m4a" readyService
    (Or.inr (Or.inr ⟨"  \n", rfl, by decide⟩))
  ⟨rfl, by decide, h.1, h.2.2.2.2.1, h.2.2.2.1⟩

/-! ## Time-based and activity-based coaching, static nudges -/

theorem getD_mod_mem (tips : List String) (hne : tips ≠ []) (random : Nat) :
    tips.getD (random % tips.length) "" ∈ tips := by
  have hpos : 0 < tips.length := List.length_pos.mpr hne
  have hlt : random % tips.length < tips.length := Nat.mod_lt _ hpos
  rw [List.getD_eq_getElem _ _ hlt]
  exact List.getElem_mem hlt

theorem personalizeNudge_fields (nudge : Nudge) (userProfile : Option UserProfile) :
    (personalizeNudge nudge userProfile).category = nudge.category ∧
    (personalizeNudge nudge userProfile).priority = nudge.priority ∧
    (personalizeNudge nudge userProfile).trigger = nudge.trigger ∧
    (personalizeNudge nudge userProfile).timestamp = nudge.timestamp ∧
    (personalizeNudge nudge userProfile).source = nudge.source := by
  unfold personalizeNudge
  cases userProfile <;> simp

/-- C18. For every hour `h` in 0..23 the selected slot is morning iff
`6 <= h < 10`, midday iff `10 <= h < 15`, afternoon iff `15 <= h < 18`, evening
iff `18 <= h < 22` and late_night iff `h >= 22` or `h < 6`; the tip drawn is
an element of the tip list of the selected slot of `TIME_BASED_COACHING`, the
result is that tip personalized (the tip itself when no profile is set), and its
category is `time_based`. -/
theorem generateTimeBasedCoaching_slot (h random : Nat) (userProfile : Option UserProfile)
    (hh : h < 24) :
    (timeSlot h = "morning" ↔ 6 ≤ h ∧ h < 10) ∧
    (timeSlot h = "midday" ↔ 10 ≤ h ∧ h < 15) ∧
    (timeSlot h = "afternoon" ↔ 15 ≤ h ∧ h < 18) ∧
    (timeSlot h = "evening" ↔ 18 ≤ h ∧ h < 22) ∧
    (timeSlot h = "late_night" ↔ h ≥ 22 ∨ h < 6) ∧
    (∃ entry ∈ TIME_BASED_COACHING, entry.1 = timeSlot h ∧ ∃ tip ∈ entry.2.tips,
      generateTimeBasedCoaching h random userProfile =
        personalizeNudge
          { message := tip, category := "time_based", priority := "medium",
            trigger := none, timestamp := none, source := none } userProfile ∧
      (generateTimeBasedCoaching h random none).message = tip) ∧
    (generateTimeBasedCoaching h random userProfile).category = "time_based" := by
  have hslots : (timeSlot h = "morning" ↔ 6 ≤ h ∧ h < 10) ∧
      (timeSlot h = "midday" ↔ 10 ≤ h ∧ h < 15) ∧
      (timeSlot h = "afternoon" ↔ 15 ≤ h ∧ h < 18) ∧
      (timeSlot h = "evening" ↔ 18 ≤ h ∧ h < 22) ∧
      (timeSlot h = "late_night" ↔ h ≥ 22 ∨ h < 6) ∧
      ∃ entry ∈ TIME_BASED_COACHING, entry.1 = timeSlot h ∧
        slotTips (timeSlot h) = entry.2.tips ∧ entry.2.tips ≠ [] := by
    interval_cases h <;> decide
  obtain ⟨h1, h2, h3, h4, h5, entry, hmem, hname, htips, hne⟩ := hslots
  refine ⟨h1, h2, h3, h4, h5, ⟨entry, hmem, hname,
    entry.2.tips.getD (random % entry.2.tips.length) "",
    getD_mod_mem _ hne random, ?_, ?_⟩, ?_⟩
  · unfold generateTimeBasedCoaching
    rw [htips]
  · unfold generateTimeBasedCoaching
    rw [htips]
    rfl
  · unfold generateTimeBasedCoaching
    exact (personalizeNudge_fields _ _).1

/-- Witness of C18: at hour 8 the slot is morning and the tip is one of the four
morning tips. -/
theorem generateTimeBasedCoaching_slot_witness :
    timeSlot 8 = "morning" ∧
    (∃ entry ∈ TIME_BASED_COACHING, entry.1 = timeSlot 8 ∧ ∃ tip ∈ entry.2.tips,
      generateTimeBasedCoaching 8 2 none =
        personalizeNudge
          { message := tip, category := "time_based", priority := "medium",
            trigger := none, timestamp := none, source := none } none ∧
      (generateTimeBasedCoaching 8 2 none).message = tip) ∧
    slotTips (timeSlot 8) =
      ["Good morning! Start your day with 3 deep breaths to set a positive intention.",
       "Morning check-in: How are you feeling today? Take a moment to acknowledge your emotions.",
       "Consider setting one small, achievable goal for today. What would make today feel successful?",
       "Remember to hydrate! Your brain works better when you're well-hydrated."] ∧
    (generateTimeBasedCoaching 8 2 none).message =
      "Consider setting one small, achievable goal for today. What would make today feel successful?" :=
  ⟨((generateTimeBasedCoaching_slot 8 2 none (by decide)).1).mpr (by decide),
    (generateTimeBasedCoaching_slot 8 2 none (by decide)).2.2.2.2.2.1,
    by decide, by decide⟩

theorem activity_tips_nonempty :
    ∀ entry ∈ ACTIVITY_BASED_COACHING, entry.2.2 ≠ [] := by
  decide

/-- C19. With `T` the lower-cased join, by single spaces, of the texts of the
last three buffer entries: `generateActivityBasedCoaching` returns null exactly
when no trigger of any of the four activities (in the order work_focus,
social_interaction, physical_activity, learning) occurs in `T`; otherwise the
result has category `activity_based` and is the personalization of a tip drawn
from the tip list of the first activity that has a trigger in `T` (the tip
itself when no profile is set). -/
theorem generateActivityBasedCoaching_first_match (lc : String → String) (random : Nat)
    (transcript : List TranscriptEntry) (userProfile : Option UserProfile) :
    recentText lc transcript =
      lc (" ".intercalate ((transcript.drop (transcript.length - 3)).map (fun e => e.text))) ∧
    ACTIVITY_BASED_COACHING.map (fun entry => entry.1) =
      ["work_focus", "social_interaction", "physical_activity", "learning"] ∧
    (generateActivityBasedCoaching lc random transcript userProfile = none ↔
      ∀ entry ∈ ACTIVITY_BASED_COACHING, ∀ trigger ∈ entry.2.1,
        includes (recentText lc transcript) trigger = false) ∧
    (∀ result, generateActivityBasedCoaching lc random transcript userProfile = some result →
      result.category = "activity_based" ∧
      ∃ earlier entry later, ACTIVITY_BASED_COACHING = earlier ++ entry :: later ∧
        (∀ e ∈ earlier, ∀ trigger ∈ e.2.1,
          includes (recentText lc transcript) trigger = false) ∧
        (∃ trigger ∈ entry.2.1, includes (recentText lc transcript) trigger = true) ∧
        ∃ tip ∈ entry.2.2,
          result = personalizeNudge
            { message := tip, category := "activity_based", priority := "medium",
              trigger := none, timestamp := none, source := none } userProfile ∧
          (userProfile = none → result.message = tip)) := by
  refine ⟨rfl, by decide, ?_, ?_⟩
  · unfold generateActivityBasedCoaching
    simp only
    cases hfind : ACTIVITY_BASED_COACHING.find?
        (fun entry => entry.2.1.any (fun trigger => includes (recentText lc transcript) trigger)) with
    | none =>
      simp only [true_iff]
      rw [List.find?_eq_none] at hfind
      intro entry hentry trigger htrigger
      have := hfind entry hentry
      simp only [List.any_eq_true, not_exists, not_and, Bool.not_eq_true] at this
      exact this trigger htrigger
    | some entry =>
      simp only [false_iff, reduceCtorEq]
      intro hall
      have hp := List.find?_some hfind
      simp only [List.any_eq_true] at hp
      obtain ⟨trigger, htrigger, hinc⟩ := hp
      have hmem := List.mem_of_find?_eq_some hfind
      rw [hall entry hmem trigger htrigger] at hinc
      exact absurd hinc (by decide)
  · intro result hres
    unfold generateActivityBasedCoaching at hres
    simp only at hres
    cases hfind : ACTIVITY_BASED_COACHING.find?
        (fun entry => entry.2.1.any (fun trigger => includes (recentText lc transcript) trigger)) with
    | none => simp [hfind] at hres
    | some entry =>
      simp only [hfind, Option.some.injEq] at hres
      have hmem := List.mem_of_find?_eq_some hfind
      rw [List.find?_eq_some] at hfind
      obtain ⟨hp, earlier, later, hsplit, hearlier⟩ := hfind
      simp only [List.any_eq_true] at hp
      refine ⟨?_, earlier, entry, later, hsplit, ?_, hp, ?_⟩
      · rw [← hres]; exact (personalizeNudge_fields _ _).1
      · intro e he trigger htrigger
        have := hearlier e he
        simp only [Bool.not_eq_true', List.any_eq_false, Bool.not_eq_true] at this
        exact this trigger htrigger
      · refine ⟨entry.2.2.getD (random % entry.2.2.length) "",
          getD_mod_mem _ (activity_tips_nonempty entry hmem) random, hres.symm, ?_⟩
        intro hnone
        rw [← hres, hnone]
        rfl

theorem provideVoiceFeedback_data (lc : String → String) (env : PipelineEnv)
    (analysis : Analysis) (transcript : String) (s : Service) :
    (provideVoiceFeedback lc env analysis transcript s).userProfile = s.userProfile ∧
    (provideVoiceFeedback lc env analysis transcript s).onNudgeTriggered = s.onNudgeTriggered ∧
    (provideVoiceFeedback lc env analysis transcript s).onCoachingGenerated =
      s.onCoachingGenerated ∧
    (provideVoiceFeedback lc env analysis transcript s).onMomentDetected = s.onMomentDetected ∧
    (provideVoiceFeedback lc env analysis transcript s).onTranscriptUpdate =
      s.onTranscriptUpdate ∧
    (provideVoiceFeedback lc env analysis transcript s).transcriptBuffer = s.transcriptBuffer ∧
    (provideVoiceFeedback lc env analysis transcript s).momentBuffer = s.momentBuffer ∧
    (provideVoiceFeedback lc env analysis transcript s).coachingHistory = s.coachingHistory ∧
    nudgeEvents (provideVoiceFeedback lc env analysis transcript s).trace =
      nudgeEvents s.trace := by
  unfold provideVoiceFeedback pauseRecording resumeRecording
  simp only
  repeat' split
  all_goals simp [nudgeEvents, List.filterMap_append]

theorem analyzeTranscriptForIssues_data (lc : String → String) (env : PipelineEnv)
    (transcript : String) (s : Service) :
    (analyzeTranscriptForIssues lc env transcript s).userProfile = s.userProfile ∧
    (analyzeTranscriptForIssues lc env transcript s).onNudgeTriggered = s.onNudgeTriggered ∧
    (analyzeTranscriptForIssues lc env transcript s).onCoachingGenerated =
      s.onCoachingGenerated ∧
    (analyzeTranscriptForIssues lc env transcript s).onMomentDetected = s.onMomentDetected ∧
    (analyzeTranscriptForIssues lc env transcript s).onTranscriptUpdate =
      s.onTranscriptUpdate ∧
    (analyzeTranscriptForIssues lc env transcript s).transcriptBuffer = s.transcriptBuffer ∧
    (analyzeTranscriptForIssues lc env transcript s).momentBuffer = s.momentBuffer ∧
    (analyzeTranscriptForIssues lc env transcript s).coachingHistory = s.coachingHistory ∧
    nudgeEvents (analyzeTranscriptForIssues lc env transcript s).trace =
      nudgeEvents s.trace := by
  unfold analyzeTranscriptForIssues
  simp only
  split
  · simp
  · split
    · exact provideVoiceFeedback_data lc env env.analysis transcript
        { s with now := s.now + env.analysisDelay }
    · simp

theorem nudgeEvents_append (a b : List Event) :
    nudgeEvents (a ++ b) = nudgeEvents a ++ nudgeEvents b := by
  simp [nudgeEvents, List.filterMap_append]

theorem activityCoachingStep_nudgeEvents (eng : NudgeEngine) (env : PipelineEnv)
    (s s' : Service)
    (h : activityCoachingStep eng env s = .ok s' ∨ activityCoachingStep eng env s = .error s') :
    nudgeEvents s'.trace = nudgeEvents s.trace := by
  unfold activityCoachingStep at h
  cases hn : eng.generateActivityBasedCoaching env.random s.transcriptBuffer s.userProfile with
  | none =>
    simp only [hn] at h
    rcases h with h | h <;> cases h
    rfl
  | some tip =>
    simp only [hn] at h
    cases hcb : s.onCoachingGenerated <;> simp only [hcb] at h <;> rcases h with h | h <;>
      simp at h <;> subst h <;>
      simp [nudgeEvents, List.filterMap_append]

theorem detectSignificantMoments_nudgeEvents (lc : String → String) (transcript : String)
    (s : Service) :
    nudgeEvents (detectSignificantMoments lc transcript s).trace = nudgeEvents s.trace := by
  unfold detectSignificantMoments
  simp only
  split
  · cases hcb : s.onMomentDetected <;> simp [hcb, nudgeEvents, List.filterMap_append]
  · rfl

theorem transcriptUpdateStep_nudgeEvents (s : Service) :
    nudgeEvents (transcriptUpdateStep s).trace = nudgeEvents s.trace := by
  unfold transcriptUpdateStep
  cases hcb : s.onTranscriptUpdate <;> simp [hcb, nudgeEvents, List.filterMap_append]

theorem static_triggers_nodup : (STATIC_NUDGES.map (fun entry => entry.1)).Nodup := by
  decide

/-- C20. `checkStaticNudges` returns, in table order, one nudge for each entry
of `STATIC_NUDGES` whose trigger phrase (the phrases are pairwise distinct)
occurs in the lower-cased text; each carries its trigger phrase and the
entry's category and priority, and its message is the entry's message
personalized.  In the segment pipeline of a segment with speech, exactly the
first element of that list is passed to `onNudgeTriggered` when the callback is
registered, and nothing is passed when the list is empty. -/
theorem checkStaticNudges_table_order (lc : String → String) (now : Nat) (text : String)
    (userProfile : Option UserProfile) :
    (checkStaticNudges lc now text userProfile).map
        (fun n => (n.trigger, n.category, n.priority, n.message)) =
      (STATIC_NUDGES.filter (fun entry => includes (lc text) entry.1)).map
        (fun entry => (some entry.1, entry.2.category, entry.2.priority,
          (personalizeNudge entry.2 userProfile).message)) ∧
    (STATIC_NUDGES.map (fun entry => entry.1)).Nodup ∧
    (∀ (env : PipelineEnv) (audioUri : String) (s : Service),
      env.transcript = some text → noSpeech (some text) = false →
      s.userProfile = userProfile →
      ∃ time,
        nudgeEvents (processRecording lc (nudgeEngine lc) env audioUri s).trace =
          nudgeEvents s.trace ++
            (if s.onNudgeTriggered = .absent then []
             else (checkStaticNudges lc time text userProfile).head?.toList)) := by
  refine ⟨?_, static_triggers_nodup, ?_⟩
  · unfold checkStaticNudges
    simp only [List.map_map]
    apply List.map_congr_left
    intro entry _
    simp [Function.comp, (personalizeNudge_fields entry.2 userProfile).1,
      (personalizeNudge_fields entry.2 userProfile).2.1]
  · intro env audioUri s ht hn hprofile
    obtain ⟨d1, d2, -, -, -, -, -, -, d9⟩ := analyzeTranscriptForIssues_data lc env text
      { s with
        now := s.now + env.transcribeDelay
        transcriptBuffer := s.transcriptBuffer ++
          [{ timestamp := s.now + env.transcribeDelay, text := text,
             audioUri := audioUri, duration := recordingDuration / 1000 }] }
    simp only at d1 d2 d9
    refine ⟨(analyzeTranscriptForIssues lc env text
      { s with
        now := s.now + env.transcribeDelay
        transcriptBuffer := s.transcriptBuffer ++
          [{ timestamp := s.now + env.transcribeDelay, text := text,
             audioUri := audioUri, duration := recordingDuration / 1000 }] }).now, ?_⟩
    unfold processRecording
    simp only [ht, hn, Bool.false_eq_true, if_false]
    generalize analyzeTranscriptForIssues lc env text
      { s with
        now := s.now + env.transcribeDelay
        transcriptBuffer := s.transcriptBuffer ++
          [{ timestamp := s.now + env.transcribeDelay, text := text,
             audioUri := audioUri, duration := recordingDuration / 1000 }] } = s2 at d1 d2 d9 ⊢
    rw [← d9, ← d2, ← hprofile, ← d1]
    have hrest : ∀ (eng : NudgeEngine) (s3 : Service), nudgeEvents
        (match activityCoachingStep eng env s3 with
          | .error s4 => s4
          | .ok s4 => transcriptUpdateStep (detectSignificantMoments lc text s4)).trace =
        nudgeEvents s3.trace := by
      intro eng s3
      cases h4 : activityCoachingStep eng env s3 with
      | error s4 => exact activityCoachingStep_nudgeEvents _ env s3 s4 (Or.inr h4)
      | ok s4 =>
        simp only
        rw [transcriptUpdateStep_nudgeEvents, detectSignificantMoments_nudgeEvents]
        exact activityCoachingStep_nudgeEvents _ env s3 s4 (Or.inl h4)
    unfold staticNudgeStep
    simp only [nudgeEngine]
    cases hl : checkStaticNudges lc s2.now text s2.userProfile with
    | nil =>
      simp only [List.head?_nil, Option.toList_none, ite_self, List.append_nil]
      exact hrest _ s2
    | cons first rest =>
      simp only [List.head?_cons, Option.toList_some]
      cases hcb : s2.onNudgeTriggered with
      | absent =>
        simp only [if_true, List.append_nil]
        exact hrest _ s2
      | returns =>
        simp only [reduceCtorEq, if_false]
        refine (hrest _ _).trans ?_
        simp [nudgeEvents_append, nudgeEvents]
      | throws =>
        simp only [reduceCtorEq, if_false]
        simp [nudgeEvents_append, nudgeEvents]

/-! ## The concern score beyond the threshold of C1 -/

set_option maxRecDepth 100000 in
theorem bonus_table :
    ∀ K, K ≤ 20 → ∀ I, I ≤ 10 → ∀ N : Bool,
      concernScore K I N < f64Add (concernScore K I N) (f64OfTenths 5) ∧
      f64OfTenths 5 ≤ f64Add (concernScore K I N) (f64OfTenths 5) ∧
      (2 ≤ K → f64OfTenths 5 ≤ concernScore K I N) := by
  decide

theorem concernLevel_eq (lc : String → String) (insights : String)
    (mood : Option MoodAnalysis) (transcript : String) (buffer : List TranscriptEntry) :
    concernLevel lc insights mood transcript buffer =
      (if 3 ≤ buffer.length ∧ 2 ≤ (lastThree buffer).countP (hasConcerningKeyword lc) then
        f64Add (concernScore
          (concerningKeywords.countP
            (fun k => includes (lc transcript) k || includes (lc insights) k))
          (intensityKeywords.countP (fun k => includes (lc transcript) k))
          (isNegative mood)) (f64OfTenths 5)
      else concernScore
          (concerningKeywords.countP
            (fun k => includes (lc transcript) k || includes (lc insights) k))
          (intensityKeywords.countP (fun k => includes (lc transcript) k))
          (isNegative mood)) := by
  have hneg : negativeCount lc buffer = (lastThree buffer).countP (hasConcerningKeyword lc) := by
    unfold negativeCount hasConcerningKeyword
    rw [← List.countP_eq_length_filter]
    congr 1
    funext t
    rw [Bool.eq_iff_iff]
    simp [List.any_eq_true]
  simp only [concernLevel, accumulate_eq_addTimes, ← List.countP_eq_length_filter, hneg]
  generalize concerningKeywords.countP
    (fun k => includes (lc transcript) k || includes (lc insights) k) = K
  generalize intensityKeywords.countP (fun k => includes (lc transcript) k) = I
  have h3iff : buffer.length > 2 ↔ 3 ≤ buffer.length := Iff.rfl
  cases mood with
  | none =>
    by_cases h3 : 3 ≤ buffer.length <;>
      by_cases h2 : (lastThree buffer).countP (hasConcerningKeyword lc) ≥ 2 <;>
      simp [concernScore, isNegative, h3iff, h3, h2]
  | some m =>
    by_cases hs : m.sentiment = "negative" <;>
      by_cases h3 : 3 ≤ buffer.length <;>
      by_cases h2 : (lastThree buffer).countP (hasConcerningKeyword lc) ≥ 2 <;>
      simp [concernScore, isNegative, h3iff, h3, h2, hs]

/-- C13 as stated fails in both directions.  With one of the two preceding
entries naming a keyword and the current text "I feel lonely", the code adds the
bonus (0.3 + 0.5, and the pipeline gives voice feedback) because it counts the
current entry; with two of the three preceding entries naming a keyword and a
calm current text, it adds nothing because the current entry has pushed the
oldest one out of the last three. -/
theorem repeated_negative_bonus_counterexample :
    ((lastThree calmThenSad).countP (hasConcerningKeyword asciiLower) = 1 ∧
      concernLevel asciiLower "" none "I feel lonely"
          (calmThenSad ++ [⟨300, "I feel lonely", "file://c.m4a", 10⟩]) =
        f64Add (concernLevel asciiLower "" none "I feel lonely" []) (f64OfTenths 5) ∧
      concernLevel asciiLower "" none "I feel lonely" [] = f64OfTenths 3 ∧
      concernLevel asciiLower "" none "I feel lonely"
          (calmThenSad ++ [⟨300, "I feel lonely", "file://c.m4a", 10⟩]) = f64OfTenths 8 ∧
      voiceTimes (processRecording asciiLower (nudgeEngine asciiLower)
          { stressedSegment with transcript := some "I feel lonely" } "file://c.m4a"
          { readyService with transcriptBuffer := calmThenSad }).trace = [5500]) ∧
    ((lastThree twoSadThenCalm).countP (hasConcerningKeyword asciiLower) = 2 ∧
      concernLevel asciiLower "" none "Hello there"
          (twoSadThenCalm ++ [⟨400, "Hello there", "file://d.m4a", 10⟩]) =
        concernLevel asciiLower "" none "Hello there" [] ∧
      concernLevel asciiLower "" none "Hello there" [] = 0) := by
  decide

/-- C13, amended.  The bonus is added exactly when the buffer with the current
entry already appended holds at least three entries and at least two of its
last three entries, the current entry included, contain a concerning keyword;
adding it raises the score. -/
theorem repeated_negative_bonus (lc : String → String) (insights : String)
    (mood : Option MoodAnalysis) (transcript : String) (previous : List TranscriptEntry)
    (current : TranscriptEntry) :
    concernLevel lc insights mood transcript (previous ++ [current]) =
      (if 2 ≤ previous.length ∧
          2 ≤ (lastThree (previous ++ [current])).countP (hasConcerningKeyword lc) then
        f64Add (concernLevel lc insights mood transcript []) (f64OfTenths 5)
      else concernLevel lc insights mood transcript []) ∧
    concernLevel lc insights mood transcript [] <
      f64Add (concernLevel lc insights mood transcript []) (f64OfTenths 5) ∧
    current ∈ lastThree (previous ++ [current]) ∧
    (lastThree (previous ++ [current])).length ≤ 3 := by
  have hK : concerningKeywords.countP
      (fun k => includes (lc transcript) k || includes (lc insights) k) ≤ 20 :=
    List.countP_le_length _
  have hI : intensityKeywords.countP (fun k => includes (lc transcript) k) ≤ 10 :=
    List.countP_le_length _
  have hempty : concernLevel lc insights mood transcript [] =
      concernScore
        (concerningKeywords.countP
          (fun k => includes (lc transcript) k || includes (lc insights) k))
        (intensityKeywords.countP (fun k => includes (lc transcript) k))
        (isNegative mood) := by
    rw [concernLevel_eq]
    simp
  have hfull := concernLevel_eq lc insights mood transcript (previous ++ [current])
  rw [← hempty] at hfull
  have hlen : 3 ≤ (previous ++ [current]).length ↔ 2 ≤ previous.length := by
    simp only [List.length_append, List.length_singleton]
    omega
  refine ⟨?_, ?_, ?_, ?_⟩
  · rw [hfull]
    simp only [hlen]
  · rw [hempty]
    exact (bonus_table _ hK _ hI _).1
  · unfold lastThree
    rw [List.mem_iff_getElem?]
    refine ⟨(previous ++ [current]).length - 1 - ((previous ++ [current]).length - 3), ?_⟩
    rw [List.getElem?_drop]
    have : (previous ++ [current]).length - 3 +
        ((previous ++ [current]).length - 1 - ((previous ++ [current]).length - 3)) =
        previous.length := by
      simp only [List.length_append, List.length_singleton]
      omega
    rw [this]
    simp
  · unfold lastThree
    simp only [List.length_drop]
    omega

theorem two_le_countP_of_mem (l : List String) (p : String → Bool) (a b : String)
    (ha : a ∈ l) (hb : b ∈ l) (hab : a ≠ b) (pa : p a = true) (pb : p b = true) :
    2 ≤ l.countP p := by
  rw [List.countP_eq_length_filter]
  have ha' : a ∈ l.filter p := List.mem_filter.mpr ⟨ha, pa⟩
  have hb' : b ∈ l.filter p := List.mem_filter.mpr ⟨hb, pb⟩
  generalize l.filter p = m at ha' hb'
  match m, ha', hb' with
  | [], ha', _ => cases ha'
  | [x], ha', hb' =>
    simp only [List.mem_singleton] at ha' hb'
    exact absurd (ha'.trans hb'.symm) hab
  | _ :: _ :: _, _, _ => simp

/-- C14. When the lower-cased transcript contains two distinct concerning
keywords, `detectConcerningPatterns` returns true for every analysis with string
insights (any sentiment) and every buffer; `analyzeTranscriptForIssues` then
runs `provideVoiceFeedback` whenever the cooldown allows it. -/
theorem two_keywords_recommend_feedback (lc : String → String) (analysis : Analysis)
    (insights transcript : String) (buffer : List TranscriptEntry) (k1 k2 : String)
    (hins : analysis.insights = .text insights)
    (h1 : k1 ∈ concerningKeywords) (h2 : k2 ∈ concerningKeywords) (hne : k1 ≠ k2)
    (hk1 : includes (lc transcript) k1 = true) (hk2 : includes (lc transcript) k2 = true) :
    detectConcerningPatterns lc analysis transcript buffer = some true ∧
    (∀ (env : PipelineEnv) (s : Service), env.analysis = analysis →
      shouldProvideVoiceFeedback { s with now := s.now + env.analysisDelay } = true →
      analyzeTranscriptForIssues lc env transcript s =
        provideVoiceFeedback lc env analysis transcript
          { s with now := s.now + env.analysisDelay }) := by
  have hK : concerningKeywords.countP
      (fun k => includes (lc transcript) k || includes (lc insights) k) ≤ 20 :=
    List.countP_le_length _
  have hI : intensityKeywords.countP (fun k => includes (lc transcript) k) ≤ 10 :=
    List.countP_le_length _
  have hK2 : 2 ≤ concerningKeywords.countP
      (fun k => includes (lc transcript) k || includes (lc insights) k) :=
    two_le_countP_of_mem _ _ k1 k2 h1 h2 hne (by simp [hk1]) (by simp [hk2])
  have hdetect : ∀ buf, detectConcerningPatterns lc analysis transcript buf = some true := by
    intro buf
    unfold detectConcerningPatterns
    rw [hins]
    simp only [Option.some.injEq, decide_eq_true_eq, ge_iff_le]
    rw [concernLevel_eq]
    obtain ⟨-, hb2, hb3⟩ := bonus_table _ hK _ hI (isNegative analysis.moodAnalysis)
    split
    · exact hb2
    · exact hb3 hK2
  refine ⟨hdetect buffer, ?_⟩
  intro env s henv hshould
  unfold analyzeTranscriptForIssues
  simp only [henv, hdetect, hshould, Bool.and_self, if_true]

/-- Witness of C14: the text "I'm so stressed and overwhelmed, I feel like giving
up" names `stressed` and `overwhelmed`; the detector returns true and the
pipeline of that segment, with no earlier feedback, delivers one voice-feedback
event. -/
theorem two_keywords_recommend_feedback_witness :
    detectConcerningPatterns asciiLower demoAnalysis
        "I'm so stressed and overwhelmed, I feel like giving up" [] = some true ∧
    concernLevel asciiLower "You're showing great self-awareness in recognizing your feelings."
        demoAnalysis.moodAnalysis "I'm so stressed and overwhelmed, I feel like giving up" []
      ≥ f64OfTenths 5 ∧
    voiceTimes (processRecording asciiLower (nudgeEngine asciiLower) stressedSegment
        "file://segment-1.m4a" readyService).trace = [5500] :=
  ⟨(two_keywords_recommend_feedback asciiLower demoAnalysis
      "You're showing great self-awareness in recognizing your feelings."
      "I'm so stressed and overwhelmed, I feel like giving up" [] "stressed" "overwhelmed"
      rfl (by decide) (by decide) (by decide) (by decide) (by decide)).1,
    by decide, by decide⟩

/-- C15 as stated fails: for the text "I'm so stressed and overwhelmed, I feel
like giving up" the concern level is the binary64 value 0.6, not 0.7; no
intensity keyword occurs in it (the list has "so much", not "so"). -/
theorem concernLevel_example_counterexample :
    concernLevel asciiLower "You're showing great self-awareness in recognizing your feelings."
        demoAnalysis.moodAnalysis "I'm so stressed and overwhelmed, I feel like giving up" []
      = f64OfTenths 6 ∧
    f64OfTenths 6 ≠ f64OfTenths 7 ∧
    intensityKeywords.countP (fun k => includes
      (asciiLower "I'm so stressed and overwhelmed, I feel like giving up") k) = 0 ∧
    "so" ∉ intensityKeywords ∧ "so much" ∈ intensityKeywords := by
  decide

/-- C15, amended.  For the text "I'm so stressed and overwhelmed, I feel like
giving up", insights that contain no concerning keyword, a sentiment other than
negative and fewer than three buffered entries, the concern level is exactly the
binary64 value 0.6: `stressed` and `overwhelmed` add 0.3 each and no intensity
keyword matches. -/
theorem concernLevel_example (insights : String) (mood : Option MoodAnalysis)
    (buffer : List TranscriptEntry)
    (hins : ∀ k ∈ concerningKeywords, includes (asciiLower insights) k = false)
    (hmood : mood.map (fun m => m.sentiment) ≠ some "negative")
    (hbuf : buffer.length < 3) :
    concernLevel asciiLower insights mood
        "I'm so stressed and overwhelmed, I feel like giving up" buffer = f64OfTenths 6 ∧
    f64OfTenths 6 = f64Add (f64Add 0 (f64OfTenths 3)) (f64OfTenths 3) := by
  have hK : concerningKeywords.countP
      (fun k => includes (asciiLower "I'm so stressed and overwhelmed, I feel like giving up") k
        || includes (asciiLower insights) k) = 2 := by
    have hcongr : concerningKeywords.countP
        (fun k => includes (asciiLower "I'm so stressed and overwhelmed, I feel like giving up") k
          || includes (asciiLower insights) k) =
        concerningKeywords.countP
          (fun k => includes
            (asciiLower "I'm so stressed and overwhelmed, I feel like giving up") k) := by
      apply List.countP_congr
      intro k hk
      simp [hins k hk]
    rw [hcongr]
    decide
  have hI : intensityKeywords.countP
      (fun k => includes (asciiLower "I'm so stressed and overwhelmed, I feel like giving up") k)
      = 0 := by decide
  have hneg : isNegative mood = false := by
    unfold isNegative
    simpa using hmood
  refine ⟨?_, by decide⟩
  rw [concernLevel_eq, hK, hI, hneg]
  have h3 : ¬ 3 ≤ buffer.length := by omega
  simp only [h3, false_and, if_false]
  decide

/-- Witness of the amended C15: the demo analysis (insights without a concerning
keyword, sentiment `reflective`) and an empty buffer give 0.6. -/
theorem concernLevel_example_witness :
    (∀ k ∈ concerningKeywords, includes (asciiLower
      "You're showing great self-awareness in recognizing your feelings.") k = false) ∧
    concernLevel asciiLower "You're showing great self-awareness in recognizing your feelings."
        demoAnalysis.moodAnalysis "I'm so stressed and overwhelmed, I feel like giving up" []
      = f64OfTenths 6 :=
  ⟨by decide,
    (concernLevel_example "You're showing great self-awareness in recognizing your feelings."
      demoAnalysis.moodAnalysis [] (by decide) (by decide) (by decide)).1⟩

/-! ## Failing inputs of the pipeline and of the throttle -/

/-- C12 at its failing input: with an `onNudgeTriggered` handler that raises, the
pipeline of a segment that has a static-nudge trigger ends in the `catch` of
`processRecording` right after the handler was invoked: no activity coaching,
no Moment and no `onTranscriptUpdate`, although the same segment with a
returning handler yields all three.  The steps with a `try`/`catch` of their
own do isolate their errors: insights that are not a string (a TypeError in
`detectConcerningPatterns`) and a raising `onMomentDetected` leave the later
steps running. -/
theorem processRecording_aborts_after_raising_nudge_callback :
    ((processRecording asciiLower (nudgeEngine asciiLower) insightSegment "file://c.m4a"
        { allCallbacksService with onNudgeTriggered := .throws }).momentBuffer = [] ∧
      (processRecording asciiLower (nudgeEngine asciiLower) insightSegment "file://c.m4a"
        { allCallbacksService with onNudgeTriggered := .throws }).coachingHistory = [] ∧
      (processRecording asciiLower (nudgeEngine asciiLower) insightSegment "file://c.m4a"
        { allCallbacksService with onNudgeTriggered := .throws }).trace.length = 1 ∧
      nudgeEvents (processRecording asciiLower (nudgeEngine asciiLower) insightSegment
        "file://c.m4a" { allCallbacksService with onNudgeTriggered := .throws }).trace
        = [{ message := "Take 3 deep breaths. Inhale for 4, hold for 4, exhale for 6.",
             category := "stress", priority := "high", trigger := some "stressed",
             timestamp := some 3500, source := none }]) ∧
    ((processRecording asciiLower (nudgeEngine asciiLower) insightSegment "file://c.m4a"
        allCallbacksService).momentBuffer.map (fun m => m.type) = ["insight"] ∧
      (processRecording asciiLower (nudgeEngine asciiLower) insightSegment "file://c.m4a"
        allCallbacksService).coachingHistory.length = 1 ∧
      (processRecording asciiLower (nudgeEngine asciiLower) insightSegment "file://c.m4a"
        allCallbacksService).trace.getLast? =
        some (Event.transcriptUpdate
          [{ timestamp := 2500,
             text := "I realized a breakthrough, but I am stressed about work",
             audioUri := "file://c.m4a", duration := 10 }])) ∧
    ((processRecording asciiLower (nudgeEngine asciiLower)
        { insightSegment with analysis := { demoAnalysis with insights := .truthyOther } }
        "file://c.m4a" allCallbacksService) =
      processRecording asciiLower (nudgeEngine asciiLower) insightSegment "file://c.m4a"
        allCallbacksService ∧
      (processRecording asciiLower (nudgeEngine asciiLower) insightSegment "file://c.m4a"
        { allCallbacksService with onMomentDetected := .throws }).trace.getLast? =
        some (Event.transcriptUpdate
          [{ timestamp := 2500,
             text := "I realized a breakthrough, but I am stressed about work",
             audioUri := "file://c.m4a", duration := 10 }])) := by
  decide

theorem getNudgeFrequency_keys (userProfile : Option UserProfile) (recentNudges : List Nudge) :
    (getNudgeFrequency userProfile recentNudges).map (fun kv => kv.1) = tableCategories := by
  unfold getNudgeFrequency
  cases challengesInclude userProfile "Distraction & Procrastination" <;>
    cases challengesInclude userProfile "Overthinking & Anxiety" <;>
    by_cases h : recentNudges.length > 8 <;>
    simp [h, baseFrequency, increment, tableCategories]

theorem lookup_eq_none_of_not_mem_keys (obj : List (String × Nat)) (key : String)
    (h : key ∉ obj.map (fun kv => kv.1)) : obj.lookup key = none := by
  induction obj with
  | nil => rfl
  | cons kv rest ih =>
    simp only [List.map_cons, List.mem_cons, not_or] at h
    obtain ⟨k, v⟩ := kv
    have hne : (key == k) = false := by simpa using h.1
    simp only [List.lookup, hne]
    exact ih h.2

theorem shouldShowNudge_unlisted (now : Nat) (nudge : Nudge) (recentNudges : List Nudge)
    (userProfile : Option UserProfile) (h : nudge.category ∉ tableCategories)
    (hproto : nudge.category ∉ objectPrototypeKeys) :
    shouldShowNudge now nudge recentNudges userProfile = true := by
  unfold shouldShowNudge getProperty
  have hl : (getNudgeFrequency userProfile recentNudges).lookup nudge.category = none := by
    apply lookup_eq_none_of_not_mem_keys
    rw [getNudgeFrequency_keys]
    exact h
  have hc : objectPrototypeKeys.contains nudge.category = false := by
    simpa using hproto
  simp only [hl, hc]
  rfl

/-- C16 at its failing input: the category `constructor` is not one of the nine
table categories, yet `frequency["constructor"]` is the function inherited from
`Object.prototype`, which is truthy and does not compare as a number:
`shouldShowNudge` returns false, also with an empty history.  Categories such as
`productivity` are allowed. -/
theorem shouldShowNudge_inherited_key :
    "constructor" ∉ tableCategories ∧
    shouldShowNudge 100000000
      { message := "m", category := "constructor", priority := "high", trigger := none,
        timestamp := none, source := none } [] none = false ∧
    shouldShowNudge 100000000
      { message := "m", category := "productivity", priority := "high", trigger := none,
        timestamp := none, source := none } [] none = true := by
  decide

/-- C17 at its failing input: of the ten nudges of the history only one was shown
in the last 24 hours (now = 1000000000 ms), yet `getNudgeFrequency` counts all
ten, lowers every cap, and a second `stress` nudge is refused; with the same
single recent nudge alone in the history it is shown. -/
theorem getNudgeFrequency_counts_whole_history :
    longHistory.length = 10 ∧
    longHistory.countP (fun n => inLast24Hours 1000000000 n.timestamp) = 1 ∧
    getNudgeFrequency none longHistory =
      [("focus", 2), ("stress", 1), ("energy", 1), ("confidence", 1), ("relationships", 1),
       ("ai_generated", 1), ("time_based", 3), ("activity_based", 1), ("pattern_analysis", 1)] ∧
    shouldShowNudge 1000000000
      { message := "m", category := "stress", priority := "high", trigger := none,
        timestamp := none, source := none } longHistory none = false ∧
    shouldShowNudge 1000000000
      { message := "m", category := "stress", priority := "high", trigger := none,
        timestamp := none, source := none }
      (longHistory.filter (fun n => inLast24Hours 1000000000 n.timestamp)) none = true := by
  decide

/-! ## Monotonicity and floor of the throttle -/

theorem lookup_map_value (obj : List (String × Nat)) (g : Nat → Nat) (key : String) :
    (obj.map (fun kv => (kv.1, g kv.2))).lookup key = (obj.lookup key).map g := by
  induction obj with
  | nil => rfl
  | cons kv rest ih =>
    obtain ⟨k, v⟩ := kv
    simp only [List.map_cons, List.lookup]
    cases hk : (key == k) with
    | true => simp
    | false => simpa using ih

/-- The cap table of `getNudgeFrequency` for a history of any length, in terms of
the table for the empty history: every cap is lowered by 1, not below 1, when
the history has more than 8 entries. -/
theorem getNudgeFrequency_eq (userProfile : Option UserProfile) (recentNudges : List Nudge) :
    getNudgeFrequency userProfile recentNudges =
      if recentNudges.length > 8 then
        (getNudgeFrequency userProfile []).map (fun kv => (kv.1, max 1 (kv.2 - 1)))
      else getNudgeFrequency userProfile [] := by
  simp [getNudgeFrequency]

theorem getNudgeFrequency_caps_pos (userProfile : Option UserProfile)
    (recentNudges : List Nudge) :
    ∀ kv ∈ getNudgeFrequency userProfile recentNudges, 1 ≤ kv.2 := by
  unfold getNudgeFrequency
  cases challengesInclude userProfile "Distraction & Procrastination" <;>
    cases challengesInclude userProfile "Overthinking & Anxiety" <;>
    by_cases h : recentNudges.length > 8 <;>
    simp [h, baseFrequency, increment]

theorem lookup_mem {obj : List (String × Nat)} {key : String} {v : Nat}
    (h : obj.lookup key = some v) : (key, v) ∈ obj := by
  induction obj with
  | nil => simp [List.lookup] at h
  | cons kv rest ih =>
    obtain ⟨k, w⟩ := kv
    simp only [List.lookup] at h
    cases hk : (key == k) with
    | true =>
      rw [hk] at h
      have hkk : key = k := by simpa using hk
      simp only [Option.some.injEq] at h
      subst hkk; subst h
      exact List.mem_cons_self _ _
    | false =>
      rw [hk] at h
      exact List.mem_cons_of_mem _ (ih h)

/-- The cap `shouldShowNudge` reads for a category, for a history of any length,
from the cap for the empty history. -/
theorem getNudgeFrequency_lookup (userProfile : Option UserProfile)
    (recentNudges : List Nudge) (category : String) :
    (getNudgeFrequency userProfile recentNudges).lookup category =
      ((getNudgeFrequency userProfile []).lookup category).map
        (fun cap => if recentNudges.length > 8 then max 1 (cap - 1) else cap) := by
  rw [getNudgeFrequency_eq]
  by_cases h : recentNudges.length > 8
  · simp only [h, if_true]
    exact lookup_map_value _ (fun cap => max 1 (cap - 1)) _
  · simp only [h, if_false]
    cases (getNudgeFrequency userProfile []).lookup category <;> rfl

/-- C28. `shouldShowNudge` is antitone in the history: when a candidate is
refused with history `H`, it is refused with `H` followed by any further
nudges, for every candidate, profile and clock reading, also when the longer
history crosses the more-than-8 cap reduction. -/
theorem shouldShowNudge_antitone (now : Nat) (nudge : Nudge) (H extra : List Nudge)
    (userProfile : Option UserProfile)
    (h : shouldShowNudge now nudge H userProfile = false) :
    shouldShowNudge now nudge (H ++ extra) userProfile = false := by
  simp only [shouldShowNudge, getProperty] at h ⊢
  rw [getNudgeFrequency_lookup] at h ⊢
  cases hbase : (getNudgeFrequency userProfile []).lookup nudge.category with
  | none =>
    rw [hbase] at h
    by_cases hp : nudge.category ∈ objectPrototypeKeys
    · simp [hp]
    · simp [hp] at h
  | some cap =>
    rw [hbase] at h
    have hpos : 1 ≤ cap := getNudgeFrequency_caps_pos userProfile [] _ (lookup_mem hbase)
    simp only [Option.map_some', List.filter_append, List.length_append] at h ⊢
    generalize (List.filter (fun n => decide (n.category = nudge.category) &&
      inLast24Hours now n.timestamp) H).length = c at h ⊢
    generalize (List.filter (fun n => decide (n.category = nudge.category) &&
      inLast24Hours now n.timestamp) extra).length = e
    by_cases h8 : H.length > 8
    · have h8e : H.length + extra.length > 8 := by omega
      simp only [h8, h8e, if_true] at h ⊢
      have hne : ¬ max 1 (cap - 1) = 0 := by omega
      simp only [hne, if_false, decide_eq_false_iff_not, not_lt] at h ⊢
      omega
    · simp only [h8, if_false] at h
      have hne : ¬ cap = 0 := by omega
      simp only [hne, if_false, decide_eq_false_iff_not, not_lt] at h
      by_cases h8e : H.length + extra.length > 8
      · simp only [h8e, if_true]
        have hne2 : ¬ max 1 (cap - 1) = 0 := by omega
        simp only [hne2, if_false, decide_eq_false_iff_not, not_lt]
        omega
      · simp only [h8e, if_false, hne, decide_eq_false_iff_not, not_lt]
        omega

/-- Witness of C28: a `confidence` nudge refused after one recent `confidence`
nudge stays refused when nine further nudges are appended. -/
theorem shouldShowNudge_antitone_witness :
    shouldShowNudge 1000000000
        { message := "m", category := "confidence", priority := "high", trigger := none,
          timestamp := none, source := none }
        [{ message := "m", category := "confidence", priority := "high", trigger := none,
           timestamp := some 999999000, source := none }] none = false ∧
    shouldShowNudge 1000000000
        { message := "m", category := "confidence", priority := "high", trigger := none,
          timestamp := none, source := none }
        ([{ message := "m", category := "confidence", priority := "high", trigger := none,
            timestamp := some 999999000, source := none }] ++ longHistory) none = false :=
  ⟨by decide,
   shouldShowNudge_antitone 1000000000 _ _ longHistory none (by decide)⟩

/-- A candidate whose category is not a key inherited from `Object.prototype`
is allowed whenever the history holds no nudge of its category with a
timestamp in the trailing 24 hours. -/
theorem shouldShowNudge_of_no_recent (now : Nat) (nudge : Nudge) (recentNudges : List Nudge)
    (userProfile : Option UserProfile)
    (hproto : nudge.category ∉ objectPrototypeKeys)
    (hnone : ∀ n ∈ recentNudges, n.category = nudge.category →
      inLast24Hours now n.timestamp = false) :
    shouldShowNudge now nudge recentNudges userProfile = true := by
  have hfilter : recentNudges.filter
      (fun n => decide (n.category = nudge.category) && inLast24Hours now n.timestamp) = [] := by
    rw [List.filter_eq_nil_iff]
    intro n hn
    by_cases hc : n.category = nudge.category
    · simp [hc, hnone n hn hc]
    · simp [hc]
  simp only [shouldShowNudge, getProperty]
  rw [hfilter]
  cases hl : (getNudgeFrequency userProfile recentNudges).lookup nudge.category with
  | none =>
    simp [hproto]
  | some cap =>
    have hpos : 1 ≤ cap := getNudgeFrequency_caps_pos userProfile recentNudges _ (lookup_mem hl)
    have hne : ¬ cap = 0 := by omega
    simp only [hne, if_false, List.length_nil, decide_eq_true_eq]
    omega

/-! ## Trigger shadowing in the activity table -/

theorem includesChars_iff_isInfix (hay needle : List Char) :
    includesChars hay needle = true ↔ needle <:+: hay := by
  induction hay with
  | nil =>
    simp [includesChars, List.isEmpty_iff]
  | cons c hay ih =>
    simp only [includesChars, Bool.or_eq_true, List.isPrefixOf_iff_prefix, ih,
      List.infix_cons_iff]

theorem includes_of_includes_append (text : String) (a b c : List Char)
    (h : includes text (String.mk (a ++ b ++ c)) = true) : includes text (String.mk b) = true := by
  unfold includes at h ⊢
  rw [includesChars_iff_isInfix] at h ⊢
  exact List.IsInfix.trans ⟨a, c, rfl⟩ h

theorem includes_work_of_workout (text : String) (h : includes text "workout" = true) :
    includes text "work" = true :=
  includes_of_includes_append text [] "work".toList "out".toList h

/-- C30. A recent text that contains `workout` or `meeting` is classified as
`work_focus`, the first activity of the table: the tip is drawn from the
`work_focus` list (the result is its personalization, and the tip itself with
no profile).  The trigger `workout` of `physical_activity` and the trigger
`meeting` of `social_interaction` never decide the outcome: for every text the
loop selects the same activity and tips when both are removed from the table. -/
theorem generateActivityBasedCoaching_shadowing (lc : String → String) (random : Nat)
    (transcript : List TranscriptEntry) (userProfile : Option UserProfile) :
    ((includes (recentText lc transcript) "workout" = true ∨
        includes (recentText lc transcript) "meeting" = true) →
      (matchedActivity ACTIVITY_BASED_COACHING (recentText lc transcript)).map
          (fun entry => entry.1) = some "work_focus" ∧
      ∃ tip ∈ workFocusTips,
        generateActivityBasedCoaching lc random transcript userProfile =
          some (personalizeNudge
            { message := tip, category := "activity_based", priority := "medium",
              trigger := none, timestamp := none, source := none } userProfile) ∧
        (generateActivityBasedCoaching lc random transcript none).map
          (fun nudge => nudge.message) = some tip) ∧
    (∀ text : String,
      (matchedActivity withoutShadowedTriggers text).map (fun entry => (entry.1, entry.2.2)) =
        (matchedActivity ACTIVITY_BASED_COACHING text).map (fun entry => (entry.1, entry.2.2))) ∧
    "workout" ∈ (ACTIVITY_BASED_COACHING.lookup "physical_activity").elim [] (fun c => c.1) ∧
    "meeting" ∈ (ACTIVITY_BASED_COACHING.lookup "social_interaction").elim [] (fun c => c.1) := by
  refine ⟨?_, ?_, by decide, by decide⟩
  · intro h
    have hwork : includes (recentText lc transcript) "work" = true ∨
        includes (recentText lc transcript) "meeting" = true :=
      h.imp (includes_work_of_workout _) id
    have hfind : matchedActivity ACTIVITY_BASED_COACHING (recentText lc transcript) =
        ACTIVITY_BASED_COACHING.head? := by
      rcases hwork with hw | hm
      · simp [matchedActivity, ACTIVITY_BASED_COACHING, List.find?, hw]
      · simp [matchedActivity, ACTIVITY_BASED_COACHING, List.find?, hm]
    refine ⟨by rw [hfind]; rfl, ?_⟩
    refine ⟨workFocusTips.getD (random % workFocusTips.length) "", ?_, ?_, ?_⟩
    · exact getD_mod_mem _ (by decide) _
    · unfold generateActivityBasedCoaching
      unfold matchedActivity at hfind
      simp only [hfind]
      rfl
    · unfold generateActivityBasedCoaching
      unfold matchedActivity at hfind
      simp only [hfind]
      rfl
  · intro text
    have hw := includes_work_of_workout text
    simp only [matchedActivity, withoutShadowedTriggers, ACTIVITY_BASED_COACHING]
    cases h1 : includes text "meeting" <;> cases h2 : includes text "work" <;>
      cases h3 : includes text "workout" <;>
      try simp_all [List.find?, List.erase, List.any]
    all_goals ((repeat' split) <;> simp_all)

/-- Witness of C30: the recent text of "Just finished my workout" contains
`workout`, and the tip returned with no profile is a `work_focus` tip. -/
theorem generateActivityBasedCoaching_shadowing_witness :
    includes (recentText asciiLower workoutBuffer) "workout" = true ∧
    ∃ tip ∈ workFocusTips,
      generateActivityBasedCoaching asciiLower 0 workoutBuffer none =
        some (personalizeNudge
          { message := tip, category := "activity_based", priority := "medium",
            trigger := none, timestamp := none, source := none } none) ∧
      (generateActivityBasedCoaching asciiLower 0 workoutBuffer none).map
        (fun nudge => nudge.message) = some tip :=
  ⟨by decide,
   ((generateActivityBasedCoaching_shadowing asciiLower 0 workoutBuffer none).1
      (Or.inl (by decide))).2⟩

/-! ## Composition of the voice-feedback text -/

theorem mainIssue_eq_specIssue (lowerTranscript : String) :
    mainIssue lowerTranscript = specIssue lowerTranscript := by
  cases h1 : (includes lowerTranscript "stressed" || includes lowerTranscript "overwhelmed") <;>
  cases h2 : (includes lowerTranscript "anxious" || includes lowerTranscript "worried") <;>
  cases h3 : (includes lowerTranscript "sad" || includes lowerTranscript "lonely") <;>
  cases h4 : (includes lowerTranscript "tired" || includes lowerTranscript "exhausted") <;>
  cases h5 : (includes lowerTranscript "failing" ||
    includes lowerTranscript "not good enough") <;>
  simp only [mainIssue, specIssue, issueRules, List.find?, h1, h2, h3, h4, h5] <;> rfl

/-- The text before the first full stop: `firstSentence insights` has no full
stop, and `insights` continues after it with a full stop or ends. -/
theorem firstSentence_spec (insights : String) :
    '.' ∉ (firstSentence insights).toList ∧
    ∃ rest : List Char, insights.toList = (firstSentence insights).toList ++ rest ∧
      (rest = [] ∨ rest.head? = some '.') := by
  unfold firstSentence
  refine ⟨?_, insights.toList.dropWhile (fun c => decide (c ≠ '.')), ?_, ?_⟩
  · intro h
    have := List.mem_takeWhile_imp h
    simp at this
  · simp [List.takeWhile_append_dropWhile]
  · cases hd : insights.toList.dropWhile (fun c => decide (c ≠ '.')) with
    | nil => exact Or.inl rfl
    | cons a rest =>
      right
      have := List.head_dropWhile_not (fun c => decide (c ≠ '.')) insights.toList
        (by rw [hd]; simp)
      simp only [hd, List.head_cons] at this
      simp at this
      simp [this]

/-- C26. For an analysis whose insights are a string (or absent), the text of
`createGeminiBasedResponse` is the concatenation, in this order, of the opening
with the issue of the first matching rule (else the fallback), the insight text
before its first full stop followed by ". " when the insight text is not empty,
the first recommendation (else the first action item) followed by a space when
there is one, the empathy sentence exactly when the sentiment is `negative`, and
the fixed closing. -/
theorem createGeminiBasedResponse_composition (lc : String → String) (analysis : Analysis)
    (transcript : String) :
    (∀ insights, analysis.insights = .text insights →
      createGeminiBasedResponse lc analysis transcript =
        some (specResponse lc insights analysis transcript)) ∧
    (analysis.insights = .falsyOther →
      createGeminiBasedResponse lc analysis transcript =
        some (specResponse lc "" analysis transcript)) ∧
    (∀ insights : String, '.' ∉ (firstSentence insights).toList ∧
      ∃ rest : List Char, insights.toList = (firstSentence insights).toList ++ rest ∧
        (rest = [] ∨ rest.head? = some '.')) := by
  refine ⟨?_, ?_, firstSentence_spec⟩
  · intro insights hins
    unfold createGeminiBasedResponse specResponse
    simp only [hins, mainIssue_eq_specIssue]
    obtain ⟨_, recommendations, actionItems, mood⟩ := analysis
    by_cases hi : insights = "" <;> cases recommendations <;> cases actionItems <;>
      cases mood <;> simp [hi, isNegative, String.append_assoc] <;>
      split <;> simp_all [String.append_assoc]
  · intro hins
    unfold createGeminiBasedResponse specResponse
    simp only [hins, mainIssue_eq_specIssue]
    obtain ⟨_, recommendations, actionItems, mood⟩ := analysis
    cases recommendations <;> cases actionItems <;>
      cases mood <;> simp [isNegative, String.append_assoc] <;>
      split <;> simp_all [String.append_assoc]

set_option maxRecDepth 100000 in
theorem specResponse_example :
    specResponse asciiLower
        "You're showing great self-awareness in recognizing your feelings." demoAnalysis
        "I'm so stressed and overwhelmed, I feel like giving up" =
      "I hear you're dealing with stress and feeling overwhelmed. " ++
      "You're showing great self-awareness in recognizing your feelings. " ++
      "Take a few deep breaths to help you feel more centered " ++
      "You're doing better than you think." := by
  decide

/-- Witness of C26: the demo analysis on the text "I'm so stressed and
overwhelmed, I feel like giving up". -/
theorem createGeminiBasedResponse_composition_witness :
    createGeminiBasedResponse asciiLower demoAnalysis
        "I'm so stressed and overwhelmed, I feel like giving up" =
      some (specResponse asciiLower
        "You're showing great self-awareness in recognizing your feelings." demoAnalysis
        "I'm so stressed and overwhelmed, I feel like giving up") ∧
    specResponse asciiLower
        "You're showing great self-awareness in recognizing your feelings." demoAnalysis
        "I'm so stressed and overwhelmed, I feel like giving up" =
      "I hear you're dealing with stress and feeling overwhelmed. " ++
      "You're showing great self-awareness in recognizing your feelings. " ++
      "Take a few deep breaths to help you feel more centered " ++
      "You're doing better than you think." :=
  ⟨(createGeminiBasedResponse_composition asciiLower demoAnalysis
      "I'm so stressed and overwhelmed, I feel like giving up").1 _ rfl,
   specResponse_example⟩

/-! ## Personalization -/

theorem expandReplacement_plain (matched after name tail : List Char)
    (h : '$' ∉ name) :
    expandReplacement matched after (name ++ tail) =
      name ++ expandReplacement matched after tail := by
  induction name with
  | nil => rfl
  | cons c rest ih =>
    have hc : c ≠ '$' := fun hc => h (by simp [hc])
    have hrest : '$' ∉ rest := fun hr => h (List.mem_cons_of_mem _ hr)
    rw [List.cons_append, expandReplacement.eq_def]
    simp only [hc, ne_eq, not_false_eq_true, if_true, ih hrest, List.cons_append]

theorem expandReplacement_template (matched after name : List Char) (h : '$' ∉ name) :
    expandReplacement matched after (name ++ ", $1".toList) = name ++ ", ".toList ++ matched := by
  rw [expandReplacement_plain _ _ _ _ h]
  simp [expandReplacement.eq_def]

theorem replaceLeadingPhrase_plain (name message : String) (h : '$' ∉ name.toList) :
    replaceLeadingPhrase (name ++ ", $1") message =
      if ∃ phrase ∈ leadingPhrases, phrase.toList <+: message.toList then
        name ++ ", " ++ message
      else message := by
  unfold replaceLeadingPhrase
  cases hfind : leadingPhrases.find?
      (fun phrase => phrase.toList.isPrefixOf message.toList) with
  | none =>
    have hno : ¬ ∃ phrase ∈ leadingPhrases, phrase.toList <+: message.toList := by
      rintro ⟨phrase, hmem, hpre⟩
      have := List.find?_eq_none.mp hfind phrase hmem
      exact this (List.isPrefixOf_iff_prefix.mpr hpre)
    simp only [hno, if_false]
  | some phrase =>
    have hmem : phrase ∈ leadingPhrases := List.mem_of_find?_eq_some hfind
    have hpre : phrase.toList <+: message.toList :=
      List.isPrefixOf_iff_prefix.mp (by simpa using List.find?_some hfind)
    have hyes : ∃ phrase ∈ leadingPhrases, phrase.toList <+: message.toList :=
      ⟨phrase, hmem, hpre⟩
    simp only [hyes, if_true]
    obtain ⟨after, hafter⟩ := hpre
    have hdrop : message.toList.drop phrase.length = after := by
      rw [← hafter]
      exact List.drop_left _ _
    have htemplate : (name ++ ", $1").toList = name.toList ++ ", $1".toList :=
      String.data_append _ _
    rw [hdrop, htemplate, expandReplacement_template _ _ _ h]
    apply String.ext
    show name.toList ++ ", ".toList ++ phrase.toList ++ after = (name ++ ", " ++ message).data
    rw [String.data_append, String.data_append, List.append_assoc, hafter]
    rfl

/-- For a profile whose name has no `$`, `personalizeNudge` changes the message as
the specification says and nothing else. -/
theorem personalizeNudge_plain_name (nudge : Nudge) (profile : UserProfile)
    (h : ∀ name, profile.name = some name → '$' ∉ name.toList) :
    personalizeNudge nudge (some profile) =
      { nudge with
        message := specPersonalizedMessage (profile.name.getD "") profile.voiceTone
          nudge.message } := by
  obtain ⟨name, voiceTone, goals, challenges⟩ := profile
  cases name with
  | none => simp [personalizeNudge, specPersonalizedMessage]
  | some name =>
    have hd := h name rfl
    by_cases hne : name = ""
    · simp [personalizeNudge, specPersonalizedMessage, hne]
    · simp only [personalizeNudge, specPersonalizedMessage, hne, ne_eq, not_false_eq_true,
        if_true, Option.getD_some, true_and, replaceLeadingPhrase_plain name nudge.message hd]

/-- C21 at its failing input: for the profile named `A$$AP` the replacement
template is `A$$AP, $1`, in which `String.prototype.replace` expands `$$` to `$`:
the message of the `can't focus` nudge becomes "A$AP, Take 5 minutes. ..." and
not "A$$AP, Take 5 minutes. ...".  With the name `Sam` and the cheerful tone the
message is the one the specification describes; category and priority are kept
in both cases. -/
theorem personalizeNudge_expands_dollar_in_name :
    (personalizeNudge focusNudge (some dollarProfile)).message =
      "A$AP, Take 5 minutes. Breathe deeply, then refocus on one task." ∧
    specPersonalizedMessage "A$$AP" (some "calm") focusNudge.message =
      "A$$AP, Take 5 minutes. Breathe deeply, then refocus on one task." ∧
    (personalizeNudge focusNudge (some dollarProfile)).message ≠
      specPersonalizedMessage "A$$AP" (some "calm") focusNudge.message ∧
    (personalizeNudge focusNudge (some samProfile)).message =
      "Sam, Take 5 minutes. Breathe deeply, then refocus on one task 😊" ∧
    (personalizeNudge focusNudge (some dollarProfile)).category = "focus" ∧
    (personalizeNudge focusNudge (some dollarProfile)).priority = "high" ∧
    personalizeNudge focusNudge none = focusNudge := by
  decide

/-! ## Background coaching: the pattern-analysis gate and the throttle -/

theorem find?_eq_filter_head? {α : Type} (p : α → Bool) (l : List α) :
    l.find? p = (l.filter p).head? := by
  induction l with
  | nil => rfl
  | cons a l ih =>
    rw [List.find?_cons, List.filter_cons]
    cases h : p a
    · exact ih
    · rfl

/-- The gate of the pattern analysis, spelled out: the buffer holds at least 5
entries, and the history holds no tip of source `pattern_analysis` or its FIRST
such tip is at least 4 hours old. -/
theorem patternAnalysisRequested_iff (env : CoachingEnv) (now : Nat)
    (transcript : List TranscriptEntry) (recentNudges : List Nudge) :
    patternAnalysisRequested env now transcript recentNudges = true ↔
      5 ≤ transcript.length ∧
      ((∀ n ∈ recentNudges, n.source ≠ some "pattern_analysis") ∨
        ∃ first t, (recentNudges.filter (fun n => n.source = some "pattern_analysis")).head? =
            some first ∧ first.timestamp = some t ∧
          t + 4 * (1000 * 60 * 60) ≤ now + env.contextualDelay) := by
  unfold patternAnalysisRequested patternAnalysisDue
  simp only [Bool.and_eq_true, decide_eq_true_eq, ge_iff_le]
  rw [and_comm]
  apply and_congr_right
  intro h5
  have hpos : transcript.length > 0 := by omega
  simp only [hpos, if_true]
  rw [find?_eq_filter_head?]
  cases hf : (recentNudges.filter (fun n => n.source = some "pattern_analysis")).head? with
  | none =>
    have hnil : recentNudges.filter (fun n => n.source = some "pattern_analysis") = [] := by
      simpa [List.head?_eq_none_iff] using hf
    simp only [true_iff]
    left
    intro n hn hs
    have : n ∈ recentNudges.filter (fun n => n.source = some "pattern_analysis") := by
      simp [List.mem_filter, hn, hs]
    rw [hnil] at this
    simp at this
  | some first =>
    have hmem : first ∈ recentNudges.filter (fun n => n.source = some "pattern_analysis") :=
      List.mem_of_mem_head? hf
    have hsrc : first.source = some "pattern_analysis" := by
      simpa using (List.mem_filter.mp hmem).2
    have hin : first ∈ recentNudges := (List.mem_filter.mp hmem).1
    cases ht : first.timestamp with
    | none =>
      simp only [ht, Bool.false_eq_true, false_iff, not_or, not_forall, not_exists]
      refine ⟨⟨first, hin, by simp [hsrc]⟩, ?_⟩
      intro f t hx
      simp only [Option.some.injEq] at hx
      obtain ⟨hf1, hf2, _⟩ := hx
      subst hf1
      rw [ht] at hf2
      simp at hf2
    | some t =>
      simp only [ht, decide_eq_true_eq]
      constructor
      · intro hge
        right
        exact ⟨first, t, rfl, ht, by omega⟩
      · rintro (hno | ⟨f, t2, hf1, hf2, hle⟩)
        · exact absurd hsrc (hno first hin)
        · simp only [Option.some.injEq] at hf1
          subst hf1
          rw [ht] at hf2
          simp only [Option.some.injEq] at hf2
          subst hf2
          omega

/-- C22 at its failing input: the history holds two pattern-analysis tips, the
first 4 h 30 min old and the most recent one 30 min old, and the buffer has five
entries.  `recentNudges.find` returns the first tip of the history, so the
pattern analysis is requested again and its tip is returned, although far less
than 4 hours have passed since the most recent pattern tip.  On the service this
repeats at every cycle once the first tip is 4 hours old: two cycles 30 minutes
apart both append a pattern tip. -/
theorem patternAnalysis_requested_again :
    lastPatternTip [patternTip 1000000, patternTip 15400000] = some (patternTip 15400000) ∧
    (17200000 + answeringEnv.contextualDelay) - 15400000 < 4 * (1000 * 60 * 60) ∧
    patternAnalysisRequested answeringEnv 17200000 fiveEntries
      [patternTip 1000000, patternTip 15400000] = true ∧
    (generateBackgroundCoaching asciiLower answeringEnv 17200000 fiveEntries none
        [patternTip 1000000, patternTip 15400000]).getLast? =
      some (patternTip 17202000) ∧
    patternAnalysisRequested answeringEnv 17200000 fiveEntries [patternTip 15400000] = false ∧
    ((backgroundCoachingCycle asciiLower answeringEnv
        { backgroundCoachingCycle asciiLower answeringEnv seasonedService with
          now := 17200000 }).coachingHistory.filter
        (fun n => n.source = some "pattern_analysis")).map (fun n => n.timestamp) =
      [some 1000000, some 15402000, some 17202000] := by
  decide

/-- The result of `generateBackgroundCoaching` as the concatenation of the
contributions of its four steps. -/
theorem generateBackgroundCoaching_eq (lc : String → String) (env : CoachingEnv) (now : Nat)
    (transcript : List TranscriptEntry) (userProfile : Option UserProfile)
    (recentNudges : List Nudge) :
    generateBackgroundCoaching lc env now transcript userProfile recentNudges =
      ((((generateTimeBasedCoaching env.currentHour env.timeRandom userProfile
              |> fun tip => if shouldShowNudge now tip recentNudges userProfile then
                  [{ tip with timestamp := some now, source := some "time_based" }] else []) ++
          ((generateActivityBasedCoaching lc env.activityRandom transcript userProfile).toList.filter
              (fun tip => shouldShowNudge now tip recentNudges userProfile)).map
            (fun tip => { tip with timestamp := some now, source := some "activity_based" })) ++
        (if transcript.length > 0 then
          ((generateContextualNudge (now + env.contextualDelay)
                env.contextualResponse).toList.filter
              (fun tip => shouldShowNudge (now + env.contextualDelay) tip recentNudges
                userProfile)).map
            (fun tip => { tip with source := some "ai_contextual" })
         else [])) ++
        (if patternAnalysisRequested env now transcript recentNudges then
          env.patternEncouragement.toList.map (fun encouragement =>
            { message := encouragement, category := "pattern_analysis", priority := "low",
              trigger := none,
              timestamp := some ((if transcript.length > 0 then now + env.contextualDelay
                else now) + env.patternDelay),
              source := some "pattern_analysis" })
         else [])) := by
  unfold generateBackgroundCoaching patternAnalysisRequested
  simp only []
  generalize generateTimeBasedCoaching env.currentHour env.timeRandom userProfile = timeTip
  generalize generateActivityBasedCoaching lc env.activityRandom transcript userProfile =
    activityTip
  generalize (patternAnalysisDue (if transcript.length > 0 then now + env.contextualDelay
    else now) recentNudges && decide (transcript.length ≥ 5)) = due
  by_cases hlen : transcript.length > 0
  · simp only [hlen, if_true]
    generalize generateContextualNudge (now + env.contextualDelay) env.contextualResponse =
      contextualTip
    cases due <;> cases env.patternEncouragement <;>
      cases activityTip <;> cases contextualTip <;>
      simp [List.filter] <;> (repeat' split) <;> simp_all
  · simp only [hlen, if_false]
    cases due <;> cases env.patternEncouragement <;>
      cases activityTip <;>
      simp [List.filter] <;> (repeat' split) <;> simp_all

/-- The tips of `generateBackgroundCoaching` are at most four, and every returned
tip other than the pattern-analysis tip passed `shouldShowNudge` against the
history when it was generated. -/
theorem generateBackgroundCoaching_gated (lc : String → String) (env : CoachingEnv) (now : Nat)
    (transcript : List TranscriptEntry) (userProfile : Option UserProfile)
    (recentNudges : List Nudge) :
    (generateBackgroundCoaching lc env now transcript userProfile recentNudges).length ≤ 4 ∧
    ∀ tip ∈ generateBackgroundCoaching lc env now transcript userProfile recentNudges,
      tip.source ≠ some "pattern_analysis" →
        shouldShowNudge now tip recentNudges userProfile = true ∨
        shouldShowNudge (now + env.contextualDelay) tip recentNudges userProfile = true := by
  have hcat : ∀ (time : Nat) (a b : Nudge), a.category = b.category →
      shouldShowNudge time a recentNudges userProfile =
        shouldShowNudge time b recentNudges userProfile := by
    intro time a b hab
    simp only [shouldShowNudge, hab]
  have hopt : ∀ (o : Option Nudge) (p : Nudge → Bool), (o.toList.filter p).length ≤ 1 := by
    intro o p
    cases o with
    | none => simp
    | some a => by_cases h : p a <;> simp [List.filter, h]
  rw [generateBackgroundCoaching_eq]
  constructor
  · simp only [List.length_append, List.length_map]
    have h1 := hopt (generateActivityBasedCoaching lc env.activityRandom transcript userProfile)
      (fun tip => shouldShowNudge now tip recentNudges userProfile)
    have h2 := hopt (generateContextualNudge (now + env.contextualDelay) env.contextualResponse)
      (fun tip => shouldShowNudge (now + env.contextualDelay) tip recentNudges userProfile)
    have h3 : env.patternEncouragement.toList.length ≤ 1 := by
      cases env.patternEncouragement <;> simp
    split <;> split <;> split <;> simp only [List.length_map, List.length_cons, List.length_nil] <;> omega
  · intro tip htip hsrc
    simp only [List.mem_append] at htip
    rcases htip with ((h | h) | h) | h
    · left
      split at h
      · rename_i hshow
        simp only [List.mem_singleton] at h
        rw [h, ← hshow]
        exact hcat _ _ _ rfl
      · simp at h
    · left
      simp only [List.mem_map, List.mem_filter] at h
      obtain ⟨t, ⟨_, hshow⟩, rfl⟩ := h
      rw [← hshow]
      exact hcat _ _ _ rfl
    · right
      split at h
      · simp only [List.mem_map, List.mem_filter] at h
        obtain ⟨t, ⟨_, hshow⟩, rfl⟩ := h
        rw [← hshow]
        exact hcat _ _ _ rfl
      · simp at h
    · exfalso
      split at h
      · simp only [List.mem_map] at h
        obtain ⟨e, _, rfl⟩ := h
        exact hsrc rfl
      · simp at h

/-- C23 at its failing input: the history holds one pattern-analysis tip shown
4 hours ago and the buffer has five entries.  The run returns three tips, the
last one a `pattern_analysis` tip that `shouldShowNudge` refuses (the cap of
`pattern_analysis` is 1 per 24 hours and one was shown): the fourth step pushes
its tip without calling `shouldShowNudge`, unlike the three steps before it. -/
theorem generateBackgroundCoaching_pattern_tip_not_throttled :
    (generateBackgroundCoaching asciiLower answeringEnv 15400000 fiveEntries none
        [patternTip 1000000]).map (fun tip => tip.category) =
      ["time_based", "ai_generated", "pattern_analysis"] ∧
    patternTip 15402000 ∈ generateBackgroundCoaching asciiLower answeringEnv 15400000
      fiveEntries none [patternTip 1000000] ∧
    shouldShowNudge 15400000 (patternTip 15402000) [patternTip 1000000] none = false ∧
    shouldShowNudge 15402000 (patternTip 15402000) [patternTip 1000000] none = false ∧
    (∀ tip ∈ generateBackgroundCoaching asciiLower answeringEnv 15400000 fiveEntries none
        [patternTip 1000000],
      tip.category ≠ "pattern_analysis" →
        shouldShowNudge 15400000 tip [patternTip 1000000] none = true) := by
  decide

/-! ## Speech-synthesis failure -/

/-- When the cooldown has elapsed, the response text is built and `textToSpeech`
resolves to null, `provideVoiceFeedback` ends with recording paused, without
event and without recording a feedback time. -/
theorem provideVoiceFeedback_speech_failure (lc : String → String) (env : PipelineEnv)
    (analysis : Analysis) (transcript : String) (s : Service)
    (hshould : shouldProvideVoiceFeedback s = true)
    (htext : analysis.insights ≠ .truthyOther)
    (hspeech : env.speech = none) :
    (provideVoiceFeedback lc env analysis transcript s).isPaused = true ∧
    (provideVoiceFeedback lc env analysis transcript s).trace = s.trace ∧
    (provideVoiceFeedback lc env analysis transcript s).lastVoiceFeedback =
      s.lastVoiceFeedback := by
  have hresp : ∃ text, createGeminiBasedResponse lc analysis transcript = some text := by
    unfold createGeminiBasedResponse
    cases hi : analysis.insights with
    | text insights => by_cases h : insights = "" <;> simp [h]
    | falsyOther => simp
    | truthyOther => exact absurd hi htext
  obtain ⟨text, htext2⟩ := hresp
  simp [provideVoiceFeedback, hshould, htext2, hspeech, pauseRecording]

/-- C24 at its failing input: the stressed segment is processed while
`textToSpeech` resolves to null.  `provideVoiceFeedback` has paused recording and
returns through the `if (audioUri && this.onVoiceFeedback)` without reaching the
`catch` that resumes: `isPaused` is true when it completes, and stays true after
the pipeline and the next rotation, so the following timer ticks cut no segment.
No voice-feedback event is emitted.  When building the text raises instead, the
`catch` does resume. -/
theorem provideVoiceFeedback_stays_paused_without_audio :
    shouldProvideVoiceFeedback readyService = true ∧
    (provideVoiceFeedback asciiLower silentSpeechSegment demoAnalysis
        "I'm so stressed and overwhelmed, I feel like giving up" readyService).isPaused = true ∧
    voiceTimes (provideVoiceFeedback asciiLower silentSpeechSegment demoAnalysis
        "I'm so stressed and overwhelmed, I feel like giving up" readyService).trace = [] ∧
    (recordingTick asciiLower (nudgeEngine asciiLower) ⟨true, silentSpeechSegment⟩ nextSegment
        (startRecording sampleStart readyService)).isPaused = true ∧
    recordingTick asciiLower (nudgeEngine asciiLower) ⟨true, calmSegment⟩ nextSegment
        (recordingTick asciiLower (nudgeEngine asciiLower) ⟨true, silentSpeechSegment⟩
          nextSegment (startRecording sampleStart readyService)) =
      recordingTick asciiLower (nudgeEngine asciiLower) ⟨true, silentSpeechSegment⟩ nextSegment
        (startRecording sampleStart readyService) ∧
    (provideVoiceFeedback asciiLower silentSpeechSegment
        { demoAnalysis with insights := .truthyOther }
        "I'm so stressed and overwhelmed, I feel like giving up" readyService).isPaused =
      false := by
  decide

/-! ## The demo payload of the insight service -/

/-- On the payload as the module defines it, a transcript without any of the six
words is answered with the demo payload, which stays as it is. -/
theorem generateCoachingInsights_first_call (lc : String → String) (transcript : String)
    (h : ∀ word ∈ ["work", "project", "tired", "exhausted", "stressed", "anxious"],
      includes (lc transcript) word = false) :
    generateCoachingInsights lc none none transcript demoCoaching =
      (demoCoaching, demoCoaching) := by
  have h1 := h "work" (by decide)
  have h2 := h "project" (by decide)
  have h3 := h "tired" (by decide)
  have h4 := h "exhausted" (by decide)
  have h5 := h "stressed" (by decide)
  have h6 := h "anxious" (by decide)
  simp [generateCoachingInsights, demoMode, demoCoachingInsights, h1, h2, h3, h4, h5, h6]

/-- C25 at its failing input: without an API key, the call for "I am stressed about
work" is followed by the call for "Hello there".  The first call appended to the
arrays of `DEMO_RESPONSES.coaching` and assigned its `moodAnalysis` through the
shallow copy, so the second call, whose transcript has none of the six words,
returns two themes, three recommendations and the sentiment `stressed` instead
of the demo payload; asked first, "Hello there" gets the demo payload.  Two calls
with the same transcript return different results. -/
theorem generateCoachingInsights_demo_payload_shared :
    demoMode none = true ∧
    (∀ word ∈ ["work", "project", "tired", "exhausted", "stressed", "anxious"],
      includes (asciiLower "Hello there") word = false) ∧
    demoResponses asciiLower ["Hello there"] demoCoaching = [demoCoaching] ∧
    (demoResponses asciiLower ["I am stressed about work", "Hello there"] demoCoaching).getLast? =
      some
        { insights := "You're showing great self-awareness in recognizing your feelings."
          themes :=
            [{ name := "Self-awareness",
               description := "You're developing deeper understanding of yourself" },
             { name := "Professional growth",
               description := "You're balancing work and personal development" }]
          recommendations :=
            ["Take a few deep breaths to help you feel more centered",
             "Set clear boundaries between work and personal time",
             "Practice deep breathing when you feel overwhelmed"]
          moodAnalysis :=
            { sentiment := "stressed"
              description := "You're aware of your stress and seeking balance" }
          actionItems := ["Try taking a short break to refresh your mind"] } ∧
    (demoResponses asciiLower ["I am stressed about work", "Hello there"]
        demoCoaching).getLast? ≠ some demoCoaching ∧
    (demoResponses asciiLower ["I am stressed about work", "I am stressed about work"]
        demoCoaching).map (fun response => response.recommendations.length) = [3, 5] := by
  decide

/-! ## Overlapping rotations -/

/-- A rotation that is not interleaved, begun by `Session.tickBegin` and completed by
`Session.rotationResume`, is the timer callback `recordingTick` run in one piece. -/
theorem rotationResume_tickBegin (lc : String → String) (eng : NudgeEngine)
    (env : PipelineEnv) (seg seg2 : SegmentEnv) (uri : String) (x : Session)
    (hrec : x.service.isRecording = true) (hpaused : x.service.isPaused = false)
    (hcur : x.service.currentRecording = some uri) (hpending : uri ∉ x.pendingRotations) :
    (Session.rotationResume lc eng env seg uri (Session.tickBegin seg2 x)).service =
      recordingTick lc eng ⟨true, env⟩ seg x.service ∧
    (Session.rotationResume lc eng env seg uri (Session.tickBegin seg2 x)).pendingRotations =
      x.pendingRotations := by
  have hmem : uri ∈ x.pendingRotations ++ [uri] := by simp
  have herase : (x.pendingRotations ++ [uri]).erase uri = x.pendingRotations := by
    rw [List.erase_append_right _ hpending]
    simp
  simp [Session.rotationResume, Session.tickBegin, Session.startSegment, recordingTick,
    rotateRecording, stopCurrentRecording, hrec, hpaused, hcur, herase]

/-- C27 at its failing input: the first tick closes segment 1 and its rotation
is suspended on the pipeline; ten seconds later the second tick fires while that
rotation is pending.  Nothing stops it: it runs a second rotation, which opens
segment 2.  When the first rotation resumes it opens segment 3 and overwrites
`currentRecording`: segments 2 and 3 are open together and segment 2 can no
longer be stopped.  If the platform refuses the third recording, the first
rotation has still entered `startRecordingSegment` while segment 2 was open. -/
theorem recordingTick_overlaps_pending_rotation :
    startedSession.openSegments = ["file://segment-1.m4a"] ∧
    (Session.tickBegin nextSegment (Session.elapse 10000 startedSession)).pendingRotations =
      ["file://segment-1.m4a"] ∧
    overlappedSession.pendingRotations = ["file://segment-1.m4a"] ∧
    overlappedSession.service.currentRecording = some "file://segment-2.m4a" ∧
    segmentStarts overlappedSession.service.trace = [false, false] ∧
    (Session.rotationResume asciiLower (nudgeEngine asciiLower) slowSegment thirdSegment
        "file://segment-1.m4a" overlappedSession).openSegments =
      ["file://segment-2.m4a", "file://segment-3.m4a"] ∧
    (Session.rotationResume asciiLower (nudgeEngine asciiLower) slowSegment thirdSegment
        "file://segment-1.m4a" overlappedSession).service.currentRecording =
      some "file://segment-3.m4a" ∧
    segmentStarts (Session.rotationResume asciiLower (nudgeEngine asciiLower) slowSegment
        { newRecording := none } "file://segment-1.m4a" overlappedSession).service.trace =
      [false, false, false] := by
  decide

/-! ## The floor of the caps -/

/-- C29 at its failing input: every cap of the table is at least 1 and the
history holds no nudge of category `toString`, yet a candidate of that category
is refused: `frequency["toString"]` is the function inherited from
`Object.prototype`, so the guard for categories without a cap does not fire and
the comparison with it is false.  Candidates of the capped category `confidence`
and of the unlisted category `communication` are allowed with the same history. -/
theorem shouldShowNudge_refuses_inherited_category :
    (∀ kv ∈ getNudgeFrequency none longHistory, 1 ≤ kv.2) ∧
    longHistory.filter (fun n => n.category = "toString") = [] ∧
    shouldShowNudge 1000000000
      { message := "m", category := "toString", priority := "low", trigger := none,
        timestamp := none, source := none } longHistory none = false ∧
    shouldShowNudge 1000000000
      { message := "m", category := "confidence", priority := "low", trigger := none,
        timestamp := none, source := none } longHistory none = true ∧
    shouldShowNudge 1000000000
      { message := "m", category := "communication", priority := "low", trigger := none,
        timestamp := none, source := none } longHistory none = true := by
  decide

end MiCoach
